import Mathlib

/-!
# SureShot native wrappers: a shallow embedding

Two interop shims are embedded here:

* `MarkerDetectorWrapper.cpp` (the ALVAR vision wrapper): the global registries
  `cams`, `markerDetectors`, `multiMarkers`, the scratch globals `image`,
  `idTable`, `foundPtr`, `foundMarkers`, `curMaxTrackError`, and the calibration
  globals `pp`, `calibration_started` become one record `AState`; every exported
  function becomes a function on that record.
* `HavokPhysics.cpp` with `ContactListener.cpp`, `PhantomCallback.cpp` and
  `BroadphaseBorder.cpp` (the physics wrapper).

The wrapped libraries are not part of the repository.  Their behaviour is a
parameter (`Alvar`, `Havok`): every theorem holds for every behaviour of the
library.  Each call into a library is also appended to a call log, so that
statements about which calls are issued, and in which order, can be made.

The build targeted is the 32-bit Windows one (`__declspec(dllexport)`, pointers
cast to `int`): `int` is 32 bits wide and `size_t` is an unsigned 32-bit type.
-/

namespace SureShot

set_option linter.unusedVariables false
set_option linter.unnecessarySeqFocus false

/-! ## Machine integers -/

/-- Values of the C++ type `int`. -/
def isInt (i : Int) : Prop := -2147483648 ≤ i ∧ i < 2147483648

instance (i : Int) : Decidable (isInt i) := by unfold isInt; infer_instance

/-- Conversion of an `int` to `size_t`, as done when a signed index is compared
with `vector::size()` or handed to `vector::operator[]`: reduction modulo 2^32. -/
def toSizeT (i : Int) : Nat := (i % 4294967296).toNat

/-- Conversion of an unsigned 32-bit quantity to `int` (two's complement). -/
def toInt (n : Int) : Int := (n + 2147483648) % 4294967296 - 2147483648

/-- The test `index >= table.size()` with `index` an `int`: the index is converted to
`size_t` first. -/
def geSize (index : Int) (size : Nat) : Bool := decide (size ≤ toSizeT index)

/-- Native pointers that the wrappers only pass around; `0` is `NULL`. -/
abbrev Ptr := Nat

/-- Undefined behaviour (or a thrown `out_of_range`) that an exported function of the
vision wrapper can run into, by the container that is indexed out of bounds. -/
inductive Fault where
  | cams_index
  | markerDetectors_index
  | markers_index
  | foundMarkers_index
  | multiMarkers_at
  deriving DecidableEq, Repr

/-- Reading `v[i]` of a `std::vector` with an `int` index: out of bounds is a fault. -/
def vecAt {α : Type} (v : List α) (i : Int) (f : Fault) : Except Fault α :=
  match v[toSizeT i]? with
  | some x => .ok x
  | none => .error f

/-- Writing through `v[i]` of a `std::vector` (after `vecAt` succeeded). -/
def vecSet {α : Type} (v : List α) (i : Int) (x : α) : List α := v.set (toSizeT i) x

/-- A caller-supplied buffer, seen from the pointer that is passed in. -/
abbrev Buf (α : Type) := Nat → α

/-- Store to `buf[i]`. -/
def Buf.write {α : Type} (buf : Buf α) (i : Nat) (x : α) : Buf α :=
  fun k => if k = i then x else buf k

/-- Block copy `memcpy(buf + off, src, len * sizeof(elem))`. -/
def Buf.memcpy {α : Type} (buf : Buf α) (off : Nat) (src : Buf α) (len : Nat) : Buf α :=
  fun k => if off ≤ k ∧ k < off + len then src (k - off) else buf k

/-- A counted loop `for (i = 0; i < n; ++i) body`, with faults stopping it. -/
def forLoop {σ : Type} (n : Nat) (body : Nat → σ → Except Fault σ) (init : σ) :
    Except Fault σ :=
  (List.range n).foldlM (fun st i => body i st) init

/-- The test `strstr(s, pat) != NULL` on character lists. -/
def hasSubstr (pat : List Char) : List Char → Bool
  | [] => pat.isEmpty
  | c :: cs => (pat.isPrefixOf (c :: cs)) || hasSubstr pat cs

/-! ## `std::map<int, int>` -/

/-- The statement `m[k] = v` on a map kept as a key-ordered association list. -/
def mapSet : List (Int × Int) → Int → Int → List (Int × Int)
  | [], k, v => [(k, v)]
  | (k0, v0) :: t, k, v =>
    if k < k0 then (k, v) :: (k0, v0) :: t
    else if k = k0 then (k, v) :: t
    else (k0, v0) :: mapSet t k v

/-- The call `m.find(k)`: the entry with key `k`, or `none` for `m.end()`. -/
def mapFind : List (Int × Int) → Int → Option (Int × Int)
  | [], _ => none
  | (k0, v0) :: t, k => if k = k0 then some (k0, v0) else mapFind t k

/-! ## The vision wrapper: data -/

/-- The struct `IplImage`, with the fields the wrapper assigns. -/
structure IplImage where
  nSize : Int
  ID : Int
  nChannels : Int
  alphaChannel : Int
  depth : Int
  colorModel : List Nat
  channelSeq : List Nat
  dataOrder : Int
  origin : Int
  align : Int
  width : Int
  height : Int
  roi : Ptr
  maskROI : Ptr
  imageId : Ptr
  tileInfo : Ptr
  imageSize : Int
  imageData : Ptr
  widthStep : Int
  imageDataOrigin : Ptr
  deriving DecidableEq, Repr

/-- The zero-initialised global `image`. -/
def IplImage.zero : IplImage :=
  ⟨0, 0, 0, 0, 0, [0, 0, 0, 0], [0, 0, 0, 0], 0, 0, 0, 0, 0, 0, 0, 0, 0, 0, 0, 0, 0⟩

/-- Calls into the ALVAR library, as they are written in `MarkerDetectorWrapper.cpp`. -/
inductive AlvarCall where
  | Camera_new
  | Camera_SetCalib
  | Camera_SetRes
  | Camera_GetOpenglProjectionMatrix
  | Camera_GetFovX
  | Camera_GetFovY
  | MarkerDetector_new
  | MarkerDetector_SetMarkerSize
  | MarkerDetector_SetMarkerSizeForId
  | MultiMarker_new
  | MultiMarker_Load
  | MarkerDetector_Detect
  | MarkerData_GetId
  | Pose_new
  | Pose_GetMatrixGL
  | MultiMarker_Update
  | MultiMarker_SetTrackMarkers
  | MarkerDetector_DetectAdditional
  | ProjPoints_AddPointsUsingChessboard
  | Camera_Calibrate
  | ProjPoints_Reset
  | Camera_SaveCalib
  deriving DecidableEq, Repr

/-- The ALVAR library, which the repository does not contain: the types of its objects
and what each of its functions returns.  A method is given the object it is called on and
the objects it is handed by non-const pointer or reference, and returns their new values
next to its result.  `sizeofIplImage` and `IPL_DEPTH_8U` are the constants of the image
header that the wrapper uses. -/
structure Alvar where
  Double : Type
  Float : Type
  Camera : Type
  Detector : Type
  Marker : Type
  Pose : Type
  MultiMarker : Type
  ProjPoints : Type
  sizeofIplImage : Int
  IPL_DEPTH_8U : Int
  zero : Double
  FILE_FORMAT_XML : Int
  FILE_FORMAT_DEFAULT : Int
  Camera_new : Camera
  SetCalib : Camera → String → Int → Int → Bool × Camera
  SetRes : Camera → Int → Int → Camera
  GetOpenglProjectionMatrix : Camera → Buf Double → Int → Int → Float → Float →
    Buf Double × Camera
  GetFovX : Camera → Double × Camera
  GetFovY : Camera → Double × Camera
  MarkerDetector_new : Detector
  SetMarkerSize : Detector → Double → Int → Double → Detector
  SetMarkerSizeForId : Detector → Int → Double → Detector
  MultiMarker_new : MultiMarker
  Load : MultiMarker → String → Int → MultiMarker
  Detect : Detector → IplImage → Camera → Bool → Bool → Double → Double →
    Detector × Camera
  markers : Detector → List Marker
  GetId : Marker → Int
  pose : Marker → Pose
  Pose_new : Pose
  GetMatrixGL : Pose → Buf Double
  Update : MultiMarker → Detector → Camera → Pose →
    Double × MultiMarker × Detector × Camera × Pose
  SetTrackMarkers : MultiMarker → Detector → Camera → Pose →
    MultiMarker × Detector × Camera × Pose
  DetectAdditional : Detector → IplImage → Camera → Bool → Double → Detector × Camera
  ProjPoints_new : ProjPoints
  AddPointsUsingChessboard : ProjPoints → IplImage → Double → Int → Int → Bool →
    Bool × ProjPoints
  Calibrate : Camera → ProjPoints → Camera × ProjPoints
  Reset : ProjPoints → ProjPoints
  SaveCalib : Camera → String → Bool × Camera

/-- The struct `ALVARCamera`; the `Camera` behind the pointer `cam` is owned by the entry. -/
structure ALVARCamera (L : Alvar) where
  cam : L.Camera
  width : Int
  height : Int

/-- The globals of `MarkerDetectorWrapper.cpp` that its functions use (`hide_texture`,
`hide_texture_size`, `channels` and `margin` are never touched), and the log of calls
into the library. -/
structure AState (L : Alvar) where
  cams : List (ALVARCamera L)
  markerDetectors : List L.Detector
  multiMarkers : List L.MultiMarker
  image : IplImage
  idTable : List (Int × Int)
  foundPtr : Option (Int × Int)
  foundMarkers : List Int
  curMaxTrackError : L.Double
  pp : L.ProjPoints
  calibration_started : Bool
  calls : List AlvarCall

/-- The globals after static initialisation, before any exported function has run. -/
def AState.start (L : Alvar) : AState L where
  cams := []
  markerDetectors := []
  multiMarkers := []
  image := IplImage.zero
  idTable := []
  foundPtr := none
  foundMarkers := []
  curMaxTrackError := L.zero
  pp := L.ProjPoints_new
  calibration_started := false
  calls := []

/-- Record one call into the library. -/
def AState.logCall {L : Alvar} (s : AState L) (c : AlvarCall) : AState L :=
  { s with calls := s.calls ++ [c] }

/-- The assignments to the header `image` that `alvar_detect_marker` and
`alvar_calibrate_camera` share; `cam` is `cams[camID]`. -/
def fillImageHeader {L : Alvar} (cam : ALVARCamera L) (nChannels : Int)
    (colorModel channelSeq : Buf Nat) (imageData : Ptr) : IplImage where
  nSize := L.sizeofIplImage
  ID := 0
  nChannels := nChannels
  alphaChannel := 0
  depth := L.IPL_DEPTH_8U
  colorModel := [colorModel 0, colorModel 1, colorModel 2, colorModel 3]
  channelSeq := [channelSeq 0, channelSeq 1, channelSeq 2, channelSeq 3]
  dataOrder := 0
  origin := 0
  align := 4
  width := cam.width
  height := cam.height
  roi := 0
  maskROI := 0
  imageId := 0
  tileInfo := 0
  widthStep := toInt (cam.width * nChannels)
  imageSize := toInt (cam.height * toInt (cam.width * nChannels))
  imageData := imageData
  imageDataOrigin := 0

/-! ## The vision wrapper: exported functions

Pointer arguments that are written through (`projMat`, `fovX`, `ids`, ...) are passed
in with their content before the call and returned with their content after it; they are
taken to be distinct objects. -/

/-- The function `alvar_init`. -/
def alvar_init {L : Alvar} (s : AState L) : AState L :=
  { s with calibration_started := false }

/-- The function `alvar_add_camera`; `calibFile = none` is the `NULL` pointer.  The camera
is pushed whether or not the calibration file could be loaded. -/
def alvar_add_camera {L : Alvar} (s : AState L) (calibFile : Option String)
    (width height : Int) : Int × AState L :=
  let ret : Int := -1
  let cam0 := L.Camera_new
  let s1 := s.logCall .Camera_new
  let r : Int × L.Camera × AState L :=
    match calibFile with
    | some f =>
      let c := L.SetCalib cam0 f width height
      let s2 := s1.logCall .Camera_SetCalib
      if c.1 then (toInt s2.cams.length, c.2, s2)
      else (ret, L.SetRes c.2 width height, s2.logCall .Camera_SetRes)
    | none => (ret, L.SetRes cam0 width height, s1.logCall .Camera_SetRes)
  let camera : ALVARCamera L := { cam := r.2.1, width := width, height := height }
  (r.1, { r.2.2 with cams := r.2.2.cams ++ [camera] })

/-- The function `alvar_get_camera_projection`. -/
def alvar_get_camera_projection {L : Alvar} (s : AState L) (calibFile : Option String)
    (width height : Int) (farClip nearClip : L.Float) (projMat : Buf L.Double) :
    AState L × Buf L.Double :=
  let cam0 := L.Camera_new
  let s1 := s.logCall .Camera_new
  let r : L.Camera × AState L :=
    match calibFile with
    | some f => ((L.SetCalib cam0 f width height).2, s1.logCall .Camera_SetCalib)
    | none => (cam0, s1)
  let g := L.GetOpenglProjectionMatrix r.1 projMat width height farClip nearClip
  (r.2.logCall .Camera_GetOpenglProjectionMatrix, g.1)

/-- The function `alvar_get_camera_params`; the result lists the return value, the
globals, and the contents of `projMat`, `*fovX` and `*fovY`. -/
def alvar_get_camera_params {L : Alvar} (s : AState L) (camID : Int)
    (projMat : Buf L.Double) (fovX fovY : L.Double) (farClip nearClip : L.Float) :
    Except Fault (Int × AState L × Buf L.Double × L.Double × L.Double) :=
  if geSize camID s.cams.length then
    .ok (-1, s, projMat, fovX, fovY)
  else do
    let c ← vecAt s.cams camID .cams_index
    let g := L.GetOpenglProjectionMatrix c.cam projMat c.width c.height farClip nearClip
    let s1 := { s.logCall .Camera_GetOpenglProjectionMatrix with
                cams := vecSet s.cams camID { c with cam := g.2 } }
    let c1 ← vecAt s1.cams camID .cams_index
    let fx := L.GetFovX c1.cam
    let s2 := { s1.logCall .Camera_GetFovX with
                cams := vecSet s1.cams camID { c1 with cam := fx.2 } }
    let c2 ← vecAt s2.cams camID .cams_index
    let fy := L.GetFovY c2.cam
    let s3 := { s2.logCall .Camera_GetFovY with
                cams := vecSet s2.cams camID { c2 with cam := fy.2 } }
    .ok (0, s3, g.1, fx.1, fy.1)

/-- The function `alvar_add_marker_detector`; the value returned is
`markerDetectors.size() - 1`, computed in `size_t` and converted to `int`. -/
def alvar_add_marker_detector {L : Alvar} (s : AState L) (markerSize : L.Double)
    (markerRes : Int) (margin : L.Double) : Int × AState L :=
  let d0 := L.MarkerDetector_new
  let s1 := s.logCall .MarkerDetector_new
  let d1 := L.SetMarkerSize d0 markerSize markerRes margin
  let s2 := s1.logCall .MarkerDetector_SetMarkerSize
  let s3 := { s2 with markerDetectors := s2.markerDetectors ++ [d1] }
  (toInt ((s3.markerDetectors.length : Int) - 1), s3)

/-- The function `alvar_set_marker_size`. -/
def alvar_set_marker_size {L : Alvar} (s : AState L) (detectorID markerID : Int)
    (markerSize : L.Double) : Except Fault (Int × AState L) :=
  if geSize detectorID s.markerDetectors.length then
    .ok (-1, s)
  else do
    let d ← vecAt s.markerDetectors detectorID .markerDetectors_index
    let d1 := L.SetMarkerSizeForId d markerID markerSize
    .ok (0, { s.logCall .MarkerDetector_SetMarkerSizeForId with
              markerDetectors := vecSet s.markerDetectors detectorID d1 })

/-- The function `alvar_add_multi_marker`. -/
def alvar_add_multi_marker {L : Alvar} (s : AState L) (filename : String) : AState L :=
  let m0 := L.MultiMarker_new
  let s1 := s.logCall .MultiMarker_new
  let m1 :=
    if hasSubstr ".xml".toList filename.toList then L.Load m0 filename L.FILE_FORMAT_XML
    else L.Load m0 filename L.FILE_FORMAT_DEFAULT
  let s2 := s1.logCall .MultiMarker_Load
  { s2 with multiMarkers := s2.multiMarkers ++ [m1] }

/-- One round of the first loop of `alvar_detect_marker`:
`tmpID = (*(markerDetectors[detectorID]->markers))[i].GetId(); idTable[tmpID] = i;`. -/
def detectTableStep {L : Alvar} (detectorID : Int) (i : Nat) (s : AState L) :
    Except Fault (AState L) := do
  let d ← vecAt s.markerDetectors detectorID .markerDetectors_index
  let m ← vecAt (L.markers d) (i : Int) .markers_index
  let tmpID := L.GetId m
  .ok { s.logCall .MarkerData_GetId with idTable := mapSet s.idTable tmpID (i : Int) }

/-- One round of the second loop of `alvar_detect_marker`, on the globals and the local
`markerCount`: `foundPtr = idTable.find(interestedMarkerIDs[i]);` and, when it is not
`idTable.end()`, `foundMarkers.push_back(foundPtr->second); markerCount++;`. -/
def detectFindStep {L : Alvar} (interestedMarkerIDs : Buf Int) (i : Nat)
    (st : AState L × Int) : Except Fault (AState L × Int) :=
  let fp := mapFind st.1.idTable (interestedMarkerIDs i)
  let s1 := { st.1 with foundPtr := fp }
  match fp with
  | some e => .ok ({ s1 with foundMarkers := s1.foundMarkers ++ [e.2] }, st.2 + 1)
  | none => .ok (s1, st.2)

/-- The function `alvar_detect_marker`; the result lists the globals and the contents of
`*numFoundMarkers` and `*numInterestedMarkers`. -/
def alvar_detect_marker {L : Alvar} (s : AState L) (detectorID camID nChannels : Int)
    (colorModel channelSeq : Buf Nat) (imageData : Ptr) (interestedMarkerIDs : Buf Int)
    (numFoundMarkers numInterestedMarkers : Int) (maxMarkerError maxTrackError : L.Double) :
    Except Fault (AState L × Int × Int) :=
  if geSize detectorID s.markerDetectors.length || geSize camID s.cams.length then
    .ok (s, numFoundMarkers, numInterestedMarkers)
  else do
    let c ← vecAt s.cams camID .cams_index
    let s1 := { s with image := fillImageHeader c nChannels colorModel channelSeq imageData }
    let d ← vecAt s1.markerDetectors detectorID .markerDetectors_index
    let c1 ← vecAt s1.cams camID .cams_index
    let r := L.Detect d s1.image c1.cam true false maxMarkerError maxTrackError
    let s2 := { s1.logCall .MarkerDetector_Detect with
                markerDetectors := vecSet s1.markerDetectors detectorID r.1,
                cams := vecSet s1.cams camID { c1 with cam := r.2 } }
    let s3 := { s2 with curMaxTrackError := maxTrackError }
    let d1 ← vecAt s3.markerDetectors detectorID .markerDetectors_index
    let numFound := toInt (L.markers d1).length
    let interestedMarkerNum := numInterestedMarkers
    let markerCount : Int := 0
    let s4 := { s3 with foundMarkers := [] }
    let d2 ← vecAt s4.markerDetectors detectorID .markerDetectors_index
    let size := toInt (L.markers d2).length
    if size > 0 && interestedMarkerNum > 0 then do
      let s5 := { s4 with idTable := [] }
      let s6 ← forLoop size.toNat (detectTableStep detectorID) s5
      let st ← forLoop interestedMarkerNum.toNat (detectFindStep interestedMarkerIDs)
        (s6, markerCount)
      .ok (st.1, numFound, st.2)
    else
      .ok (s4, numFound, markerCount)

/-- One round of the loop of `alvar_get_poses`, on the globals and the contents of `ids`
and `poseMats`. -/
def getPosesStep {L : Alvar} (detectorID : Int) (i : Nat)
    (st : AState L × Buf Int × Buf L.Double) :
    Except Fault (AState L × Buf Int × Buf L.Double) := do
  let s1 := st.1.logCall .Pose_new
  let d ← vecAt s1.markerDetectors detectorID .markerDetectors_index
  let f ← vecAt s1.foundMarkers (i : Int) .foundMarkers_index
  let m ← vecAt (L.markers d) f .markers_index
  let ids := st.2.1.write i (L.GetId m)
  let s2 := s1.logCall .MarkerData_GetId
  let d1 ← vecAt s2.markerDetectors detectorID .markerDetectors_index
  let f1 ← vecAt s2.foundMarkers (i : Int) .foundMarkers_index
  let m1 ← vecAt (L.markers d1) f1 .markers_index
  let p := L.pose m1
  let mat := L.GetMatrixGL p
  let s3 := s2.logCall .Pose_GetMatrixGL
  .ok (s3, ids, st.2.2.memcpy (i * 16) mat 16)

/-- The function `alvar_get_poses`; the result lists the globals and the contents of
`ids` and `poseMats`. -/
def alvar_get_poses {L : Alvar} (s : AState L) (detectorID : Int) (ids : Buf Int)
    (poseMats : Buf L.Double) : Except Fault (AState L × Buf Int × Buf L.Double) :=
  if geSize detectorID s.markerDetectors.length then
    .ok (s, ids, poseMats)
  else
    let size := toInt s.foundMarkers.length
    if size == 0 then
      .ok (s, ids, poseMats)
    else
      forLoop s.foundMarkers.length (getPosesStep detectorID) (s, ids, poseMats)

/-- The globals, the local `pose` and the contents of `ids`, `poseMats` and `errors`
inside the loop of `alvar_get_multi_marker_poses`. -/
structure MultiLoop (L : Alvar) where
  s : AState L
  pose : L.Pose
  ids : Buf Int
  poseMats : Buf L.Double
  errors : Buf L.Double

/-- The statement `errors[i] = multiMarkers.at(i).Update(markerDetectors[detectorID]->markers,
cams[camID].cam, pose);`. -/
def multiUpdate {L : Alvar} (detectorID camID : Int) (i : Nat) (st : MultiLoop L) :
    Except Fault (MultiLoop L) := do
  let mm ← vecAt st.s.multiMarkers (i : Int) .multiMarkers_at
  let d ← vecAt st.s.markerDetectors detectorID .markerDetectors_index
  let c ← vecAt st.s.cams camID .cams_index
  let r := L.Update mm d c.cam st.pose
  .ok { st with
        s := { st.s.logCall .MultiMarker_Update with
               multiMarkers := vecSet st.s.multiMarkers (i : Int) r.2.1,
               markerDetectors := vecSet st.s.markerDetectors detectorID r.2.2.1,
               cams := vecSet st.s.cams camID { c with cam := r.2.2.2.1 } },
        pose := r.2.2.2.2,
        errors := st.errors.write i r.1 }

/-- The statement `multiMarkers.at(i).SetTrackMarkers(*markerDetectors[detectorID],
cams[camID].cam, pose);`. -/
def multiSetTrackMarkers {L : Alvar} (detectorID camID : Int) (i : Nat) (st : MultiLoop L) :
    Except Fault (MultiLoop L) := do
  let mm ← vecAt st.s.multiMarkers (i : Int) .multiMarkers_at
  let d ← vecAt st.s.markerDetectors detectorID .markerDetectors_index
  let c ← vecAt st.s.cams camID .cams_index
  let r := L.SetTrackMarkers mm d c.cam st.pose
  .ok { st with
        s := { st.s.logCall .MultiMarker_SetTrackMarkers with
               multiMarkers := vecSet st.s.multiMarkers (i : Int) r.1,
               markerDetectors := vecSet st.s.markerDetectors detectorID r.2.1,
               cams := vecSet st.s.cams camID { c with cam := r.2.2.1 } },
        pose := r.2.2.2 }

/-- The statement `markerDetectors[detectorID]->DetectAdditional(&image, cams[camID].cam,
false, curMaxTrackError);`. -/
def multiDetectAdditional {L : Alvar} (detectorID camID : Int) (st : MultiLoop L) :
    Except Fault (MultiLoop L) := do
  let d ← vecAt st.s.markerDetectors detectorID .markerDetectors_index
  let c ← vecAt st.s.cams camID .cams_index
  let r := L.DetectAdditional d st.s.image c.cam false st.s.curMaxTrackError
  .ok { st with
        s := { st.s.logCall .MarkerDetector_DetectAdditional with
               markerDetectors := vecSet st.s.markerDetectors detectorID r.1,
               cams := vecSet st.s.cams camID { c with cam := r.2 } } }

/-- The block `if(detectAdditional) { ... }` inside the loop of
`alvar_get_multi_marker_poses`. -/
def multiAdditional {L : Alvar} (detectorID camID : Int) (detectAdditional : Bool) (i : Nat)
    (st : MultiLoop L) : Except Fault (MultiLoop L) :=
  if detectAdditional then do
    let a ← multiUpdate detectorID camID i st
    let b ← multiSetTrackMarkers detectorID camID i a
    multiDetectAdditional detectorID camID b
  else .ok st

/-- One round of the loop of `alvar_get_multi_marker_poses`. -/
def multiStep {L : Alvar} (detectorID camID : Int) (detectAdditional : Bool) (i : Nat)
    (st : MultiLoop L) : Except Fault (MultiLoop L) := do
  let st1 := { st with ids := st.ids.write i (i : Int), pose := L.Pose_new,
                       s := st.s.logCall .Pose_new }
  let st2 ← multiAdditional detectorID camID detectAdditional i st1
  let st3 ← multiUpdate detectorID camID i st2
  let mat := L.GetMatrixGL st3.pose
  .ok { st3 with s := st3.s.logCall .Pose_GetMatrixGL,
                 poseMats := st3.poseMats.memcpy (i * 16) mat 16 }

/-- The function `alvar_get_multi_marker_poses`; the result lists the globals and the
contents of `ids`, `poseMats` and `errors`. -/
def alvar_get_multi_marker_poses {L : Alvar} (s : AState L) (detectorID camID : Int)
    (detectAdditional : Bool) (ids : Buf Int) (poseMats errors : Buf L.Double) :
    Except Fault (AState L × Buf Int × Buf L.Double × Buf L.Double) :=
  if geSize detectorID s.markerDetectors.length || geSize camID s.cams.length then
    .ok (s, ids, poseMats, errors)
  else do
    let d ← vecAt s.markerDetectors detectorID .markerDetectors_index
    let size := toInt (L.markers d).length
    if size == 0 then
      .ok (s, ids, poseMats, errors)
    else do
      let st ← forLoop s.multiMarkers.length (multiStep detectorID camID detectAdditional)
        { s := s, pose := L.Pose_new, ids := ids, poseMats := poseMats, errors := errors }
      .ok (st.s, st.ids, st.poseMats, st.errors)

/-- The function `alvar_calibrate_camera`. -/
def alvar_calibrate_camera {L : Alvar} (s : AState L) (camID nChannels : Int)
    (colorModel channelSeq : Buf Nat) (imageData : Ptr) (etalon_square_size : L.Double)
    (etalon_rows etalon_columns : Int) : Except Fault (Bool × AState L) :=
  if geSize camID s.cams.length then
    .ok (false, s)
  else do
    let c ← vecAt s.cams camID .cams_index
    let s1 := { s with image := fillImageHeader c nChannels colorModel channelSeq imageData }
    let r := L.AddPointsUsingChessboard s1.pp s1.image etalon_square_size etalon_rows
      etalon_columns false
    let s2 := { s1.logCall .ProjPoints_AddPointsUsingChessboard with pp := r.2 }
    let ret := r.1
    let s3 := if ret then { s2 with calibration_started := true } else s2
    .ok (ret, s3)

/-- The function `alvar_finalize_calibration`. -/
def alvar_finalize_calibration {L : Alvar} (s : AState L) (camID : Int)
    (calibrationFilename : String) : Except Fault (Bool × AState L) :=
  if !s.calibration_started || geSize camID s.cams.length then
    .ok (false, s)
  else do
    let c ← vecAt s.cams camID .cams_index
    let r := L.Calibrate c.cam s.pp
    let s1 := { s.logCall .Camera_Calibrate with
                cams := vecSet s.cams camID { c with cam := r.1 }, pp := r.2 }
    let s2 := { s1.logCall .ProjPoints_Reset with pp := L.Reset s1.pp }
    let c1 ← vecAt s2.cams camID .cams_index
    let sv := L.SaveCalib c1.cam calibrationFilename
    let s3 := { s2.logCall .Camera_SaveCalib with
                cams := vecSet s2.cams camID { c1 with cam := sv.2 } }
    let ret := sv.1
    let s4 := if ret then { s3 with calibration_started := false } else s3
    .ok (ret, s4)

/-! ## The vision wrapper: sequences of calls -/

/-- One call of an exported function of the vision wrapper, with its arguments. -/
inductive AlvarOp (L : Alvar) where
  | init
  | add_camera (calibFile : Option String) (width height : Int)
  | get_camera_projection (calibFile : Option String) (width height : Int)
      (farClip nearClip : L.Float) (projMat : Buf L.Double)
  | get_camera_params (camID : Int) (projMat : Buf L.Double) (fovX fovY : L.Double)
      (farClip nearClip : L.Float)
  | add_marker_detector (markerSize : L.Double) (markerRes : Int) (margin : L.Double)
  | set_marker_size (detectorID markerID : Int) (markerSize : L.Double)
  | add_multi_marker (filename : String)
  | detect_marker (detectorID camID nChannels : Int) (colorModel channelSeq : Buf Nat)
      (imageData : Ptr) (interestedMarkerIDs : Buf Int)
      (numFoundMarkers numInterestedMarkers : Int) (maxMarkerError maxTrackError : L.Double)
  | get_poses (detectorID : Int) (ids : Buf Int) (poseMats : Buf L.Double)
  | get_multi_marker_poses (detectorID camID : Int) (detectAdditional : Bool)
      (ids : Buf Int) (poseMats errors : Buf L.Double)
  | calibrate_camera (camID nChannels : Int) (colorModel channelSeq : Buf Nat)
      (imageData : Ptr) (etalon_square_size : L.Double) (etalon_rows etalon_columns : Int)
  | finalize_calibration (camID : Int) (calibrationFilename : String)

/-- The value an exported function returns to its caller. -/
inductive AlvarRet where
  | void
  | int (v : Int)
  | bool (b : Bool)
  deriving DecidableEq, Repr

/-- Run one call on the globals: the value returned and the globals afterwards. -/
def AlvarOp.exec {L : Alvar} (s : AState L) : AlvarOp L → Except Fault (AlvarRet × AState L)
  | .init => .ok (.void, alvar_init s)
  | .add_camera f w h =>
    let r := alvar_add_camera s f w h
    .ok (.int r.1, r.2)
  | .get_camera_projection f w h fc nc pm =>
    .ok (.void, (alvar_get_camera_projection s f w h fc nc pm).1)
  | .get_camera_params c pm fx fy fc nc =>
    (alvar_get_camera_params s c pm fx fy fc nc).map (fun r => (.int r.1, r.2.1))
  | .add_marker_detector ms mr mg =>
    let r := alvar_add_marker_detector s ms mr mg
    .ok (.int r.1, r.2)
  | .set_marker_size d m ms =>
    (alvar_set_marker_size s d m ms).map (fun r => (.int r.1, r.2))
  | .add_multi_marker f => .ok (.void, alvar_add_multi_marker s f)
  | .detect_marker d c n cm cs img ids nf ni e1 e2 =>
    (alvar_detect_marker s d c n cm cs img ids nf ni e1 e2).map (fun r => (.void, r.1))
  | .get_poses d ids pm => (alvar_get_poses s d ids pm).map (fun r => (.void, r.1))
  | .get_multi_marker_poses d c da ids pm er =>
    (alvar_get_multi_marker_poses s d c da ids pm er).map (fun r => (.void, r.1))
  | .calibrate_camera c n cm cs img sq rows cols =>
    (alvar_calibrate_camera s c n cm cs img sq rows cols).map (fun r => (.bool r.1, r.2))
  | .finalize_calibration c f =>
    (alvar_finalize_calibration s c f).map (fun r => (.bool r.1, r.2))

/-- Run a sequence of calls from the globals `s`: the calls paired with the values they
returned, oldest first, and the globals at the end. -/
def runOps {L : Alvar} (s : AState L) :
    List (AlvarOp L) → Except Fault (List (AlvarOp L × AlvarRet) × AState L)
  | [] => .ok ([], s)
  | op :: rest =>
    match op.exec s with
    | .error e => .error e
    | .ok r =>
      match runOps r.2 rest with
      | .error e => .error e
      | .ok q => .ok ((op, r.1) :: q.1, q.2)

/-- The number of `alvar_add_marker_detector` calls in a history. -/
def countAddDetector {L : Alvar} : List (AlvarOp L × AlvarRet) → Nat
  | [] => 0
  | (.add_marker_detector _ _ _, _) :: t => countAddDetector t + 1
  | _ :: t => countAddDetector t

/-- Whether calibration counts as started after a history of calls, read off the calls
alone: the latest call among `alvar_init`, an `alvar_calibrate_camera` that returned true
and an `alvar_finalize_calibration` that returned true is an `alvar_calibrate_camera`.
The history is given latest call first. -/
def startedAfter {L : Alvar} : List (AlvarOp L × AlvarRet) → Bool
  | [] => false
  | (.init, _) :: _ => false
  | (.calibrate_camera _ _ _ _ _ _ _ _, .bool true) :: _ => true
  | (.finalize_calibration _ _, .bool true) :: _ => false
  | _ :: t => startedAfter t

/-! ## A small library instance, for running the wrapper on concrete inputs -/

/-- A stand-in for the ALVAR library: a camera is the number of times it was calibrated
or loaded, a detector is the list of marker ids it holds, a marker is its id, a pose is a
number, and loading a calibration file succeeds when the file name is not empty. -/
@[reducible] def toyAlvar : Alvar where
  Double := Int
  Float := Int
  Camera := Nat
  Detector := List Int
  Marker := Int
  Pose := Int
  MultiMarker := Nat
  ProjPoints := Nat
  sizeofIplImage := 112
  IPL_DEPTH_8U := 8
  zero := 0
  FILE_FORMAT_XML := 1
  FILE_FORMAT_DEFAULT := 0
  Camera_new := 0
  SetCalib := fun c f _ _ => (decide (0 < f.length), c + 1)
  SetRes := fun c _ _ => c
  GetOpenglProjectionMatrix := fun c _ w h _ _ => (fun k => w + h + k, c)
  GetFovX := fun c => (60, c)
  GetFovY := fun c => (45, c)
  MarkerDetector_new := []
  SetMarkerSize := fun d _ _ _ => d
  SetMarkerSizeForId := fun d _ _ => d
  MultiMarker_new := 0
  Load := fun m _ fmt => m + fmt.toNat + 1
  Detect := fun _ img c _ _ _ _ => ([(img.imageData : Int), 7, 9], c)
  markers := fun d => d
  GetId := fun m => m
  pose := fun m => 100 * m
  Pose_new := 0
  GetMatrixGL := fun p k => p + k
  Update := fun m d c p => (0, m, d, c, p + 1)
  SetTrackMarkers := fun m d c p => (m, d, c, p)
  DetectAdditional := fun d _ c _ _ => (d, c)
  ProjPoints_new := 0
  AddPointsUsingChessboard := fun pp img _ _ _ _ => (decide (0 < img.imageData), pp + 1)
  Calibrate := fun c pp => (c + pp, pp)
  Reset := fun _ => 0
  SaveCalib := fun c f => (decide (0 < f.length), c)

/-! ## The physics wrapper: data -/

/-- The arithmetic on `float` that `HavokPhysics.cpp` uses: conversion of an integer
literal, division, addition, subtraction and the comparisons `>=` and `!=`. -/
structure FloatOps (F : Type) where
  lit : Int → F
  div : F → F → F
  add : F → F → F
  sub : F → F → F
  ge : F → F → Bool
  ne : F → F → Bool

/-- A `hkVector4` built from three components. -/
structure hkVector4 (F : Type) where
  x : F
  y : F
  z : F

/-- A `hkQuaternion` built from four components. -/
structure hkQuaternion (F : Type) where
  x : F
  y : F
  z : F
  w : F

/-- The struct `hkpWorldCinfo` as `init_world` fills it. -/
structure hkpWorldCinfo (F : Type) where
  m_simulationType : Int
  m_collisionTolerance : F
  m_gravity : hkVector4 F
  broadPhaseWorldSize : F
  solverType : Int
  m_fireCollisionCallbacks : Bool
  m_enableDeactivation : Bool
  m_contactRestingVelocity : F

/-- The struct `hkStridedVertices`. -/
structure hkStridedVertices where
  m_numVertices : Int
  m_striding : Int
  m_vertices : Ptr

/-- The struct `hkpMassProperties`, with the fields `add_rigid_body` reads. -/
structure hkpMassProperties (F : Type) where
  m_mass : F
  m_centerOfMass : hkVector4 F
  m_inertiaTensor : List F

/-- The struct `hkpRigidBodyCinfo`, with the fields `add_rigid_body` assigns. -/
structure hkpRigidBodyCinfo (F : Type) where
  m_shape : Ptr
  m_motionType : Int
  m_position : hkVector4 F
  m_rotation : hkQuaternion F
  m_friction : F
  m_restitution : F
  m_allowedPenetrationDepth : F
  m_qualityType : Int
  m_gravityFactor : F
  m_mass : F
  m_centerOfMass : hkVector4 F
  m_inertiaTensor : List F
  m_linearVelocity : hkVector4 F
  m_linearDamping : F
  m_angularVelocity : hkVector4 F
  m_angularDamping : F
  m_maxLinearVelocity : F
  m_maxAngularVelocity : F
  m_enableDeactivation : Bool

/-- The struct `hkpKeyFrameUtility::KeyFrameInfo`. -/
structure KeyFrameInfo (F : Type) where
  m_position : hkVector4 F
  m_orientation : hkQuaternion F
  m_linearVelocity : hkVector4 F
  m_angularVelocity : hkVector4 F

/-- The struct `hkpKeyFrameUtility::AccelerationInfo`. -/
structure AccelerationInfo (F : Type) where
  m_angularPositionFactor : hkVector4 F
  m_angularVelocityFactor : hkVector4 F
  m_linearPositionFactor : hkVector4 F
  m_linearVelocityFactor : hkVector4 F
  m_maxAngularAcceleration : F
  m_maxLinearAcceleration : F
  m_maxAllowedDistance : F

/-- Calls into the Havok library, as they are written in `HavokPhysics.cpp` and in the
constructor of `ContactListener`, each with the object it is made on and its arguments. -/
inductive HkCall (F : Type) where
  | hkMemoryInitUtil_initFreeList
  | extAllocator_initDefault
  | hkBaseSystem_init (memoryRouter : Ptr)
  | hkpWorld_new (info : hkpWorldCinfo F)
  | world_getCollisionDispatcher (world : Ptr)
  | hkpAgentRegisterUtil_registerAllAgents (dispatcher : Ptr)
  | world_setGravity (world : Ptr) (g : hkVector4 F)
  | world_lock (world : Ptr)
  | world_unlock (world : Ptr)
  | hkpBroadPhaseBorder_new (world : Ptr)
  | world_setBroadPhaseBorder (world border : Ptr)
  | removeReference (object : Ptr)
  | hkpBoxShape_new (halfExtent : hkVector4 F) (convexRadius : F)
  | hkpSphereShape_new (radius : F)
  | hkpTriangleShape_new (v0 v1 v2 : hkVector4 F) (convexRadius : F)
  | hkpCapsuleShape_new (v0 v1 : hkVector4 F) (radius : F)
  | hkpCylinderShape_new (v0 v1 : hkVector4 F) (radius convexRadius : F)
  | hkGeometry_new
  | hkGeometryUtility_createConvexGeometry (stridedVerts : hkStridedVertices) (geometry : Ptr)
  | hkGeometry_vertices_getSize (geometry : Ptr)
  | hkGeometry_vertices_base (geometry : Ptr)
  | hkpConvexVerticesShape_new (stridedVerts : hkStridedVertices) (planesOf : Ptr)
      (convexRadius : F)
  | hkArray_pushBack (shape : Ptr)
  | hkpListShape_new (shapes : List Ptr) (numShapes : Int)
  | hkpPhantomCallbackShape_new
  | hkpBvShape_new (boundingShape phantom : Ptr)
  | hkpRigidBodyCinfo_new
  | hkpInertiaTensorComputer_computeShapeVolumeMassProperties (shape : Ptr) (mass : F)
  | hkpRigidBody_new (bodyInfo : hkpRigidBodyCinfo F)
  | world_addEntity (world body : Ptr)
  | world_removeEntity (world body : Ptr)
  | hkpContactListener_new
  | body_addContactListener (body listener : Ptr)
  | body_addEntityListener (body listener : Ptr)
  | body_applyForce (body : Ptr) (timeStep : F) (force : hkVector4 F)
  | body_applyTorque (body : Ptr) (timeStep : F) (torque : hkVector4 F)
  | body_setLinearVelocity (body : Ptr) (velocity : hkVector4 F)
  | body_getLinearVelocity (body : Ptr)
  | body_setAngularVelocity (body : Ptr) (velocity : hkVector4 F)
  | body_getAngularVelocity (body : Ptr)
  | hkpKeyFrameUtility_applyHardKeyFrame (pos : hkVector4 F) (rot : hkQuaternion F)
      (invDeltaTime : F) (body : Ptr)
  | hkpKeyFrameUtility_applySoftKeyFrame (keyInfo : KeyFrameInfo F)
      (accelInfo : AccelerationInfo F) (deltaTime invDeltaTime : F) (body : Ptr)
  | body_getCollidable (body : Ptr)
  | collidable_getShape (collidable : Ptr)
  | body_getTransform (body : Ptr)
  | shape_getAabb (shape body : Ptr) (tolerance : F)
  | aabb_getHalfExtents (shape body : Ptr)
  | aabb_getCenter (shape body : Ptr)
  | hkCheckDeterminismUtil_workerThreadStartFrame (isPrimaryWorkerThread : Bool)
  | world_stepDeltaTime (world : Ptr) (elapsedSeconds : F)
  | hkCheckDeterminismUtil_workerThreadFinishFrame
  | body_approxCurrentTransform (body : Ptr)
  | transform_get4x4ColumnMajor (body : Ptr)
  | body_getPosition (body : Ptr)
  | body_getRotation (body : Ptr)
  | world_markForRead (world : Ptr)
  | world_getActiveSimulationIslands (world : Ptr)
  | island_getEntities (island : Ptr)
  | world_unmarkForRead (world : Ptr)
  | world_removeAll (world : Ptr)
  | entity_removeContactListener (entity listener : Ptr)
  | entity_removeEntityListener (entity listener : Ptr)

/-- The Havok library, which the repository does not contain.  `σ` is the state of the
library (the world with its bodies, the heap of its objects).  A call changes that state
(`effect`) and returns a value of the type the call site expects, which may depend on the
state the call is made in (`retPtr`, `retInt`, ...).  `defaultCinfo` and `defaultVec` are
what the constructors `hkpRigidBodyCinfo()` and `hkVector4()` leave in the object, and
`MOTION_FIXED`, `MOTION_KEYFRAMED`, `HK_SUCCESS` and `sizeofVector4` are constants of the
library headers. -/
structure Havok (F σ : Type) where
  fl : FloatOps F
  effect : HkCall F → σ → σ
  retPtr : HkCall F → σ → Ptr
  retInt : HkCall F → σ → Int
  retVec : HkCall F → σ → hkVector4 F
  retQuat : HkCall F → σ → hkQuaternion F
  retMass : HkCall F → σ → hkpMassProperties F
  retFloats : HkCall F → σ → Buf F
  retPtrs : HkCall F → σ → List Ptr
  hkpGetRigidBody : Ptr → Ptr
  defaultCinfo : hkpRigidBodyCinfo F
  defaultVec : hkVector4 F
  MOTION_FIXED : Int
  MOTION_KEYFRAMED : Int
  HK_SUCCESS : Int
  sizeofVector4 : Int

/-- The class `ContactListener`: its three function pointers. -/
structure ContactListener where
  callback : Ptr
  startCallback : Ptr
  endCallback : Ptr
  deriving DecidableEq, Repr

/-- The class `BroadphaseBorder`: its function pointer. -/
structure BroadphaseBorder where
  callback : Ptr
  deriving DecidableEq, Repr

/-- The class `PhantomCallback`: its two function pointers. -/
structure PhantomCallback where
  enterEvent : Ptr
  leaveEvent : Ptr
  deriving DecidableEq, Repr

/-- The global `world` of `HavokPhysics.cpp`, the adapter objects the wrapper has created
(by address), the state of the library and the log of calls into it. -/
structure HState (F σ : Type) where
  world : Ptr
  contactListeners : List (Ptr × ContactListener)
  borders : List (Ptr × BroadphaseBorder)
  phantoms : List (Ptr × PhantomCallback)
  lib : σ
  calls : List (HkCall F)

/-- Make a call into the library: it is logged and the library state changes. -/
def HState.call {F σ : Type} (L : Havok F σ) (s : HState F σ) (c : HkCall F) : HState F σ :=
  { s with lib := L.effect c s.lib, calls := s.calls ++ [c] }

/-- Make a call to an accessor of the library that only reads: it is logged and the
library state stays as it is. -/
def HState.query {F σ : Type} (s : HState F σ) (c : HkCall F) : HState F σ :=
  { s with calls := s.calls ++ [c] }

/-! ## The physics wrapper: exported functions

`float` arrays that the wrapper reads (`gravity`, `dim`, `pos`, ...) are buffers; pointers
that it only passes on (`shape`, `body`, function pointers) are `Ptr`. -/

/-- The static function `allZero`. -/
def allZero {F : Type} (fl : FloatOps F) (vals : Buf F) (count : Int) : Bool :=
  (List.range count.toNat).all (fun i => !fl.ne (vals i) (fl.lit 0))

/-- The function `init_world`; the error report function handed to `hkBaseSystem::init`
is a static function of the wrapper and is left out of the call. -/
def init_world {F σ : Type} (L : Havok F σ) (s : HState F σ) (gravity : Buf F)
    (worldSize collisionTolerance : F) (simType solverType : Int)
    (fireCollisionCallbacks enableDeactivation : Bool) (contactRestingVelocity : F) :
    Bool × HState F σ :=
  let memoryRouter := L.retPtr .hkMemoryInitUtil_initFreeList s.lib
  let s1 := s.call L .hkMemoryInitUtil_initFreeList
  let s2 := s1.call L .extAllocator_initDefault
  if memoryRouter = 0 then (false, s2)
  else
    let res := L.retInt (.hkBaseSystem_init memoryRouter) s2.lib
    let s3 := s2.call L (.hkBaseSystem_init memoryRouter)
    if res ≠ L.HK_SUCCESS then (false, s3)
    else
      let info : hkpWorldCinfo F :=
        { m_simulationType := simType
          m_collisionTolerance := collisionTolerance
          m_gravity := ⟨gravity 0, gravity 1, gravity 2⟩
          broadPhaseWorldSize := worldSize
          solverType := solverType
          m_fireCollisionCallbacks := fireCollisionCallbacks
          m_enableDeactivation := enableDeactivation
          m_contactRestingVelocity := contactRestingVelocity }
      let w := L.retPtr (.hkpWorld_new info) s3.lib
      let s4 := { s3.call L (.hkpWorld_new info) with world := w }
      let dispatcher := L.retPtr (.world_getCollisionDispatcher s4.world) s4.lib
      let s5 := s4.query (.world_getCollisionDispatcher s4.world)
      (true, s5.call L (.hkpAgentRegisterUtil_registerAllAgents dispatcher))

/-- The function `set_gravity`. -/
def set_gravity {F σ : Type} (L : Havok F σ) (s : HState F σ) (gravity : Buf F) :
    HState F σ :=
  if s.world = 0 then s
  else s.call L (.world_setGravity s.world ⟨gravity 0, gravity 1, gravity 2⟩)

/-- The function `add_world_leave_callback`. -/
def add_world_leave_callback {F σ : Type} (L : Havok F σ) (s : HState F σ)
    (callback : Ptr) : HState F σ :=
  let s1 := s.call L (.world_lock s.world)
  let border := L.retPtr (.hkpBroadPhaseBorder_new s1.world) s1.lib
  let s2 := { s1.call L (.hkpBroadPhaseBorder_new s1.world) with
              borders := s1.borders ++ [(border, BroadphaseBorder.mk callback)] }
  let s3 := s2.call L (.world_setBroadPhaseBorder s2.world border)
  let s4 := s3.call L (.removeReference border)
  s4.call L (.world_unlock s4.world)

/-- The function `create_box_shape`. -/
def create_box_shape {F σ : Type} (L : Havok F σ) (s : HState F σ) (dim : Buf F)
    (convexRadius : F) : Ptr × HState F σ :=
  let halfExtent : hkVector4 F :=
    ⟨L.fl.div (dim 0) (L.fl.lit 2), L.fl.div (dim 1) (L.fl.lit 2),
     L.fl.div (dim 2) (L.fl.lit 2)⟩
  (L.retPtr (.hkpBoxShape_new halfExtent convexRadius) s.lib,
   s.call L (.hkpBoxShape_new halfExtent convexRadius))

/-- The function `create_sphere_shape`. -/
def create_sphere_shape {F σ : Type} (L : Havok F σ) (s : HState F σ) (radius : F) :
    Ptr × HState F σ :=
  (L.retPtr (.hkpSphereShape_new radius) s.lib, s.call L (.hkpSphereShape_new radius))

/-- The function `create_triangle_shape`. -/
def create_triangle_shape {F σ : Type} (L : Havok F σ) (s : HState F σ) (v0 v1 v2 : Buf F)
    (convexRadius : F) : Ptr × HState F σ :=
  let a : hkVector4 F := ⟨v0 0, v0 1, v0 2⟩
  let b : hkVector4 F := ⟨v1 0, v1 1, v1 2⟩
  let c : hkVector4 F := ⟨v2 0, v2 1, v2 2⟩
  (L.retPtr (.hkpTriangleShape_new a b c convexRadius) s.lib,
   s.call L (.hkpTriangleShape_new a b c convexRadius))

/-- The function `create_capsule_shape`. -/
def create_capsule_shape {F σ : Type} (L : Havok F σ) (s : HState F σ) (top bottom : Buf F)
    (radius : F) : Ptr × HState F σ :=
  let a : hkVector4 F := ⟨top 0, top 1, top 2⟩
  let b : hkVector4 F := ⟨bottom 0, bottom 1, bottom 2⟩
  (L.retPtr (.hkpCapsuleShape_new a b radius) s.lib,
   s.call L (.hkpCapsuleShape_new a b radius))

/-- The function `create_cylinder_shape`. -/
def create_cylinder_shape {F σ : Type} (L : Havok F σ) (s : HState F σ) (top bottom : Buf F)
    (radius convexRadius : F) : Ptr × HState F σ :=
  let a : hkVector4 F := ⟨top 0, top 1, top 2⟩
  let b : hkVector4 F := ⟨bottom 0, bottom 1, bottom 2⟩
  (L.retPtr (.hkpCylinderShape_new a b radius convexRadius) s.lib,
   s.call L (.hkpCylinderShape_new a b radius convexRadius))

/-- The function `create_convex_shape`; `vertices` is only passed on.  The local
`transformedPlanes` is filled by `createConvexGeometry` and is named by the geometry it was
computed with. -/
def create_convex_shape {F σ : Type} (L : Havok F σ) (s : HState F σ) (numVertices : Int)
    (vertices : Ptr) (stride : Int) (convexRadius : F) : Ptr × HState F σ :=
  let stridedVerts : hkStridedVertices :=
    { m_numVertices := numVertices, m_striding := stride, m_vertices := vertices }
  let geometry := L.retPtr .hkGeometry_new s.lib
  let s1 := s.call L .hkGeometry_new
  let s2 := s1.call L (.hkGeometryUtility_createConvexGeometry stridedVerts geometry)
  let n := L.retInt (.hkGeometry_vertices_getSize geometry) s2.lib
  let s3 := s2.query (.hkGeometry_vertices_getSize geometry)
  let base := L.retPtr (.hkGeometry_vertices_base geometry) s3.lib
  let s4 := s3.query (.hkGeometry_vertices_base geometry)
  let stridedVerts2 : hkStridedVertices :=
    { m_numVertices := n, m_striding := L.sizeofVector4, m_vertices := base }
  (L.retPtr (.hkpConvexVerticesShape_new stridedVerts2 geometry convexRadius) s4.lib,
   s4.call L (.hkpConvexVerticesShape_new stridedVerts2 geometry convexRadius))

/-- One round of the loop of `create_mesh_shape`, for `i = 3 * t`, on the globals and the
local `shapeArray`; an index read from `indices` is taken to be non-negative. -/
def meshStep {F σ : Type} (L : Havok F σ) (vertices : Buf F) (indices : Buf Int)
    (convexRadius : F) (st : HState F σ × List Ptr) (t : Nat) : HState F σ × List Ptr :=
  let i := 3 * t
  let r := create_triangle_shape L st.1
    (fun k => vertices ((indices i * 3).toNat + k))
    (fun k => vertices ((indices (i + 1) * 3).toNat + k))
    (fun k => vertices ((indices (i + 2) * 3).toNat + k)) convexRadius
  (r.2.call L (.hkArray_pushBack r.1), st.2 ++ [r.1])

/-- The function `create_mesh_shape`. -/
def create_mesh_shape {F σ : Type} (L : Havok F σ) (s : HState F σ) (numVertices : Int)
    (vertices : Buf F) (vertexStride numTriangles : Int) (indices : Buf Int)
    (convexRadius : F) : Ptr × HState F σ :=
  let st := (List.range numTriangles.toNat).foldl (meshStep L vertices indices convexRadius)
    (s, [])
  (L.retPtr (.hkpListShape_new st.2 st.2.length) st.1.lib,
   st.1.call L (.hkpListShape_new st.2 st.2.length))

/-- The function `create_phantom_shape`. -/
def create_phantom_shape {F σ : Type} (L : Havok F σ) (s : HState F σ)
    (boundingShape enter leave : Ptr) : Ptr × HState F σ :=
  let phantom := L.retPtr .hkpPhantomCallbackShape_new s.lib
  let s1 := { s.call L .hkpPhantomCallbackShape_new with
              phantoms := s.phantoms ++ [(phantom, PhantomCallback.mk enter leave)] }
  let bvShape := L.retPtr (.hkpBvShape_new boundingShape phantom) s1.lib
  let s2 := s1.call L (.hkpBvShape_new boundingShape phantom)
  (bvShape, s2.call L (.removeReference phantom))

/-- The body description that `add_rigid_body` builds before the motion type is looked
at: `bodyInfo` after the assignments up to `m_gravityFactor`. -/
def bodyInfoCommon {F σ : Type} (L : Havok F σ) (shape : Ptr) (motionType collideQuality : Int)
    (pos rot : Buf F) (friction restitution allowedPenetrationDepth gravityFactor : F) :
    hkpRigidBodyCinfo F :=
  let b1 : hkpRigidBodyCinfo F :=
    { L.defaultCinfo with
      m_shape := shape
      m_motionType := motionType
      m_position := ⟨pos 0, pos 1, pos 2⟩
      m_rotation := ⟨rot 0, rot 1, rot 2, rot 3⟩ }
  let b2 := if L.fl.ge friction (L.fl.lit 0) then { b1 with m_friction := friction } else b1
  let b3 := if L.fl.ge restitution (L.fl.lit 0) then { b2 with m_restitution := restitution }
    else b2
  let b4 := if L.fl.ge allowedPenetrationDepth (L.fl.lit 0) then
      { b3 with m_allowedPenetrationDepth := allowedPenetrationDepth }
    else b3
  let b5 := if collideQuality ≥ 0 then { b4 with m_qualityType := collideQuality } else b4
  { b5 with m_gravityFactor := gravityFactor }

/-- The assignments `add_rigid_body` makes to `bodyInfo` for a motion type that is neither
`MOTION_FIXED` nor `MOTION_KEYFRAMED`, after `massProperties` was computed. -/
def bodyInfoDynamic {F : Type} (fl : FloatOps F) (b : hkpRigidBodyCinfo F)
    (massProperties : hkpMassProperties F) (linearVelocity : Buf F)
    (linearDamping maxLinearVelocity : F) (angularVelocity : Buf F)
    (angularDamping maxAngularVelocity : F) (neverDeactivate : Bool) : hkpRigidBodyCinfo F :=
  let i1 := { b with
    m_mass := massProperties.m_mass
    m_centerOfMass := massProperties.m_centerOfMass
    m_inertiaTensor := massProperties.m_inertiaTensor }
  let i2 := if !allZero fl linearVelocity 3 then
      { i1 with m_linearVelocity := ⟨linearVelocity 0, linearVelocity 1, linearVelocity 2⟩ }
    else i1
  let i3 := if fl.ge linearDamping (fl.lit 0) then { i2 with m_linearDamping := linearDamping }
    else i2
  let i4 := if !allZero fl angularVelocity 3 then
      { i3 with m_angularVelocity := ⟨angularVelocity 0, angularVelocity 1, angularVelocity 2⟩ }
    else i3
  let i5 := if fl.ge angularDamping (fl.lit 0) then
      { i4 with m_angularDamping := angularDamping }
    else i4
  let i6 := if fl.ge maxLinearVelocity (fl.lit 0) then
      { i5 with m_maxLinearVelocity := maxLinearVelocity }
    else i5
  let i7 := if fl.ge maxAngularVelocity (fl.lit 0) then
      { i6 with m_maxAngularVelocity := maxAngularVelocity }
    else i6
  { i7 with m_enableDeactivation := !neverDeactivate }

/-- The function `add_rigid_body`. -/
def add_rigid_body {F σ : Type} (L : Havok F σ) (s : HState F σ) (shape : Ptr) (mass : F)
    (motionType collideQuality : Int) (pos rot linearVelocity : Buf F)
    (linearDamping maxLinearVelocity : F) (angularVelocity : Buf F)
    (angularDamping maxAngularVelocity friction restitution allowedPenetrationDepth : F)
    (neverDeactivate : Bool) (gravityFactor : F) : Ptr × HState F σ :=
  let s1 := s.call L (.world_lock s.world)
  let s2 := s1.call L .hkpRigidBodyCinfo_new
  let b := bodyInfoCommon L shape motionType collideQuality pos rot friction restitution
    allowedPenetrationDepth gravityFactor
  let r : hkpRigidBodyCinfo F × HState F σ :=
    if !(motionType == L.MOTION_FIXED || motionType == L.MOTION_KEYFRAMED) then
      let massProperties :=
        L.retMass (.hkpInertiaTensorComputer_computeShapeVolumeMassProperties shape mass) s2.lib
      let s3 :=
        s2.call L (.hkpInertiaTensorComputer_computeShapeVolumeMassProperties shape mass)
      (bodyInfoDynamic L.fl b massProperties linearVelocity linearDamping maxLinearVelocity
        angularVelocity angularDamping maxAngularVelocity neverDeactivate, s3)
    else (b, s2)
  let body := L.retPtr (.hkpRigidBody_new r.1) r.2.lib
  let s4 := r.2.call L (.hkpRigidBody_new r.1)
  let s5 := s4.call L (.world_addEntity s4.world body)
  let s6 := s5.call L (.removeReference body)
  let s7 := s6.call L (.removeReference shape)
  (body, s7.call L (.world_unlock s7.world))

/-- The function `remove_rigid_body`. -/
def remove_rigid_body {F σ : Type} (L : Havok F σ) (s : HState F σ) (body : Ptr) :
    HState F σ :=
  s.call L (.world_removeEntity s.world body)

/-- The function `add_contact_listener`, with the constructor of `ContactListener`
(`body->addContactListener(this); body->addEntityListener(this);`) in it. -/
def add_contact_listener {F σ : Type} (L : Havok F σ) (s : HState F σ)
    (body cc cs ce : Ptr) : HState F σ :=
  let s1 := s.call L (.world_lock s.world)
  let listener := L.retPtr .hkpContactListener_new s1.lib
  let s2 := s1.call L .hkpContactListener_new
  let s3 := s2.call L (.body_addContactListener body listener)
  let s4 := s3.call L (.body_addEntityListener body listener)
  let s5 := { s4 with contactListeners := s4.contactListeners ++
    [(listener, ContactListener.mk cc cs ce)] }
  s5.call L (.world_unlock s5.world)

/-- The function `add_force`. -/
def add_force {F σ : Type} (L : Havok F σ) (s : HState F σ) (body : Ptr) (timeStep : F)
    (force : Buf F) : HState F σ :=
  s.call L (.body_applyForce body timeStep ⟨force 0, force 1, force 2⟩)

/-- The function `add_torque`. -/
def add_torque {F σ : Type} (L : Havok F σ) (s : HState F σ) (body : Ptr) (timeStep : F)
    (torque : Buf F) : HState F σ :=
  s.call L (.body_applyTorque body timeStep ⟨torque 0, torque 1, torque 2⟩)

/-- The function `set_linear_velocity`. -/
def set_linear_velocity {F σ : Type} (L : Havok F σ) (s : HState F σ) (body : Ptr)
    (vel : Buf F) : HState F σ :=
  s.call L (.body_setLinearVelocity body ⟨vel 0, vel 1, vel 2⟩)

/-- The function `get_linear_velocity`; the result lists the globals and the contents of
`vel`. -/
def get_linear_velocity {F σ : Type} (L : Havok F σ) (s : HState F σ) (body : Ptr)
    (vel : Buf F) : HState F σ × Buf F :=
  let velocity := L.retVec (.body_getLinearVelocity body) s.lib
  (s.query (.body_getLinearVelocity body),
   ((vel.write 0 velocity.x).write 1 velocity.y).write 2 velocity.z)

/-- The function `set_angular_velocity`. -/
def set_angular_velocity {F σ : Type} (L : Havok F σ) (s : HState F σ) (body : Ptr)
    (vel : Buf F) : HState F σ :=
  s.call L (.body_setAngularVelocity body ⟨vel 0, vel 1, vel 2⟩)

/-- The function `get_angular_velocity`; the result lists the globals and the contents of
`vel`. -/
def get_angular_velocity {F σ : Type} (L : Havok F σ) (s : HState F σ) (body : Ptr)
    (vel : Buf F) : HState F σ × Buf F :=
  let velocity := L.retVec (.body_getAngularVelocity body) s.lib
  (s.query (.body_getAngularVelocity body),
   ((vel.write 0 velocity.x).write 1 velocity.y).write 2 velocity.z)

/-- The function `apply_hard_keyframe`. -/
def apply_hard_keyframe {F σ : Type} (L : Havok F σ) (s : HState F σ) (body : Ptr)
    (position rotation : Buf F) (timeStep : F) : HState F σ :=
  let s1 := s.call L (.world_lock s.world)
  let pos : hkVector4 F := ⟨position 0, position 1, position 2⟩
  let rot : hkQuaternion F := ⟨rotation 0, rotation 1, rotation 2, rotation 3⟩
  let s2 := s1.call L
    (.hkpKeyFrameUtility_applyHardKeyFrame pos rot (L.fl.div (L.fl.lit 1) timeStep) body)
  s2.call L (.world_unlock s2.world)

/-- The function `apply_soft_keyframe`. -/
def apply_soft_keyframe {F σ : Type} (L : Havok F σ) (s : HState F σ) (body : Ptr)
    (position rotation angularPositionFactor angularVelocityFactor linearPositionFactor
      linearVelocityFactor : Buf F)
    (maxAngularAcceleration maxLinearAcceleration maxAllowedDistance timeStep : F) :
    HState F σ :=
  let s1 := s.call L (.world_lock s.world)
  let keyInfo : KeyFrameInfo F :=
    { m_position := ⟨position 0, position 1, position 2⟩
      m_orientation := ⟨rotation 0, rotation 1, rotation 2, rotation 3⟩
      m_linearVelocity := L.defaultVec
      m_angularVelocity := L.defaultVec }
  let accelInfo : AccelerationInfo F :=
    { m_angularPositionFactor :=
        ⟨angularPositionFactor 0, angularPositionFactor 1, angularPositionFactor 2⟩
      m_angularVelocityFactor :=
        ⟨angularVelocityFactor 0, angularVelocityFactor 1, angularVelocityFactor 2⟩
      m_linearPositionFactor :=
        ⟨linearPositionFactor 0, linearPositionFactor 1, linearPositionFactor 2⟩
      m_linearVelocityFactor :=
        ⟨linearVelocityFactor 0, linearVelocityFactor 1, linearVelocityFactor 2⟩
      m_maxAngularAcceleration := maxAngularAcceleration
      m_maxLinearAcceleration := maxLinearAcceleration
      m_maxAllowedDistance := maxAllowedDistance }
  let s2 := s1.call L (.hkpKeyFrameUtility_applySoftKeyFrame keyInfo accelInfo timeStep
    (L.fl.div (L.fl.lit 1) timeStep) body)
  s2.call L (.world_unlock s2.world)

/-- The function `get_AABB`; the result lists the globals and the contents of `min` and
`max`.  The local `aabb` is named by the shape and body it was computed for. -/
def get_AABB {F σ : Type} (L : Havok F σ) (s : HState F σ) (body : Ptr) (min max : Buf F) :
    HState F σ × Buf F × Buf F :=
  let collidable := L.retPtr (.body_getCollidable body) s.lib
  let s1 := s.query (.body_getCollidable body)
  let shape := L.retPtr (.collidable_getShape collidable) s1.lib
  let s2 := s1.query (.collidable_getShape collidable)
  let s3 := s2.query (.body_getTransform body)
  let s4 := s3.query (.shape_getAabb shape body (L.fl.lit 0))
  let halfExtent := L.retVec (.aabb_getHalfExtents shape body) s4.lib
  let s5 := s4.query (.aabb_getHalfExtents shape body)
  let center := L.retVec (.aabb_getCenter shape body) s5.lib
  let s6 := s5.query (.aabb_getCenter shape body)
  (s6,
   ((min.write 0 (L.fl.sub center.x halfExtent.x)).write 1
      (L.fl.sub center.y halfExtent.y)).write 2 (L.fl.sub center.z halfExtent.z),
   ((max.write 0 (L.fl.add center.x halfExtent.x)).write 1
      (L.fl.add center.y halfExtent.y)).write 2 (L.fl.add center.z halfExtent.z))

/-- The function `update`. -/
def update {F σ : Type} (L : Havok F σ) (s : HState F σ) (elapsedSeconds : F) : HState F σ :=
  let s1 := s.call L (.hkCheckDeterminismUtil_workerThreadStartFrame true)
  let s2 := s1.call L (.world_stepDeltaTime s1.world elapsedSeconds)
  s2.call L .hkCheckDeterminismUtil_workerThreadFinishFrame

/-- The function `get_body_transform`; the result lists the globals and the contents of
`transform`.  The local `mat` is named by the body it was computed for. -/
def get_body_transform {F σ : Type} (L : Havok F σ) (s : HState F σ) (body : Ptr)
    (transform : Buf F) : HState F σ × Buf F :=
  let s1 := s.query (.body_approxCurrentTransform body)
  let m := L.retFloats (.transform_get4x4ColumnMajor body) s1.lib
  (s1.query (.transform_get4x4ColumnMajor body), transform.memcpy 0 m 16)

/-- The function `get_body_position`; the result lists the globals and the contents of
`position`. -/
def get_body_position {F σ : Type} (L : Havok F σ) (s : HState F σ) (body : Ptr)
    (position : Buf F) : HState F σ × Buf F :=
  let pos := L.retVec (.body_getPosition body) s.lib
  (s.query (.body_getPosition body), ((position.write 0 pos.x).write 1 pos.y).write 2 pos.z)

/-- The function `get_body_rotation`; the result lists the globals and the contents of
`rotation`. -/
def get_body_rotation {F σ : Type} (L : Havok F σ) (s : HState F σ) (body : Ptr)
    (rotation : Buf F) : HState F σ × Buf F :=
  let rot := L.retQuat (.body_getRotation body) s.lib
  (s.query (.body_getRotation body),
   (((rotation.write 0 rot.x).write 1 rot.y).write 2 rot.z).write 3 rot.w)

/-- The first loop of `get_updated_transforms`, one island: `totalSize +=
activeEntities.getSize()`. -/
def countStep {F σ : Type} (L : Havok F σ) (st : HState F σ × Int) (island : Ptr) :
    HState F σ × Int :=
  let activeEntities := L.retPtrs (.island_getEntities island) st.1.lib
  (st.1.query (.island_getEntities island), st.2 + activeEntities.length)

/-- The globals, the contents of `bodyPtr` and `transformPtr` and the local `count` inside
the second loop of `get_updated_transforms`; `written` records the slots that were stored
to so far, oldest first. -/
structure TransformLoop (F σ : Type) where
  s : HState F σ
  bodyPtr : Buf Int
  transformPtr : Buf F
  count : Nat
  written : List Nat

/-- The inner loop of `get_updated_transforms`, one entity. -/
def entityStep {F σ : Type} (L : Havok F σ) (st : TransformLoop F σ) (rigidBody : Ptr) :
    TransformLoop F σ :=
  let s1 := st.s.query (.body_approxCurrentTransform rigidBody)
  let m := L.retFloats (.transform_get4x4ColumnMajor rigidBody) s1.lib
  { s := s1.query (.transform_get4x4ColumnMajor rigidBody)
    bodyPtr := st.bodyPtr.write st.count (toInt rigidBody)
    transformPtr := st.transformPtr.memcpy (st.count * 16) m 16
    count := st.count + 1
    written := st.written ++ [st.count] }

/-- The outer loop of `get_updated_transforms`, one island. -/
def islandStep {F σ : Type} (L : Havok F σ) (st : TransformLoop F σ) (island : Ptr) :
    TransformLoop F σ :=
  let activeEntities := L.retPtrs (.island_getEntities island) st.s.lib
  activeEntities.foldl (entityStep L) { st with s := st.s.query (.island_getEntities island) }

/-- The function `get_updated_transforms`; the result lists the globals, the contents of
`bodyPtr` and `transformPtr`, the value of `totalSize`, the final value of the local
`count` and the slots that were stored to, oldest first. -/
def get_updated_transforms {F σ : Type} (L : Havok F σ) (s : HState F σ) (bodyPtr : Buf Int)
    (transformPtr : Buf F) (totalSize : Int) :
    HState F σ × Buf Int × Buf F × Int × Nat × List Nat :=
  let s1 := s.call L (.world_markForRead s.world)
  let activeIslands := L.retPtrs (.world_getActiveSimulationIslands s1.world) s1.lib
  let s2 := s1.query (.world_getActiveSimulationIslands s1.world)
  let t := activeIslands.foldl (countStep L) (s2, 0)
  let r := activeIslands.foldl (islandStep L)
    { s := t.1, bodyPtr := bodyPtr, transformPtr := transformPtr, count := 0, written := [] }
  (r.s.call L (.world_unmarkForRead r.s.world), r.bodyPtr, r.transformPtr, t.2, r.count,
   r.written)

/-- The function `dispose`. -/
def dispose {F σ : Type} (L : Havok F σ) (s : HState F σ) : HState F σ :=
  let s1 := s.call L (.world_removeAll s.world)
  s1.call L (.removeReference s1.world)

/-! ## The physics wrapper: callback adapters -/

/-- A call through a function pointer that the caller of the wrapper supplied, by the
signature of the pointer: `contactCallback`; `collisionStarted` and `collisionEnded`;
`leaveWorldCallback`, `phantomEnterCallback` and `phantomLeaveCallback`.  `fn` is the
pointer the call goes through. -/
inductive Invoke (F : Type) where
  | contact (fn body1 body2 : Ptr) (contactSpeed : F)
  | pair (fn body1 body2 : Ptr)
  | single (fn body : Ptr)

/-- What the wrapper reads from a `hkpContactPointEvent`. -/
structure hkpContactPointEvent (F : Type) where
  getBody : Nat → Ptr
  getSeparatingVelocity : F

/-- What the wrapper reads from a `hkpCollisionEvent`. -/
structure hkpCollisionEvent where
  getBody : Nat → Ptr

/-- The method `ContactListener::contactPointCallback`: the calls through function
pointers that it makes. -/
def ContactListener.contactPointCallback {F : Type} (self : ContactListener)
    (evt : hkpContactPointEvent F) : List (Invoke F) :=
  if self.callback ≠ 0 then
    [.contact self.callback (evt.getBody 0) (evt.getBody 1) evt.getSeparatingVelocity]
  else []

/-- The method `ContactListener::collisionAddedCallback`. -/
def ContactListener.collisionAddedCallback {F : Type} (self : ContactListener)
    (evt : hkpCollisionEvent) : List (Invoke F) :=
  if self.startCallback ≠ 0 then [.pair self.startCallback (evt.getBody 0) (evt.getBody 1)]
  else []

/-- The method `ContactListener::collisionRemovedCallback`. -/
def ContactListener.collisionRemovedCallback {F : Type} (self : ContactListener)
    (evt : hkpCollisionEvent) : List (Invoke F) :=
  if self.endCallback ≠ 0 then [.pair self.endCallback (evt.getBody 0) (evt.getBody 1)]
  else []

/-- The method `ContactListener::entityDeletedCallback`; `this` is the address of the
listener. -/
def ContactListener.entityDeletedCallback {F σ : Type} (L : Havok F σ) (s : HState F σ)
    (this entity : Ptr) : HState F σ :=
  let s1 := s.call L (.entity_removeContactListener entity this)
  s1.call L (.entity_removeEntityListener entity this)

/-- The method `ContactListener::entityRemovedCallback`, which is empty. -/
def ContactListener.entityRemovedCallback {F σ : Type} (s : HState F σ) (entity : Ptr) :
    HState F σ := s

/-- The method `PhantomCallback::phantomEnterEvent`. -/
def PhantomCallback.phantomEnterEvent {F σ : Type} (L : Havok F σ) (self : PhantomCallback)
    (collidableA collidableB env : Ptr) : List (Invoke F) :=
  if self.enterEvent ≠ 0 then
    let owner := L.hkpGetRigidBody collidableB
    [.single self.enterEvent owner]
  else []

/-- The method `PhantomCallback::phantomLeaveEvent`. -/
def PhantomCallback.phantomLeaveEvent {F σ : Type} (L : Havok F σ) (self : PhantomCallback)
    (collidableA collidableB : Ptr) : List (Invoke F) :=
  if self.leaveEvent ≠ 0 then
    let owner := L.hkpGetRigidBody collidableB
    [.single self.leaveEvent owner]
  else []

/-- The method `BroadphaseBorder::maxPositionExceededCallback`: the call goes through
`callback` without a test, also when `callback` is `NULL`. -/
def BroadphaseBorder.maxPositionExceededCallback {F : Type} (self : BroadphaseBorder)
    (entity : Ptr) : List (Invoke F) :=
  let body := entity
  [.single self.callback body]

/-! ## The physics wrapper: the lock around mutations -/

/-- The call is `world->lock()`. -/
def HkCall.isLock {F : Type} : HkCall F → Bool
  | .world_lock _ => true
  | _ => false

/-- The call is `world->unlock()`. -/
def HkCall.isUnlock {F : Type} : HkCall F → Bool
  | .world_unlock _ => true
  | _ => false

/-- The call changes the world or a body of it. -/
def HkCall.mutates {F : Type} : HkCall F → Bool
  | .world_setGravity _ _ => true
  | .world_setBroadPhaseBorder _ _ => true
  | .world_addEntity _ _ => true
  | .world_removeEntity _ _ => true
  | .world_stepDeltaTime _ _ => true
  | .world_removeAll _ => true
  | .removeReference _ => true
  | .body_addContactListener _ _ => true
  | .body_addEntityListener _ _ => true
  | .body_applyForce _ _ _ => true
  | .body_applyTorque _ _ _ => true
  | .body_setLinearVelocity _ _ => true
  | .body_setAngularVelocity _ _ => true
  | .hkpKeyFrameUtility_applyHardKeyFrame _ _ _ _ => true
  | .hkpKeyFrameUtility_applySoftKeyFrame _ _ _ _ _ => true
  | _ => false

/-- Whether, in a sequence of calls, the lock is taken only when it is not held, released
only when it is held, every call that changes the world or a body is made while it is
held, and it is not held at the end; `held` says whether it is held at the beginning. -/
def lockDiscipline {F : Type} : Bool → List (HkCall F) → Bool
  | held, [] => !held
  | held, c :: t =>
    if c.isLock then !held && lockDiscipline true t
    else if c.isUnlock then held && lockDiscipline false t
    else (held || !c.mutates) && lockDiscipline held t

/-- Whether a sequence of calls takes the world lock around its mutations: the lock
discipline is kept, with exactly one `lock` and one `unlock`. -/
def lockedAround {F : Type} (calls : List (HkCall F)) : Bool :=
  lockDiscipline false calls && (calls.countP HkCall.isLock == 1) &&
    (calls.countP HkCall.isUnlock == 1)

/-! ## A small physics library instance, for running the wrapper on concrete inputs -/

/-- Exact arithmetic on rationals standing in for `float`: it agrees with `float`
arithmetic wherever operands and result are representable, as for the small integers and
halves used in the evaluations below. -/
def ratOps : FloatOps ℚ where
  lit := fun i => (i : ℚ)
  div := fun a b => a / b
  add := fun a b => a + b
  sub := fun a b => a - b
  ge := fun a b => decide (b ≤ a)
  ne := fun a b => decide (a ≠ b)

/-- A stand-in for the Havok library: its state is the number of calls made so far, and
a pointer it returns is 1000 plus that number. -/
def toyHavok : Havok ℚ Nat where
  fl := ratOps
  effect := fun _ n => n + 1
  retPtr := fun _ n => 1000 + n
  retInt := fun _ _ => 0
  retVec := fun _ _ => ⟨0, 0, 0⟩
  retQuat := fun _ _ => ⟨0, 0, 0, 1⟩
  retMass := fun _ _ => ⟨1, ⟨0, 0, 0⟩, [1, 0, 0, 0, 1, 0, 0, 0, 1]⟩
  retFloats := fun _ _ _ => 0
  retPtrs := fun _ _ => []
  hkpGetRigidBody := fun c => c + 1
  defaultCinfo :=
    ⟨0, 0, ⟨0, 0, 0⟩, ⟨0, 0, 0, 1⟩, 1 / 2, 2 / 5, 1 / 20, 0, 1, 1, ⟨0, 0, 0⟩, [],
     ⟨0, 0, 0⟩, 0, ⟨0, 0, 0⟩, 1 / 20, 200, 200, true⟩
  defaultVec := ⟨0, 0, 0⟩
  MOTION_FIXED := 5
  MOTION_KEYFRAMED := 4
  HK_SUCCESS := 0
  sizeofVector4 := 16

/-- The physics wrapper after `init_world` has stored a world at address 1. -/
def toyWorld : HState ℚ Nat :=
  { world := 1, contactListeners := [], borders := [], phantoms := [], lib := 0, calls := [] }

/-- What every exported function of the vision wrapper other than the adders, `alvar_init`
and the two calibration functions leaves as it is: the sizes of the three registries and
the flag `calibration_started`. -/
def Keeps {L : Alvar} (s s2 : AState L) : Prop :=
  s2.cams.length = s.cams.length ∧
  s2.markerDetectors.length = s.markerDetectors.length ∧
  s2.multiMarkers.length = s.multiMarkers.length ∧
  s2.calibration_started = s.calibration_started

/-- The globals of the toy library after one camera (with a calibration file) and one
marker detector were added. -/
def toyScene : AState toyAlvar :=
  (alvar_add_marker_detector (alvar_add_camera (AState.start toyAlvar) (some "calib.xml")
    640 480).2 10 5 2).2

/-! ## Notions used to state what the wrappers report -/

/-- The ids a caller asks `alvar_detect_marker` for: the first `n` entries of
`interestedMarkerIDs`, none when `n` is not positive. -/
def requestedIds (interestedMarkerIDs : Buf Int) (n : Int) : List Int :=
  (List.range n.toNat).map interestedMarkerIDs

/-- The ids of a list of markers, in the order of the list. -/
def markerIds (L : Alvar) (ms : List L.Marker) : List Int := ms.map L.GetId

/-- The requested ids that occur among the ids of the detected markers, in the order in
which they were requested, repeated requests repeated. -/
def reportedIds (requested detected : List Int) : List Int :=
  requested.filter (fun x => decide (x ∈ detected))

/-- The position of the last occurrence of `k` in a list of ids. -/
def lastIndex (k : Int) : List Int → Option Nat
  | [] => none
  | x :: t =>
    match lastIndex k t with
    | some j => some (j + 1)
    | none => if x = k then some 0 else none

/-- The last marker of a list that carries the id `k`. -/
def lastWithId (L : Alvar) (k : Int) : List L.Marker → Option L.Marker
  | [] => none
  | m :: t =>
    match lastWithId L k t with
    | some x => some x
    | none => if L.GetId m = k then some m else none

/-- The markers a detector holds after `alvar_detect_marker` has run `Detect` on it: `d`
is `markerDetectors[detectorID]` and `c` is `cams[camID]` before the call. -/
def markersAfterDetect (L : Alvar) (d : L.Detector) (c : ALVARCamera L) (nChannels : Int)
    (colorModel channelSeq : Buf Nat) (imageData : Ptr)
    (maxMarkerError maxTrackError : L.Double) : List L.Marker :=
  L.markers (L.Detect d (fillImageHeader c nChannels colorModel channelSeq imageData) c.cam
    true false maxMarkerError maxTrackError).1

/-- The entities of a list of simulation islands, island after island, in the order in
which each island lists them; `lib` is the state of the library. -/
def entitiesOf {F σ : Type} (L : Havok F σ) (lib : σ) (islands : List Ptr) : List Ptr :=
  (islands.map (fun island => L.retPtrs (.island_getEntities island) lib)).flatten

/-- A physics library for which the world has two active islands, the island at address 1
with the entities 10 and 11 and the island at address 2 with the entity 20, and the
transform of a body has the entries body address plus position. -/
def toyIslands : Havok ℚ Nat :=
  { toyHavok with
    retPtrs := fun c _ =>
      match c with
      | .world_getActiveSimulationIslands _ => [1, 2]
      | .island_getEntities 1 => [10, 11]
      | .island_getEntities 2 => [20]
      | _ => []
    retFloats := fun c _ k =>
      match c with
      | .transform_get4x4ColumnMajor b => (b : ℚ) + k
      | _ => 0 }

/-- What holds in the second loop of `get_updated_transforms` when the entities `done`
have been handled: the library state is still `lib`, `count` is their number, the slots
stored to are `0, ..., count - 1`, slot `k` holds the `k`-th of them with its transform, and
the buffers are as they were from slot `count` on. -/
def TransformInv {F σ : Type} (L : Havok F σ) (lib : σ) (bodyPtr : Buf Int)
    (transformPtr : Buf F) (st : TransformLoop F σ) (done : List Ptr) : Prop :=
  st.s.lib = lib ∧ st.count = done.length ∧ st.written = List.range done.length ∧
  (∀ (k : Nat) (e : Ptr), done[k]? = some e → st.bodyPtr k = toInt (e : Int) ∧
    ∀ j, j < 16 → st.transformPtr (16 * k + j)
      = L.retFloats (.transform_get4x4ColumnMajor e) lib j) ∧
  (∀ k, done.length ≤ k → st.bodyPtr k = bodyPtr k) ∧
  (∀ x, 16 * done.length ≤ x → st.transformPtr x = transformPtr x)

/-! ## Lemmas on machine integers and containers -/

theorem toSizeT_of_nonneg (i : Int) (h0 : 0 ≤ i) (h1 : i < 4294967296) :
    toSizeT i = i.toNat := by
  unfold toSizeT
  rw [Int.emod_eq_of_lt h0 h1]

theorem toSizeT_natCast (n : Nat) (h : n < 4294967296) : toSizeT (n : Int) = n := by
  rw [toSizeT_of_nonneg _ (by omega) (by omega)]
  simp

theorem toSizeT_of_neg (i : Int) (h : isInt i) (hn : i < 0) : 2147483648 ≤ toSizeT i := by
  unfold toSizeT
  unfold isInt at h
  omega

theorem toInt_of_small (n : Int) (h0 : -2147483648 ≤ n) (h1 : n < 2147483648) :
    toInt n = n := by
  unfold toInt
  omega

/-- For an `int` index and a table that is not larger than 2^31 entries, the unsigned
comparison `index >= size` fails exactly for the indices `0 ≤ index < size`. -/
theorem geSize_eq_false_iff (i : Int) (n : Nat) (hi : isInt i) (hn : n ≤ 2147483648) :
    geSize i n = false ↔ (0 ≤ i ∧ i < (n : Int)) := by
  unfold geSize
  rw [decide_eq_false_iff_not]
  constructor
  · intro h
    by_cases h0 : i < 0
    · have := toSizeT_of_neg i hi h0
      omega
    · have h1 : i < 4294967296 := by unfold isInt at hi; omega
      rw [toSizeT_of_nonneg i (by omega) h1] at h
      omega
  · rintro ⟨h0, h1⟩
    rw [toSizeT_of_nonneg i h0 (by omega)]
    omega

theorem vecAt_of_check {α : Type} (v : List α) (i : Int) (f : Fault)
    (h : geSize i v.length = false) : ∃ x, vecAt v i f = .ok x := by
  unfold geSize at h
  rw [decide_eq_false_iff_not] at h
  have hlt : toSizeT i < v.length := by omega
  refine ⟨v[toSizeT i], ?_⟩
  unfold vecAt
  rw [List.getElem?_eq_getElem hlt]

theorem vecAt_error {α : Type} (v : List α) (i : Int) (f e : Fault)
    (h : vecAt v i f = .error e) : e = f := by
  unfold vecAt at h
  split at h
  · cases h
  · cases h; rfl

@[simp] theorem vecSet_length {α : Type} (v : List α) (i : Int) (x : α) :
    (vecSet v i x).length = v.length := by
  simp [vecSet]

theorem bind_ok_iff {α β : Type} (x : Except Fault α) (f : α → Except Fault β) (b : β) :
    (x >>= f) = .ok b ↔ ∃ a, x = .ok a ∧ f a = .ok b := by
  cases x <;> simp [bind, Except.bind]

theorem bind_error_iff {α β : Type} (x : Except Fault α) (f : α → Except Fault β)
    (e : Fault) :
    (x >>= f) = .error e ↔ x = .error e ∨ ∃ a, x = .ok a ∧ f a = .error e := by
  cases x <;> simp [bind, Except.bind]

/-- A property kept by every round of a counted loop holds when the loop is left. -/
theorem forLoop_ok {σ : Type} (P : σ → Prop) (n : Nat) (body : Nat → σ → Except Fault σ)
    (hbody : ∀ i st st2, P st → body i st = .ok st2 → P st2)
    (init r : σ) (hinit : P init) (h : forLoop n body init = .ok r) : P r := by
  unfold forLoop at h
  generalize List.range n = l at h
  induction l generalizing init with
  | nil =>
    simp [pure, Except.pure] at h
    exact h ▸ hinit
  | cons a t ih =>
    rw [List.foldlM_cons, bind_ok_iff] at h
    obtain ⟨st, h1, h2⟩ := h
    exact ih st (hbody a init st hinit h1) h2

/-- A counted loop only stops with a fault that one of its rounds stops with, the rounds
being run on states that satisfy a property every round keeps. -/
theorem forLoop_error {σ : Type} (P : σ → Prop) (Q : Fault → Prop) (n : Nat)
    (body : Nat → σ → Except Fault σ)
    (hkeep : ∀ i st st2, P st → body i st = .ok st2 → P st2)
    (hbody : ∀ i st e, P st → body i st = .error e → Q e)
    (init : σ) (e : Fault) (hinit : P init) (h : forLoop n body init = .error e) : Q e := by
  unfold forLoop at h
  generalize List.range n = l at h
  induction l generalizing init with
  | nil => simp [pure, Except.pure] at h
  | cons a t ih =>
    rw [List.foldlM_cons, bind_error_iff] at h
    rcases h with h | ⟨st, h1, h2⟩
    · exact hbody a init e hinit h
    · exact ih st (hkeep a init st hinit h1) h2

/-! ## C1: `alvar_add_camera` -/

/-- C1: `alvar_add_camera` returns the ID of the added camera when `calibFile` is not
`NULL` and `SetCalib` succeeds: the value returned is the index of the new entry of `cams`
(the camera that `SetCalib` loaded, with the given `width` and `height`), that index passes
the range check of the other functions and `cams[ID]` reads exactly this entry; in every
other case (`calibFile` is `NULL`, or `SetCalib` fails) the value returned is -1.  The
registry is taken to hold fewer than 2^31 cameras, so that its size is an `int`. -/
theorem alvar_add_camera_returns_id {L : Alvar} (s : AState L) (calibFile : Option String)
    (width height : Int) (hsize : s.cams.length < 2147483648) :
    (∀ f, calibFile = some f → (L.SetCalib L.Camera_new f width height).1 = true →
      (alvar_add_camera s calibFile width height).1 = (s.cams.length : Int) ∧
      (alvar_add_camera s calibFile width height).2.cams =
        s.cams ++ [⟨(L.SetCalib L.Camera_new f width height).2, width, height⟩] ∧
      geSize (alvar_add_camera s calibFile width height).1
        (alvar_add_camera s calibFile width height).2.cams.length = false ∧
      vecAt (alvar_add_camera s calibFile width height).2.cams
        (alvar_add_camera s calibFile width height).1 .cams_index =
        .ok ⟨(L.SetCalib L.Camera_new f width height).2, width, height⟩) ∧
    ((calibFile = none ∨
        ∃ f, calibFile = some f ∧ (L.SetCalib L.Camera_new f width height).1 = false) →
      (alvar_add_camera s calibFile width height).1 = -1) := by
  constructor
  · intro f hf hok
    subst hf
    have hret : (alvar_add_camera s (some f) width height).1 = (s.cams.length : Int) := by
      simp [alvar_add_camera, hok, AState.logCall]
      exact toInt_of_small _ (by omega) (by omega)
    have hcams : (alvar_add_camera s (some f) width height).2.cams =
        s.cams ++ [⟨(L.SetCalib L.Camera_new f width height).2, width, height⟩] := by
      simp [alvar_add_camera, hok, AState.logCall]
    refine ⟨hret, hcams, ?_, ?_⟩
    · rw [hret, hcams]
      simp [geSize, toSizeT_natCast _ (show s.cams.length < 4294967296 by omega)]
    · rw [hret, hcams]
      simp [vecAt, toSizeT_natCast _ (show s.cams.length < 4294967296 by omega)]
  · rintro (h | ⟨f, hf, hfail⟩)
    · subst h
      simp [alvar_add_camera]
    · subst hf
      simp [alvar_add_camera, hfail]

/-- C1, evaluated: with the toy library, adding a camera with a calibration file to the
empty registry returns 0, and adding one with a `NULL` file name returns -1. -/
theorem alvar_add_camera_returns_id_witness :
    (AState.start toyAlvar).cams.length < 2147483648 ∧
    (alvar_add_camera (AState.start toyAlvar) (some "calib.xml") 640 480).1 = 0 ∧
    (alvar_add_camera (AState.start toyAlvar) none 640 480).1 = -1 :=
  ⟨by decide,
   ((alvar_add_camera_returns_id (AState.start toyAlvar) (some "calib.xml") 640 480
      (by decide)).1 "calib.xml" rfl (by decide)).1,
   (alvar_add_camera_returns_id (AState.start toyAlvar) none 640 480 (by decide)).2
      (Or.inl rfl)⟩

/-! ## Frame lemmas for the vision wrapper -/

theorem Keeps.refl {L : Alvar} (s : AState L) : Keeps s s := ⟨rfl, rfl, rfl, rfl⟩

theorem Keeps.trans {L : Alvar} {a b c : AState L} (h1 : Keeps a b) (h2 : Keeps b c) :
    Keeps a c :=
  ⟨h2.1.trans h1.1, h2.2.1.trans h1.2.1, h2.2.2.1.trans h1.2.2.1, h2.2.2.2.trans h1.2.2.2⟩

theorem detectTableStep_keeps {L : Alvar} (detectorID : Int) (i : Nat) (s s2 : AState L)
    (h : detectTableStep detectorID i s = .ok s2) : Keeps s s2 := by
  simp only [detectTableStep, bind_ok_iff] at h
  obtain ⟨d, -, m, -, h⟩ := h
  cases h
  exact ⟨rfl, rfl, rfl, rfl⟩

theorem detectFindStep_keeps {L : Alvar} (ids : Buf Int) (i : Nat) (st st2 : AState L × Int)
    (h : detectFindStep ids i st = .ok st2) : Keeps st.1 st2.1 := by
  unfold detectFindStep at h
  cases hf : mapFind st.1.idTable (ids i) <;> simp only [hf] at h <;> cases h <;>
    exact ⟨rfl, rfl, rfl, rfl⟩

theorem alvar_detect_marker_keeps {L : Alvar} (s : AState L) (detectorID camID nChannels : Int)
    (colorModel channelSeq : Buf Nat) (imageData : Ptr) (interestedMarkerIDs : Buf Int)
    (numFoundMarkers numInterestedMarkers : Int) (maxMarkerError maxTrackError : L.Double)
    (r : AState L × Int × Int)
    (h : alvar_detect_marker s detectorID camID nChannels colorModel channelSeq imageData
      interestedMarkerIDs numFoundMarkers numInterestedMarkers maxMarkerError maxTrackError
      = .ok r) : Keeps s r.1 := by
  unfold alvar_detect_marker at h
  split at h
  · cases h; exact Keeps.refl s
  · simp only [bind_ok_iff] at h
    obtain ⟨c, -, d, -, c1, -, d1, -, d2, -, h⟩ := h
    split at h
    · simp only [bind_ok_iff] at h
      obtain ⟨s6, h6, st, hst, h⟩ := h
      cases h
      have k6 := forLoop_ok (fun x => Keeps s x) _ _
        (fun i a b ha hb => ha.trans (detectTableStep_keeps detectorID i a b hb)) _ _
        (by exact ⟨by simp [AState.logCall], by simp [AState.logCall], rfl, rfl⟩) h6
      exact forLoop_ok (fun x => Keeps s x.1) _ _
        (fun i a b ha hb => ha.trans (detectFindStep_keeps _ i a b hb)) _ _ k6 hst
    · cases h
      exact ⟨by simp [AState.logCall], by simp [AState.logCall], rfl, rfl⟩

theorem getPosesStep_keeps {L : Alvar} (detectorID : Int) (i : Nat)
    (st st2 : AState L × Buf Int × Buf L.Double)
    (h : getPosesStep detectorID i st = .ok st2) : Keeps st.1 st2.1 := by
  simp only [getPosesStep, bind_ok_iff] at h
  obtain ⟨d, -, f, -, m, -, d1, -, f1, -, m1, -, h⟩ := h
  cases h
  exact ⟨rfl, rfl, rfl, rfl⟩

theorem alvar_get_poses_keeps {L : Alvar} (s : AState L) (detectorID : Int) (ids : Buf Int)
    (poseMats : Buf L.Double) (r : AState L × Buf Int × Buf L.Double)
    (h : alvar_get_poses s detectorID ids poseMats = .ok r) : Keeps s r.1 := by
  unfold alvar_get_poses at h
  split at h
  · cases h; exact Keeps.refl s
  · simp only at h
    split at h
    · cases h; exact Keeps.refl s
    · exact forLoop_ok (fun x => Keeps s x.1) _ _
        (fun i a b ha hb => ha.trans (getPosesStep_keeps detectorID i a b hb)) _ _
        (Keeps.refl s) h

theorem multiUpdate_keeps {L : Alvar} (detectorID camID : Int) (i : Nat) (st st2 : MultiLoop L)
    (h : multiUpdate detectorID camID i st = .ok st2) : Keeps st.s st2.s := by
  simp only [multiUpdate, bind_ok_iff] at h
  obtain ⟨mm, -, d, -, c, -, h⟩ := h
  cases h
  exact ⟨by simp [AState.logCall], by simp [AState.logCall], by simp [AState.logCall], rfl⟩

theorem multiSetTrackMarkers_keeps {L : Alvar} (detectorID camID : Int) (i : Nat)
    (st st2 : MultiLoop L) (h : multiSetTrackMarkers detectorID camID i st = .ok st2) :
    Keeps st.s st2.s := by
  simp only [multiSetTrackMarkers, bind_ok_iff] at h
  obtain ⟨mm, -, d, -, c, -, h⟩ := h
  cases h
  exact ⟨by simp [AState.logCall], by simp [AState.logCall], by simp [AState.logCall], rfl⟩

theorem multiDetectAdditional_keeps {L : Alvar} (detectorID camID : Int)
    (st st2 : MultiLoop L) (h : multiDetectAdditional detectorID camID st = .ok st2) :
    Keeps st.s st2.s := by
  simp only [multiDetectAdditional, bind_ok_iff] at h
  obtain ⟨d, -, c, -, h⟩ := h
  cases h
  exact ⟨by simp [AState.logCall], by simp [AState.logCall], rfl, rfl⟩

theorem multiAdditional_keeps {L : Alvar} (detectorID camID : Int) (detectAdditional : Bool)
    (i : Nat) (st st2 : MultiLoop L)
    (h : multiAdditional detectorID camID detectAdditional i st = .ok st2) :
    Keeps st.s st2.s := by
  unfold multiAdditional at h
  split at h
  · simp only [bind_ok_iff] at h
    obtain ⟨x, hx, y, hy, hz⟩ := h
    have kx := multiUpdate_keeps _ _ _ _ _ hx
    have ky := multiSetTrackMarkers_keeps _ _ _ _ _ hy
    have kz := multiDetectAdditional_keeps _ _ _ _ hz
    exact kx.trans (ky.trans kz)
  · cases h
    exact Keeps.refl _

theorem multiStep_keeps {L : Alvar} (detectorID camID : Int) (detectAdditional : Bool)
    (i : Nat) (st st2 : MultiLoop L)
    (h : multiStep detectorID camID detectAdditional i st = .ok st2) : Keeps st.s st2.s := by
  simp only [multiStep, bind_ok_iff] at h
  obtain ⟨a, ha, b, hb, h⟩ := h
  cases h
  have ka := multiAdditional_keeps _ _ _ _ _ _ ha
  have kb := multiUpdate_keeps _ _ _ _ _ hb
  have k1 : Keeps st.s (AState.logCall st.s AlvarCall.Pose_new) := ⟨rfl, rfl, rfl, rfl⟩
  have k2 : Keeps b.s (AState.logCall b.s AlvarCall.Pose_GetMatrixGL) := ⟨rfl, rfl, rfl, rfl⟩
  exact k1.trans (ka.trans (kb.trans k2))

theorem alvar_get_multi_marker_poses_keeps {L : Alvar} (s : AState L) (detectorID camID : Int)
    (detectAdditional : Bool) (ids : Buf Int) (poseMats errors : Buf L.Double)
    (r : AState L × Buf Int × Buf L.Double × Buf L.Double)
    (h : alvar_get_multi_marker_poses s detectorID camID detectAdditional ids poseMats errors
      = .ok r) : Keeps s r.1 := by
  unfold alvar_get_multi_marker_poses at h
  split at h
  · cases h; exact Keeps.refl s
  · simp only [bind_ok_iff] at h
    obtain ⟨d, -, h⟩ := h
    split at h
    · cases h; exact Keeps.refl s
    · simp only [bind_ok_iff] at h
      obtain ⟨st, hst, h⟩ := h
      cases h
      exact forLoop_ok (fun x => Keeps s x.s) _ _
        (fun i a b ha hb => ha.trans (multiStep_keeps _ _ _ i a b hb)) _ _ (Keeps.refl s) hst

theorem alvar_get_camera_params_keeps {L : Alvar} (s : AState L) (camID : Int)
    (projMat : Buf L.Double) (fovX fovY : L.Double) (farClip nearClip : L.Float)
    (r : Int × AState L × Buf L.Double × L.Double × L.Double)
    (h : alvar_get_camera_params s camID projMat fovX fovY farClip nearClip = .ok r) :
    Keeps s r.2.1 := by
  unfold alvar_get_camera_params at h
  split at h
  · cases h; exact Keeps.refl s
  · simp only [bind_ok_iff] at h
    obtain ⟨c, -, c1, -, c2, -, h⟩ := h
    cases h
    exact ⟨by simp [AState.logCall], rfl, rfl, rfl⟩

theorem alvar_set_marker_size_keeps {L : Alvar} (s : AState L) (detectorID markerID : Int)
    (markerSize : L.Double) (r : Int × AState L)
    (h : alvar_set_marker_size s detectorID markerID markerSize = .ok r) : Keeps s r.2 := by
  unfold alvar_set_marker_size at h
  split at h
  · cases h; exact Keeps.refl s
  · simp only [bind_ok_iff] at h
    obtain ⟨d, -, h⟩ := h
    cases h
    exact ⟨rfl, by simp [AState.logCall], rfl, rfl⟩

/-! ## Histories of calls -/

/-- Every call leaves the number of marker detectors as it is, except
`alvar_add_marker_detector`, which adds one. -/
theorem exec_detectors {L : Alvar} (op : AlvarOp L) (s s2 : AState L) (ret : AlvarRet)
    (h : op.exec s = .ok (ret, s2)) :
    s2.markerDetectors.length = s.markerDetectors.length + countAddDetector [(op, ret)] := by
  cases op <;> simp only [AlvarOp.exec, Except.map] at h
  case init => cases h; rfl
  case add_camera f w h0 =>
    cases h
    cases f <;> simp [alvar_add_camera, AState.logCall, countAddDetector]
    split <;> rfl
  case get_camera_projection f w h0 fc nc pm => cases h; cases f <;> rfl
  case get_camera_params =>
    split at h
    · cases h
    · rename_i r hr
      cases h
      exact (alvar_get_camera_params_keeps _ _ _ _ _ _ _ r hr).2.1
  case add_marker_detector =>
    cases h
    simp [alvar_add_marker_detector, AState.logCall, countAddDetector]
  case set_marker_size =>
    split at h
    · cases h
    · rename_i r hr
      cases h
      exact (alvar_set_marker_size_keeps _ _ _ _ r hr).2.1
  case add_multi_marker => cases h; rfl
  case detect_marker =>
    split at h
    · cases h
    · rename_i r hr
      cases h
      exact (alvar_detect_marker_keeps _ _ _ _ _ _ _ _ _ _ _ _ r hr).2.1
  case get_poses =>
    split at h
    · cases h
    · rename_i r hr
      cases h
      exact (alvar_get_poses_keeps _ _ _ _ r hr).2.1
  case get_multi_marker_poses =>
    split at h
    · cases h
    · rename_i r hr
      cases h
      exact (alvar_get_multi_marker_poses_keeps _ _ _ _ _ _ _ r hr).2.1
  case calibrate_camera =>
    split at h
    · cases h
    · rename_i r hr
      cases h
      unfold alvar_calibrate_camera at hr
      split at hr
      · cases hr; rfl
      · simp only [bind_ok_iff] at hr
        obtain ⟨c, -, hr⟩ := hr
        cases hr
        simp only [countAddDetector, Nat.add_zero]
        split <;> rfl
  case finalize_calibration =>
    split at h
    · cases h
    · rename_i r hr
      cases h
      unfold alvar_finalize_calibration at hr
      split at hr
      · cases hr; rfl
      · simp only [bind_ok_iff] at hr
        obtain ⟨c, -, c1, -, hr⟩ := hr
        cases hr
        simp only [countAddDetector, Nat.add_zero]
        split <;> rfl

theorem countAddDetector_cons {L : Alvar} (x : AlvarOp L × AlvarRet)
    (t : List (AlvarOp L × AlvarRet)) :
    countAddDetector (x :: t) = countAddDetector [x] + countAddDetector t := by
  obtain ⟨op, ret⟩ := x
  cases op <;> simp [countAddDetector]
  omega

theorem runOps_cons_ok {L : Alvar} (s s2 : AState L) (op : AlvarOp L) (rest : List (AlvarOp L))
    (hist : List (AlvarOp L × AlvarRet)) (h : runOps s (op :: rest) = .ok (hist, s2)) :
    ∃ ret s1 hist1, op.exec s = .ok (ret, s1) ∧ runOps s1 rest = .ok (hist1, s2) ∧
      hist = (op, ret) :: hist1 := by
  simp only [runOps] at h
  split at h
  · cases h
  · rename_i r hr
    split at h
    · cases h
    · rename_i q hq
      cases h
      exact ⟨r.1, r.2, q.1, hr, hq, rfl⟩

/-- The number of marker detectors after a sequence of calls is the number there was
before plus the number of `alvar_add_marker_detector` calls in the sequence. -/
theorem runOps_detectors {L : Alvar} (ops : List (AlvarOp L)) (s s2 : AState L)
    (hist : List (AlvarOp L × AlvarRet)) (h : runOps s ops = .ok (hist, s2)) :
    s2.markerDetectors.length = s.markerDetectors.length + countAddDetector hist := by
  induction ops generalizing s hist with
  | nil =>
    simp only [runOps] at h
    cases h
    rfl
  | cons op rest ih =>
    obtain ⟨ret, s1, hist1, h1, h2, rfl⟩ := runOps_cons_ok s s2 op rest hist h
    rw [ih s1 hist1 h2, exec_detectors op s s1 ret h1, countAddDetector_cons (op, ret) hist1]
    omega

/-! ## C2: `alvar_add_marker_detector` -/

/-- C2: `alvar_add_marker_detector` returns the ID of the added detector.  The value
returned is the number of detectors registered before the call; afterwards the registry is
the old one with the new detector (a fresh `MarkerDetector` on which `SetMarkerSize` was
called with the three arguments) appended, so the new detector is at the returned index and
every detector registered before keeps its index; and when the globals `s` were reached from
the start of the program by any sequence of calls of exported functions, the value returned
is the number of `alvar_add_marker_detector` calls made so far (the k-th call returns k-1).
The registry is taken to hold fewer than 2^31 detectors, so that its size is an `int`. -/
theorem alvar_add_marker_detector_returns_id {L : Alvar} (s : AState L) (markerSize : L.Double)
    (markerRes : Int) (margin : L.Double) (hsize : s.markerDetectors.length < 2147483648) :
    (alvar_add_marker_detector s markerSize markerRes margin).1
      = (s.markerDetectors.length : Int) ∧
    (alvar_add_marker_detector s markerSize markerRes margin).2.markerDetectors
      = s.markerDetectors ++ [L.SetMarkerSize L.MarkerDetector_new markerSize markerRes margin] ∧
    vecAt (alvar_add_marker_detector s markerSize markerRes margin).2.markerDetectors
        (alvar_add_marker_detector s markerSize markerRes margin).1 .markerDetectors_index
      = .ok (L.SetMarkerSize L.MarkerDetector_new markerSize markerRes margin) ∧
    (∀ i : Nat, i < s.markerDetectors.length →
      (alvar_add_marker_detector s markerSize markerRes margin).2.markerDetectors[i]?
        = s.markerDetectors[i]?) ∧
    (∀ ops hist, runOps (AState.start L) ops = .ok (hist, s) →
      (alvar_add_marker_detector s markerSize markerRes margin).1
        = (countAddDetector hist : Int)) := by
  have hret : (alvar_add_marker_detector s markerSize markerRes margin).1
      = (s.markerDetectors.length : Int) := by
    simp only [alvar_add_marker_detector, AState.logCall, List.length_append,
      List.length_singleton]
    rw [toInt_of_small _ (by push_cast; omega) (by push_cast; omega)]
    push_cast
    omega
  have hreg : (alvar_add_marker_detector s markerSize markerRes margin).2.markerDetectors
      = s.markerDetectors ++ [L.SetMarkerSize L.MarkerDetector_new markerSize markerRes margin] :=
    rfl
  refine ⟨hret, hreg, ?_, ?_, ?_⟩
  · rw [hret, hreg]
    simp [vecAt, toSizeT_natCast _ (show s.markerDetectors.length < 4294967296 by omega)]
  · intro i hi
    rw [hreg, List.getElem?_append_left hi]
  · intro ops hist hrun
    rw [hret, runOps_detectors ops _ s hist hrun]
    simp [AState.start]

/-- C2, evaluated: with the toy library, after a camera and one detector were added, the
second `alvar_add_marker_detector` call returns 1. -/
theorem alvar_add_marker_detector_returns_id_witness :
    (alvar_add_marker_detector (alvar_add_marker_detector (alvar_add_camera
        (AState.start toyAlvar) none 640 480).2 10 5 2).2 20 5 2).1 = 1 :=
  (alvar_add_marker_detector_returns_id (alvar_add_marker_detector (alvar_add_camera
        (AState.start toyAlvar) none 640 480).2 10 5 2).2 20 5 2 (by decide)).1

/-! ## What the index check gives -/

theorem alvar_get_camera_params_checked {L : Alvar} (s : AState L) (camID : Int)
    (projMat : Buf L.Double) (fovX fovY : L.Double) (farClip nearClip : L.Float)
    (hg : geSize camID s.cams.length = false) :
    ∃ s2 pm fx fy, alvar_get_camera_params s camID projMat fovX fovY farClip nearClip
      = .ok (0, s2, pm, fx, fy) := by
  obtain ⟨c, hc⟩ := vecAt_of_check s.cams camID .cams_index hg
  simp only [alvar_get_camera_params, hg, Bool.false_eq_true, if_false, hc, bind, Except.bind]
  obtain ⟨c1, hc1⟩ := vecAt_of_check (vecSet s.cams camID
    { c with cam := (L.GetOpenglProjectionMatrix c.cam projMat c.width c.height
      farClip nearClip).2 }) camID .cams_index (by rw [vecSet_length]; exact hg)
  simp only [hc1]
  obtain ⟨c2, hc2⟩ := vecAt_of_check (vecSet (vecSet s.cams camID
    { c with cam := (L.GetOpenglProjectionMatrix c.cam projMat c.width c.height
      farClip nearClip).2 }) camID { c1 with cam := (L.GetFovX c1.cam).2 }) camID .cams_index
    (by rw [vecSet_length, vecSet_length]; exact hg)
  simp only [AState.logCall, hc2]
  exact ⟨_, _, _, _, rfl⟩

theorem alvar_set_marker_size_checked {L : Alvar} (s : AState L) (detectorID markerID : Int)
    (markerSize : L.Double) (hg : geSize detectorID s.markerDetectors.length = false) :
    ∃ s2, alvar_set_marker_size s detectorID markerID markerSize = .ok (0, s2) := by
  obtain ⟨d, hd⟩ := vecAt_of_check s.markerDetectors detectorID .markerDetectors_index hg
  simp only [alvar_set_marker_size, hg, Bool.false_eq_true, if_false, hd, bind, Except.bind]
  exact ⟨_, rfl⟩

/-! ## C3: the sentinel -1 of `alvar_get_camera_params` and `alvar_set_marker_size` -/

/-- C3: for every `int` index, negative ones included, `alvar_get_camera_params` returns
-1 exactly when `camID` is not in `[0, cams.size())` and 0 otherwise, and
`alvar_set_marker_size` returns -1 exactly when `detectorID` is not in
`[0, markerDetectors.size())` and 0 otherwise; with -1 the globals (the detectors among
them) and the contents of `projMat`, `*fovX`, `*fovY` are those before the call.  Both
functions return (no container is indexed out of bounds).  The two registries are taken to
hold fewer than 2^31 entries. -/
theorem sentinel_iff_out_of_range {L : Alvar} (s : AState L) (camID detectorID markerID : Int)
    (projMat : Buf L.Double) (fovX fovY markerSize : L.Double) (farClip nearClip : L.Float)
    (hcam : isInt camID) (hdet : isInt detectorID)
    (hcams : s.cams.length < 2147483648)
    (hdets : s.markerDetectors.length < 2147483648) :
    (∃ r, alvar_get_camera_params s camID projMat fovX fovY farClip nearClip = .ok r ∧
      (r.1 = -1 ↔ ¬ (0 ≤ camID ∧ camID < (s.cams.length : Int))) ∧
      ((0 ≤ camID ∧ camID < (s.cams.length : Int)) → r.1 = 0) ∧
      (r.1 = -1 → r.2 = (s, projMat, fovX, fovY))) ∧
    (∃ r, alvar_set_marker_size s detectorID markerID markerSize = .ok r ∧
      (r.1 = -1 ↔ ¬ (0 ≤ detectorID ∧ detectorID < (s.markerDetectors.length : Int))) ∧
      ((0 ≤ detectorID ∧ detectorID < (s.markerDetectors.length : Int)) → r.1 = 0) ∧
      (r.1 = -1 → r.2 = s)) := by
  constructor
  · have hiff := geSize_eq_false_iff camID s.cams.length hcam (by omega)
    cases hg : geSize camID s.cams.length
    · have hin := hiff.1 hg
      obtain ⟨s2, pm, fx, fy, h⟩ :=
        alvar_get_camera_params_checked s camID projMat fovX fovY farClip nearClip hg
      refine ⟨(0, s2, pm, fx, fy), h, ?_, ?_, ?_⟩
      · simp [hin]
      · intro _; rfl
      · intro h; simp at h
    · have hout : ¬ (0 ≤ camID ∧ camID < (s.cams.length : Int)) := by
        intro h
        rw [hiff.2 h] at hg
        cases hg
      refine ⟨(-1, s, projMat, fovX, fovY), ?_, ?_, ?_, ?_⟩
      · simp [alvar_get_camera_params, hg]
      · simp only [true_iff]; exact hout
      · intro h; exact absurd h hout
      · intro _; rfl
  · have hiff := geSize_eq_false_iff detectorID s.markerDetectors.length hdet (by omega)
    cases hg : geSize detectorID s.markerDetectors.length
    · have hin := hiff.1 hg
      obtain ⟨s2, h⟩ := alvar_set_marker_size_checked s detectorID markerID markerSize hg
      refine ⟨(0, s2), h, ?_, ?_, ?_⟩
      · simp [hin]
      · intro _; rfl
      · intro h; simp at h
    · have hout : ¬ (0 ≤ detectorID ∧ detectorID < (s.markerDetectors.length : Int)) := by
        intro h
        rw [hiff.2 h] at hg
        cases hg
      refine ⟨(-1, s), ?_, ?_, ?_, ?_⟩
      · simp [alvar_set_marker_size, hg]
      · simp only [true_iff]; exact hout
      · intro h; exact absurd h hout
      · intro _; rfl

/-- C3, evaluated: in the toy scene (one camera, one detector) `alvar_get_camera_params`
with `camID = -1` returns -1 and `alvar_set_marker_size` with `detectorID = 0` returns 0. -/
theorem sentinel_iff_out_of_range_witness :
    (∃ r, alvar_get_camera_params toyScene (-1) (fun _ => 0) 0 0 1000 1 = .ok r ∧ r.1 = -1) ∧
    (∃ r, alvar_set_marker_size toyScene 0 7 25 = .ok r ∧ r.1 = 0) :=
  have h := sentinel_iff_out_of_range toyScene (-1) 0 7 (fun _ => 0) 0 0 25 1000 1
    (by decide) (by decide) (by decide) (by decide)
  ⟨h.1.elim fun r hr => ⟨r, hr.1, hr.2.1.2 (by decide)⟩,
   h.2.elim fun r hr => ⟨r, hr.1, hr.2.2.1 (by decide)⟩⟩

/-! ## Faults of the loops -/

theorem Keeps.check_cams {L : Alvar} {s s2 : AState L} (k : Keeps s s2) (i : Int)
    (h : geSize i s.cams.length = false) : geSize i s2.cams.length = false := by
  rw [k.1]; exact h

theorem Keeps.check_detectors {L : Alvar} {s s2 : AState L} (k : Keeps s s2) (i : Int)
    (h : geSize i s.markerDetectors.length = false) :
    geSize i s2.markerDetectors.length = false := by
  rw [k.2.1]; exact h

theorem vecAt_not_error {α : Type} (v : List α) (i : Int) (f e : Fault)
    (hg : geSize i v.length = false) : vecAt v i f ≠ .error e := by
  obtain ⟨x, hx⟩ := vecAt_of_check v i f hg
  rw [hx]
  intro h
  cases h

theorem detectTableStep_error {L : Alvar} (detectorID : Int) (i : Nat) (s : AState L)
    (e : Fault) (hd : geSize detectorID s.markerDetectors.length = false)
    (h : detectTableStep detectorID i s = .error e) :
    e ≠ .cams_index ∧ e ≠ .markerDetectors_index := by
  simp only [detectTableStep, bind_error_iff] at h
  rcases h with h | ⟨d, -, h | ⟨m, -, h⟩⟩
  · exact absurd h (vecAt_not_error _ _ _ _ hd)
  · rw [vecAt_error _ _ _ _ h]; exact ⟨by decide, by decide⟩
  · cases h

theorem getPosesStep_error {L : Alvar} (detectorID : Int) (i : Nat)
    (st : AState L × Buf Int × Buf L.Double) (e : Fault)
    (hd : geSize detectorID st.1.markerDetectors.length = false)
    (h : getPosesStep detectorID i st = .error e) :
    e ≠ .cams_index ∧ e ≠ .markerDetectors_index := by
  simp only [getPosesStep, bind_error_iff] at h
  rcases h with h | ⟨d, -, h | ⟨f, -, h | ⟨m, -, h | ⟨d1, -, h | ⟨f1, -, h | ⟨m1, -, h⟩⟩⟩⟩⟩⟩
  · exact absurd h (vecAt_not_error _ _ _ _ hd)
  · rw [vecAt_error _ _ _ _ h]; exact ⟨by decide, by decide⟩
  · rw [vecAt_error _ _ _ _ h]; exact ⟨by decide, by decide⟩
  · exact absurd h (vecAt_not_error _ _ _ _ hd)
  · rw [vecAt_error _ _ _ _ h]; exact ⟨by decide, by decide⟩
  · rw [vecAt_error _ _ _ _ h]; exact ⟨by decide, by decide⟩
  · cases h

theorem multiUpdate_error {L : Alvar} (detectorID camID : Int) (i : Nat) (st : MultiLoop L)
    (e : Fault) (hd : geSize detectorID st.s.markerDetectors.length = false)
    (hc : geSize camID st.s.cams.length = false)
    (h : multiUpdate detectorID camID i st = .error e) :
    e ≠ .cams_index ∧ e ≠ .markerDetectors_index := by
  simp only [multiUpdate, bind_error_iff] at h
  rcases h with h | ⟨mm, -, h | ⟨d, -, h | ⟨c, -, h⟩⟩⟩
  · rw [vecAt_error _ _ _ _ h]; exact ⟨by decide, by decide⟩
  · exact absurd h (vecAt_not_error _ _ _ _ hd)
  · exact absurd h (vecAt_not_error _ _ _ _ hc)
  · cases h

theorem multiSetTrackMarkers_error {L : Alvar} (detectorID camID : Int) (i : Nat)
    (st : MultiLoop L) (e : Fault)
    (hd : geSize detectorID st.s.markerDetectors.length = false)
    (hc : geSize camID st.s.cams.length = false)
    (h : multiSetTrackMarkers detectorID camID i st = .error e) :
    e ≠ .cams_index ∧ e ≠ .markerDetectors_index := by
  simp only [multiSetTrackMarkers, bind_error_iff] at h
  rcases h with h | ⟨mm, -, h | ⟨d, -, h | ⟨c, -, h⟩⟩⟩
  · rw [vecAt_error _ _ _ _ h]; exact ⟨by decide, by decide⟩
  · exact absurd h (vecAt_not_error _ _ _ _ hd)
  · exact absurd h (vecAt_not_error _ _ _ _ hc)
  · cases h

theorem multiDetectAdditional_error {L : Alvar} (detectorID camID : Int)
    (st : MultiLoop L) (e : Fault)
    (hd : geSize detectorID st.s.markerDetectors.length = false)
    (hc : geSize camID st.s.cams.length = false)
    (h : multiDetectAdditional detectorID camID st = .error e) :
    e ≠ .cams_index ∧ e ≠ .markerDetectors_index := by
  simp only [multiDetectAdditional, bind_error_iff] at h
  rcases h with h | ⟨d, -, h | ⟨c, -, h⟩⟩
  · exact absurd h (vecAt_not_error _ _ _ _ hd)
  · exact absurd h (vecAt_not_error _ _ _ _ hc)
  · cases h

theorem multiStep_error {L : Alvar} (detectorID camID : Int) (detectAdditional : Bool)
    (i : Nat) (st : MultiLoop L) (e : Fault)
    (hd : geSize detectorID st.s.markerDetectors.length = false)
    (hc : geSize camID st.s.cams.length = false)
    (h : multiStep detectorID camID detectAdditional i st = .error e) :
    e ≠ .cams_index ∧ e ≠ .markerDetectors_index := by
  simp only [multiStep, bind_error_iff] at h
  rcases h with h | ⟨a, ha, h | ⟨b, -, h⟩⟩
  · unfold multiAdditional at h
    split at h
    · simp only [bind_error_iff] at h
      rcases h with h | ⟨x, hx, h | ⟨y, hy, h⟩⟩
      · refine multiUpdate_error _ _ _ _ _ ?_ ?_ h
        · exact hd
        · exact hc
      · have kx := multiUpdate_keeps _ _ _ _ _ hx
        refine multiSetTrackMarkers_error _ _ _ _ _ (kx.check_detectors _ ?_)
          (kx.check_cams _ ?_) h
        · exact hd
        · exact hc
      · have kx := multiUpdate_keeps _ _ _ _ _ hx
        have ky := multiSetTrackMarkers_keeps _ _ _ _ _ hy
        refine multiDetectAdditional_error _ _ _ _ ((kx.trans ky).check_detectors _ ?_)
          ((kx.trans ky).check_cams _ ?_) h
        · exact hd
        · exact hc
    · cases h
  · have ka := multiAdditional_keeps _ _ _ _ _ _ ha
    refine multiUpdate_error _ _ _ _ _ (ka.check_detectors _ ?_) (ka.check_cams _ ?_) h
    · exact hd
    · exact hc
  · cases h

theorem alvar_detect_marker_error {L : Alvar} (s : AState L) (detectorID camID nChannels : Int)
    (colorModel channelSeq : Buf Nat) (imageData : Ptr) (interestedMarkerIDs : Buf Int)
    (numFoundMarkers numInterestedMarkers : Int) (maxMarkerError maxTrackError : L.Double)
    (e : Fault)
    (h : alvar_detect_marker s detectorID camID nChannels colorModel channelSeq imageData
      interestedMarkerIDs numFoundMarkers numInterestedMarkers maxMarkerError maxTrackError
      = .error e) : e ≠ .cams_index ∧ e ≠ .markerDetectors_index := by
  unfold alvar_detect_marker at h
  split at h
  · cases h
  · rename_i hchk
    simp only [Bool.or_eq_true, not_or, Bool.not_eq_true] at hchk
    obtain ⟨hd, hc⟩ := hchk
    simp only [bind_error_iff] at h
    rcases h with h | ⟨c, -, h | ⟨d, -, h | ⟨c1, -, h | ⟨d1, -, h | ⟨d2, -, h⟩⟩⟩⟩⟩
    · exact absurd h (vecAt_not_error _ _ _ _ hc)
    · exact absurd h (vecAt_not_error _ _ _ _ hd)
    · exact absurd h (vecAt_not_error _ _ _ _ hc)
    · exact absurd h (vecAt_not_error _ _ _ _ (by simpa [AState.logCall] using hd))
    · exact absurd h (vecAt_not_error _ _ _ _ (by simpa [AState.logCall] using hd))
    · split at h
      · simp only [bind_error_iff] at h
        have hP : ∀ x : AState L, Keeps s x →
            geSize detectorID x.markerDetectors.length = false :=
          fun x k => k.check_detectors _ hd
        rcases h with h | ⟨s6, h6, h | ⟨st, -, h⟩⟩
        · exact forLoop_error (fun x => Keeps s x) _ _ _
            (fun i a b ha hb => ha.trans (detectTableStep_keeps detectorID i a b hb))
            (fun i a e ha he => detectTableStep_error detectorID i a e (hP a ha) he) _ e
            (by exact ⟨by simp [AState.logCall], by simp [AState.logCall], rfl, rfl⟩) h
        · refine forLoop_error (fun _ => True)
            (fun x => x ≠ Fault.cams_index ∧ x ≠ Fault.markerDetectors_index) _ _
            (fun _ _ _ _ _ => trivial) ?_ _ e trivial h
          intro i a e2 _ he
          unfold detectFindStep at he
          cases hf : mapFind a.1.idTable (interestedMarkerIDs i) <;> simp only [hf] at he <;>
            cases he
        · cases h
      · cases h

theorem alvar_get_poses_error {L : Alvar} (s : AState L) (detectorID : Int) (ids : Buf Int)
    (poseMats : Buf L.Double) (e : Fault)
    (h : alvar_get_poses s detectorID ids poseMats = .error e) :
    e ≠ .cams_index ∧ e ≠ .markerDetectors_index := by
  unfold alvar_get_poses at h
  split at h
  · cases h
  · rename_i hchk
    simp only [Bool.not_eq_true] at hchk
    simp only at h
    split at h
    · cases h
    · exact forLoop_error (fun x => Keeps s x.1) _ _ _
        (fun i a b ha hb => ha.trans (getPosesStep_keeps detectorID i a b hb))
        (fun i a e ha he => getPosesStep_error detectorID i a e
          (ha.check_detectors _ hchk) he) _ e (Keeps.refl s) h

theorem alvar_get_multi_marker_poses_error {L : Alvar} (s : AState L) (detectorID camID : Int)
    (detectAdditional : Bool) (ids : Buf Int) (poseMats errors : Buf L.Double) (e : Fault)
    (h : alvar_get_multi_marker_poses s detectorID camID detectAdditional ids poseMats errors
      = .error e) : e ≠ .cams_index ∧ e ≠ .markerDetectors_index := by
  unfold alvar_get_multi_marker_poses at h
  split at h
  · cases h
  · rename_i hchk
    simp only [Bool.or_eq_true, not_or, Bool.not_eq_true] at hchk
    obtain ⟨hd, hc⟩ := hchk
    simp only [bind_error_iff] at h
    rcases h with h | ⟨d, -, h⟩
    · exact absurd h (vecAt_not_error _ _ _ _ hd)
    · split at h
      · cases h
      · simp only [bind_error_iff] at h
        rcases h with h | ⟨st, -, h⟩
        · exact forLoop_error (fun x => Keeps s x.s) _ _ _
            (fun i a b ha hb => ha.trans (multiStep_keeps _ _ _ i a b hb))
            (fun i a e ha he => multiStep_error detectorID camID detectAdditional i a e
              (ha.check_detectors _ hd) (ha.check_cams _ hc) he) _ e (Keeps.refl s) h
        · cases h

theorem alvar_calibrate_camera_checked {L : Alvar} (s : AState L) (camID nChannels : Int)
    (colorModel channelSeq : Buf Nat) (imageData : Ptr) (etalon_square_size : L.Double)
    (etalon_rows etalon_columns : Int) (hg : geSize camID s.cams.length = false) :
    ∃ c, vecAt s.cams camID .cams_index = .ok c ∧
      alvar_calibrate_camera s camID nChannels colorModel channelSeq imageData
        etalon_square_size etalon_rows etalon_columns =
      .ok ((L.AddPointsUsingChessboard s.pp
              (fillImageHeader c nChannels colorModel channelSeq imageData)
              etalon_square_size etalon_rows etalon_columns false).1,
           { s with
             image := fillImageHeader c nChannels colorModel channelSeq imageData,
             calls := s.calls ++ [.ProjPoints_AddPointsUsingChessboard],
             pp := (L.AddPointsUsingChessboard s.pp
              (fillImageHeader c nChannels colorModel channelSeq imageData)
              etalon_square_size etalon_rows etalon_columns false).2,
             calibration_started := s.calibration_started ||
               (L.AddPointsUsingChessboard s.pp
                (fillImageHeader c nChannels colorModel channelSeq imageData)
                etalon_square_size etalon_rows etalon_columns false).1 }) := by
  obtain ⟨c, hc⟩ := vecAt_of_check s.cams camID .cams_index hg
  refine ⟨c, hc, ?_⟩
  simp only [alvar_calibrate_camera, hg, Bool.false_eq_true, if_false, hc, bind, Except.bind,
    AState.logCall]
  cases (L.AddPointsUsingChessboard s.pp
      (fillImageHeader c nChannels colorModel channelSeq imageData)
      etalon_square_size etalon_rows etalon_columns false).1 <;> simp

theorem alvar_finalize_calibration_checked {L : Alvar} (s : AState L) (camID : Int)
    (calibrationFilename : String) (hs : s.calibration_started = true)
    (hg : geSize camID s.cams.length = false) :
    ∃ ret s2, alvar_finalize_calibration s camID calibrationFilename = .ok (ret, s2) ∧
      s2.calibration_started = !ret := by
  obtain ⟨c, hc⟩ := vecAt_of_check s.cams camID .cams_index hg
  simp only [alvar_finalize_calibration, hs, hg, Bool.not_true, Bool.or_false,
    Bool.false_eq_true, if_false, hc, bind, Except.bind, AState.logCall]
  obtain ⟨c1, hc1⟩ := vecAt_of_check (vecSet s.cams camID
    { c with cam := (L.Calibrate c.cam s.pp).1 }) camID .cams_index
    (by rw [vecSet_length]; exact hg)
  simp only [hc1]
  cases hr : (L.SaveCalib c1.cam calibrationFilename).1
  · exact ⟨_, _, rfl, by simp [hs]⟩
  · exact ⟨_, _, rfl, by simp⟩

theorem vecAt_ok_iff_in_range {α : Type} (v : List α) (i : Int) (f : Fault) (hi : isInt i)
    (hv : v.length < 2147483648) :
    (∃ x, vecAt v i f = .ok x) ↔ (0 ≤ i ∧ i < (v.length : Int)) := by
  rw [← geSize_eq_false_iff i v.length hi (by omega)]
  constructor
  · rintro ⟨x, hx⟩
    unfold vecAt at hx
    split at hx
    · rename_i y hy
      have hlt : toSizeT i < v.length := (List.getElem?_eq_some_iff.1 hy).1
      simp [geSize, hlt]
    · cases hx
  · exact vecAt_of_check v i f

theorem alvar_get_camera_params_total {L : Alvar} (s : AState L) (camID : Int)
    (projMat : Buf L.Double) (fovX fovY : L.Double) (farClip nearClip : L.Float) :
    ∃ r, alvar_get_camera_params s camID projMat fovX fovY farClip nearClip = .ok r := by
  cases hg : geSize camID s.cams.length
  · obtain ⟨s2, pm, fx, fy, h⟩ :=
      alvar_get_camera_params_checked s camID projMat fovX fovY farClip nearClip hg
    exact ⟨_, h⟩
  · exact ⟨(-1, s, projMat, fovX, fovY), by simp [alvar_get_camera_params, hg]⟩

theorem alvar_set_marker_size_total {L : Alvar} (s : AState L) (detectorID markerID : Int)
    (markerSize : L.Double) :
    ∃ r, alvar_set_marker_size s detectorID markerID markerSize = .ok r := by
  cases hg : geSize detectorID s.markerDetectors.length
  · obtain ⟨s2, h⟩ := alvar_set_marker_size_checked s detectorID markerID markerSize hg
    exact ⟨_, h⟩
  · exact ⟨(-1, s), by simp [alvar_set_marker_size, hg]⟩

theorem alvar_calibrate_camera_total {L : Alvar} (s : AState L) (camID nChannels : Int)
    (colorModel channelSeq : Buf Nat) (imageData : Ptr) (etalon_square_size : L.Double)
    (etalon_rows etalon_columns : Int) :
    ∃ r, alvar_calibrate_camera s camID nChannels colorModel channelSeq imageData
      etalon_square_size etalon_rows etalon_columns = .ok r := by
  cases hg : geSize camID s.cams.length
  · obtain ⟨c, -, h⟩ := alvar_calibrate_camera_checked s camID nChannels colorModel channelSeq
      imageData etalon_square_size etalon_rows etalon_columns hg
    exact ⟨_, h⟩
  · exact ⟨(false, s), by simp [alvar_calibrate_camera, hg]⟩

theorem alvar_finalize_calibration_total {L : Alvar} (s : AState L) (camID : Int)
    (calibrationFilename : String) :
    ∃ r, alvar_finalize_calibration s camID calibrationFilename = .ok r := by
  cases hs : s.calibration_started
  · exact ⟨(false, s), by simp [alvar_finalize_calibration, hs]⟩
  · cases hg : geSize camID s.cams.length
    · obtain ⟨ret, s2, h, -⟩ :=
        alvar_finalize_calibration_checked s camID calibrationFilename hs hg
      exact ⟨_, h⟩
    · exact ⟨(false, s), by simp [alvar_finalize_calibration, hg]⟩

theorem no_error_of_total {α : Type} (x : Except Fault α) (hx : ∃ r, x = .ok r) (e : Fault)
    (h : x = .error e) : e ≠ .cams_index ∧ e ≠ .markerDetectors_index := by
  obtain ⟨r, hr⟩ := hx
  rw [hr] at h
  cases h

/-! ## C4: every lookup in `cams` and `markerDetectors` is bounds-checked -/

/-- C4: the lookups `cams[camID]` and `markerDetectors[detectorID]` are bounds-checked in
the seven exported functions that take an index.  For every `int` index, negative ones
included (the index is converted to the unsigned `size_t` both for the check and for the
lookup), a lookup in a table yields an element exactly when `0 ≤ index < size`; and none of
`alvar_get_camera_params`, `alvar_set_marker_size`, `alvar_detect_marker`, `alvar_get_poses`,
`alvar_get_multi_marker_poses`, `alvar_calibrate_camera`, `alvar_finalize_calibration`
ever performs a lookup in `cams` or `markerDetectors` that is out of bounds, whatever the
other arguments are.  The two registries are taken to hold fewer than 2^31 entries. -/
theorem registry_lookups_bounds_checked {L : Alvar} (s : AState L) (camID detectorID : Int)
    (hcam : isInt camID) (hdet : isInt detectorID)
    (hcams : s.cams.length < 2147483648)
    (hdets : s.markerDetectors.length < 2147483648) :
    ((∃ c, vecAt s.cams camID .cams_index = .ok c) ↔
      (0 ≤ camID ∧ camID < (s.cams.length : Int))) ∧
    ((∃ d, vecAt s.markerDetectors detectorID .markerDetectors_index = .ok d) ↔
      (0 ≤ detectorID ∧ detectorID < (s.markerDetectors.length : Int))) ∧
    (∀ projMat fovX fovY farClip nearClip e,
      alvar_get_camera_params s camID projMat fovX fovY farClip nearClip = .error e →
        e ≠ .cams_index ∧ e ≠ .markerDetectors_index) ∧
    (∀ markerID markerSize e,
      alvar_set_marker_size s detectorID markerID markerSize = .error e →
        e ≠ .cams_index ∧ e ≠ .markerDetectors_index) ∧
    (∀ nChannels colorModel channelSeq imageData interestedMarkerIDs numFoundMarkers
        numInterestedMarkers maxMarkerError maxTrackError e,
      alvar_detect_marker s detectorID camID nChannels colorModel channelSeq imageData
        interestedMarkerIDs numFoundMarkers numInterestedMarkers maxMarkerError maxTrackError
        = .error e → e ≠ .cams_index ∧ e ≠ .markerDetectors_index) ∧
    (∀ ids poseMats e,
      alvar_get_poses s detectorID ids poseMats = .error e →
        e ≠ .cams_index ∧ e ≠ .markerDetectors_index) ∧
    (∀ detectAdditional ids poseMats errors e,
      alvar_get_multi_marker_poses s detectorID camID detectAdditional ids poseMats errors
        = .error e → e ≠ .cams_index ∧ e ≠ .markerDetectors_index) ∧
    (∀ nChannels colorModel channelSeq imageData etalon_square_size etalon_rows
        etalon_columns e,
      alvar_calibrate_camera s camID nChannels colorModel channelSeq imageData
        etalon_square_size etalon_rows etalon_columns = .error e →
        e ≠ .cams_index ∧ e ≠ .markerDetectors_index) ∧
    (∀ calibrationFilename e,
      alvar_finalize_calibration s camID calibrationFilename = .error e →
        e ≠ .cams_index ∧ e ≠ .markerDetectors_index) :=
  ⟨vecAt_ok_iff_in_range s.cams camID .cams_index hcam hcams,
   vecAt_ok_iff_in_range s.markerDetectors detectorID .markerDetectors_index hdet hdets,
   fun pm fx fy fc nc e h =>
     no_error_of_total _ (alvar_get_camera_params_total s camID pm fx fy fc nc) e h,
   fun m ms e h => no_error_of_total _ (alvar_set_marker_size_total s detectorID m ms) e h,
   fun n cm cs img ids nf ni e1 e2 e h =>
     alvar_detect_marker_error s detectorID camID n cm cs img ids nf ni e1 e2 e h,
   fun ids pm e h => alvar_get_poses_error s detectorID ids pm e h,
   fun da ids pm er e h =>
     alvar_get_multi_marker_poses_error s detectorID camID da ids pm er e h,
   fun n cm cs img sq rows cols e h =>
     no_error_of_total _ (alvar_calibrate_camera_total s camID n cm cs img sq rows cols) e h,
   fun f e h => no_error_of_total _ (alvar_finalize_calibration_total s camID f) e h⟩

/-- C4, evaluated: in the toy scene (one camera, one detector) a lookup `cams[-5]` yields
no element, and `alvar_detect_marker` called with `camID = -5` performs no lookup out of
bounds. -/
theorem registry_lookups_bounds_checked_witness :
    (¬ ∃ c, vecAt toyScene.cams (-5) .cams_index = .ok c) ∧
    alvar_detect_marker toyScene 0 (-5) 3 (fun _ => 0) (fun _ => 0) 1 (fun _ => 7) 0 1 0 0
      ≠ .error .cams_index :=
  have h := registry_lookups_bounds_checked toyScene (-5) 0 (by decide) (by decide)
    (by decide) (by decide)
  ⟨fun hc => absurd (h.1.1 hc) (by decide),
   fun he => (h.2.2.2.2.1 3 (fun _ => 0) (fun _ => 0) 1 (fun _ => 7) 0 1 0 0 _ he).1 rfl⟩

/-! ## C5: an index out of range makes the void functions do nothing -/

theorem geSize_of_out_of_range (i : Int) (n : Nat) (hi : isInt i) (hn : n < 2147483648)
    (h : ¬ (0 ≤ i ∧ i < (n : Int))) : geSize i n = true := by
  cases hg : geSize i n
  · exact absurd ((geSize_eq_false_iff i n hi (by omega)).1 hg) h
  · rfl

/-- C5: with an index out of range the three void functions of the vision wrapper do
nothing.  For `int` indices, when `detectorID` or `camID` is outside its table,
`alvar_detect_marker` and `alvar_get_multi_marker_poses` return with the globals unchanged
(the image header, `foundMarkers`, `idTable`, `curMaxTrackError`, the registries, and the
log of library calls, so no library call is made) and with `*numFoundMarkers`,
`*numInterestedMarkers`, `ids`, `poseMats` and `errors` as they were; and so does
`alvar_get_poses` when `detectorID` is outside its table.  The two registries are taken to
hold fewer than 2^31 entries. -/
theorem out_of_range_is_noop {L : Alvar} (s : AState L) (detectorID camID : Int)
    (hdet : isInt detectorID) (hcam : isInt camID)
    (hdets : s.markerDetectors.length < 2147483648)
    (hcams : s.cams.length < 2147483648) :
    ((¬ (0 ≤ detectorID ∧ detectorID < (s.markerDetectors.length : Int)) ∨
      ¬ (0 ≤ camID ∧ camID < (s.cams.length : Int))) →
      (∀ nChannels colorModel channelSeq imageData interestedMarkerIDs numFoundMarkers
          numInterestedMarkers maxMarkerError maxTrackError,
        alvar_detect_marker s detectorID camID nChannels colorModel channelSeq imageData
          interestedMarkerIDs numFoundMarkers numInterestedMarkers maxMarkerError
          maxTrackError = .ok (s, numFoundMarkers, numInterestedMarkers)) ∧
      (∀ detectAdditional ids poseMats errors,
        alvar_get_multi_marker_poses s detectorID camID detectAdditional ids poseMats errors
          = .ok (s, ids, poseMats, errors))) ∧
    (¬ (0 ≤ detectorID ∧ detectorID < (s.markerDetectors.length : Int)) →
      ∀ ids poseMats, alvar_get_poses s detectorID ids poseMats = .ok (s, ids, poseMats)) := by
  constructor
  · intro h
    have hchk : (geSize detectorID s.markerDetectors.length
        || geSize camID s.cams.length) = true := by
      rcases h with h | h
      · rw [geSize_of_out_of_range _ _ hdet hdets h]; rfl
      · rw [geSize_of_out_of_range _ _ hcam hcams h]; simp
    constructor
    · intros
      simp only [alvar_detect_marker, hchk, if_true]
    · intros
      simp only [alvar_get_multi_marker_poses, hchk, if_true]
  · intro h ids poseMats
    simp only [alvar_get_poses, geSize_of_out_of_range _ _ hdet hdets h, if_true]

/-- C5, evaluated: in the toy scene (one camera, one detector) `alvar_detect_marker` with
`detectorID = 1` and `alvar_get_poses` with `detectorID = -1` change nothing. -/
theorem out_of_range_is_noop_witness :
    alvar_detect_marker toyScene 1 0 3 (fun _ => 0) (fun _ => 0) 1 (fun _ => 7) 5 1 0 0
      = .ok (toyScene, 5, 1) ∧
    alvar_get_poses toyScene (-1) (fun _ => 0) (fun _ => 0)
      = .ok (toyScene, fun _ => 0, fun _ => 0) :=
  ⟨((out_of_range_is_noop toyScene 1 0 (by decide) (by decide) (by decide) (by decide)).1
      (Or.inl (by decide))).1 3 (fun _ => 0) (fun _ => 0) 1 (fun _ => 7) 5 1 0 0,
   (out_of_range_is_noop toyScene (-1) 0 (by decide) (by decide) (by decide) (by decide)).2
      (by decide) (fun _ => 0) (fun _ => 0)⟩

/-! ## The flag `calibration_started` along a history -/

theorem alvar_calibrate_camera_flag {L : Alvar} (s : AState L) (camID nChannels : Int)
    (colorModel channelSeq : Buf Nat) (imageData : Ptr) (etalon_square_size : L.Double)
    (etalon_rows etalon_columns : Int) (r : Bool × AState L)
    (h : alvar_calibrate_camera s camID nChannels colorModel channelSeq imageData
      etalon_square_size etalon_rows etalon_columns = .ok r) :
    r.2.calibration_started = (r.1 || s.calibration_started) := by
  cases hg : geSize camID s.cams.length
  · obtain ⟨c, -, h2⟩ := alvar_calibrate_camera_checked s camID nChannels colorModel
      channelSeq imageData etalon_square_size etalon_rows etalon_columns hg
    rw [h2] at h
    cases h
    simp [Bool.or_comm]
  · simp only [alvar_calibrate_camera, hg, if_true] at h
    cases h
    simp

theorem alvar_finalize_calibration_flag {L : Alvar} (s : AState L) (camID : Int)
    (calibrationFilename : String) (r : Bool × AState L)
    (h : alvar_finalize_calibration s camID calibrationFilename = .ok r) :
    r.2.calibration_started = (!r.1 && s.calibration_started) := by
  cases hs : s.calibration_started
  · simp only [alvar_finalize_calibration, hs, Bool.not_false, Bool.true_or, if_true] at h
    cases h
    simp [hs]
  · cases hg : geSize camID s.cams.length
    · obtain ⟨ret, s2, h2, hf⟩ :=
        alvar_finalize_calibration_checked s camID calibrationFilename hs hg
      rw [h2] at h
      cases h
      simp [hf]
    · simp only [alvar_finalize_calibration, hg, Bool.or_true, if_true] at h
      cases h
      simp [hs]

/-- One call changes the flag `calibration_started` the way `startedAfter` reads it off
the call and its return value. -/
theorem exec_started {L : Alvar} (op : AlvarOp L) (s s2 : AState L) (ret : AlvarRet)
    (h : op.exec s = .ok (ret, s2)) (t : List (AlvarOp L × AlvarRet))
    (ht : startedAfter t = s.calibration_started) :
    startedAfter ((op, ret) :: t) = s2.calibration_started := by
  cases op <;> simp only [AlvarOp.exec, Except.map] at h
  case init => cases h; rfl
  case add_camera f w h0 =>
    cases h
    simp only [startedAfter, ht]
    cases f <;> simp [alvar_add_camera, AState.logCall]
    split <;> rfl
  case get_camera_projection f w h0 fc nc pm =>
    cases h
    simp only [startedAfter, ht]
    cases f <;> rfl
  case get_camera_params =>
    split at h
    · cases h
    · rename_i r hr
      cases h
      simp only [startedAfter, ht]
      exact (alvar_get_camera_params_keeps _ _ _ _ _ _ _ r hr).2.2.2.symm
  case add_marker_detector =>
    cases h
    simp only [startedAfter, ht]
    rfl
  case set_marker_size =>
    split at h
    · cases h
    · rename_i r hr
      cases h
      simp only [startedAfter, ht]
      exact (alvar_set_marker_size_keeps _ _ _ _ r hr).2.2.2.symm
  case add_multi_marker =>
    cases h
    simp only [startedAfter, ht]
    rfl
  case detect_marker =>
    split at h
    · cases h
    · rename_i r hr
      cases h
      simp only [startedAfter, ht]
      exact (alvar_detect_marker_keeps _ _ _ _ _ _ _ _ _ _ _ _ r hr).2.2.2.symm
  case get_poses =>
    split at h
    · cases h
    · rename_i r hr
      cases h
      simp only [startedAfter, ht]
      exact (alvar_get_poses_keeps _ _ _ _ r hr).2.2.2.symm
  case get_multi_marker_poses =>
    split at h
    · cases h
    · rename_i r hr
      cases h
      simp only [startedAfter, ht]
      exact (alvar_get_multi_marker_poses_keeps _ _ _ _ _ _ _ r hr).2.2.2.symm
  case calibrate_camera =>
    split at h
    · cases h
    · rename_i r hr
      cases h
      have hf := alvar_calibrate_camera_flag _ _ _ _ _ _ _ _ _ r hr
      cases hr1 : r.1 <;> simp [startedAfter, ht, hf, hr1]
  case finalize_calibration =>
    split at h
    · cases h
    · rename_i r hr
      cases h
      have hf := alvar_finalize_calibration_flag _ _ _ r hr
      cases hr1 : r.1 <;> simp [startedAfter, ht, hf, hr1]

/-- After any sequence of calls the flag `calibration_started` is what `startedAfter`
reads off the history of calls. -/
theorem runOps_started {L : Alvar} (ops : List (AlvarOp L)) (s s2 : AState L)
    (hist : List (AlvarOp L × AlvarRet)) (h : runOps s ops = .ok (hist, s2))
    (t : List (AlvarOp L × AlvarRet)) (ht : startedAfter t = s.calibration_started) :
    startedAfter (hist.reverse ++ t) = s2.calibration_started := by
  induction ops generalizing s hist t with
  | nil =>
    simp only [runOps] at h
    cases h
    simpa using ht
  | cons op rest ih =>
    obtain ⟨ret, s1, hist1, h1, h2, rfl⟩ := runOps_cons_ok s s2 op rest hist h
    have := ih s1 hist1 h2 ((op, ret) :: t) (exec_started op s s1 ret h1 t ht)
    simpa using this

/-! ## C6: `alvar_finalize_calibration` -/

/-- C6: `alvar_finalize_calibration` returns false and leaves all globals as they are (the
cameras, the collected points `pp` and the flag `calibration_started` among them) whenever
`camID` is out of range or calibration has not been started.  Calibration not being started
is the flag being false, and after any sequence of calls from the start of the program the
flag is false exactly when no `alvar_calibrate_camera` call returned true since the latest
`alvar_init` or `alvar_finalize_calibration` call that returned true (`startedAfter`), so
in that case the function fails as well.  Whenever the function returns true the flag is
false afterwards.  The camera registry is taken to hold fewer than 2^31 entries. -/
theorem finalize_calibration_failure {L : Alvar} (s : AState L) (camID : Int)
    (calibrationFilename : String) (hcam : isInt camID)
    (hcams : s.cams.length < 2147483648) :
    ((¬ (0 ≤ camID ∧ camID < (s.cams.length : Int)) ∨ s.calibration_started = false) →
      alvar_finalize_calibration s camID calibrationFilename = .ok (false, s)) ∧
    (∀ ops hist, runOps (AState.start L) ops = .ok (hist, s) →
      s.calibration_started = startedAfter hist.reverse) ∧
    (∀ ops hist, runOps (AState.start L) ops = .ok (hist, s) →
      startedAfter hist.reverse = false →
      alvar_finalize_calibration s camID calibrationFilename = .ok (false, s)) ∧
    (∀ s2, alvar_finalize_calibration s camID calibrationFilename = .ok (true, s2) →
      s2.calibration_started = false) := by
  have hflag : ∀ ops hist, runOps (AState.start L) ops = .ok (hist, s) →
      s.calibration_started = startedAfter hist.reverse := by
    intro ops hist hrun
    have := runOps_started ops (AState.start L) s hist hrun [] rfl
    simpa using this.symm
  have hfail : s.calibration_started = false →
      alvar_finalize_calibration s camID calibrationFilename = .ok (false, s) := by
    intro hs
    simp [alvar_finalize_calibration, hs]
  refine ⟨?_, hflag, ?_, ?_⟩
  · rintro (h | h)
    · simp [alvar_finalize_calibration, geSize_of_out_of_range _ _ hcam hcams h]
    · exact hfail h
  · intro ops hist hrun hno
    exact hfail ((hflag ops hist hrun).trans hno)
  · intro s2 h
    have := alvar_finalize_calibration_flag s camID calibrationFilename (true, s2) h
    simpa using this

/-- C6, evaluated: in the toy scene nothing was calibrated yet, and
`alvar_finalize_calibration` on camera 0 returns false without changing anything. -/
theorem finalize_calibration_failure_witness :
    alvar_finalize_calibration toyScene 0 "out.xml" = .ok (false, toyScene) :=
  (finalize_calibration_failure toyScene 0 "out.xml" (by decide) (by decide)).1
    (Or.inr rfl)

/-! ## C7: `alvar_calibrate_camera` -/

/-- C7: with `camID` out of range `alvar_calibrate_camera` returns false and leaves all
globals as they are (the image header, the collected points `pp` and the flag
`calibration_started` among them).  With `camID` in range it returns exactly what
`AddPointsUsingChessboard` returns for the collected points, the header of the frame (built
from `cams[camID]` and the arguments), the etalon arguments and `false`; the flag is true
afterwards when that result is true, and a flag that was true stays true.  The camera
registry is taken to hold fewer than 2^31 entries. -/
theorem calibrate_camera_contract {L : Alvar} (s : AState L) (camID nChannels : Int)
    (colorModel channelSeq : Buf Nat) (imageData : Ptr) (etalon_square_size : L.Double)
    (etalon_rows etalon_columns : Int) (hcam : isInt camID)
    (hcams : s.cams.length < 2147483648) :
    (¬ (0 ≤ camID ∧ camID < (s.cams.length : Int)) →
      alvar_calibrate_camera s camID nChannels colorModel channelSeq imageData
        etalon_square_size etalon_rows etalon_columns = .ok (false, s)) ∧
    ((0 ≤ camID ∧ camID < (s.cams.length : Int)) →
      ∃ c s2, vecAt s.cams camID .cams_index = .ok c ∧
        alvar_calibrate_camera s camID nChannels colorModel channelSeq imageData
          etalon_square_size etalon_rows etalon_columns =
        .ok ((L.AddPointsUsingChessboard s.pp
                (fillImageHeader c nChannels colorModel channelSeq imageData)
                etalon_square_size etalon_rows etalon_columns false).1, s2)) ∧
    (∀ r, alvar_calibrate_camera s camID nChannels colorModel channelSeq imageData
        etalon_square_size etalon_rows etalon_columns = .ok r →
      (r.1 = true → r.2.calibration_started = true) ∧
      (s.calibration_started = true → r.2.calibration_started = true)) := by
  refine ⟨?_, ?_, ?_⟩
  · intro h
    simp [alvar_calibrate_camera, geSize_of_out_of_range _ _ hcam hcams h]
  · intro h
    have hg := (geSize_eq_false_iff camID s.cams.length hcam (by omega)).2 h
    obtain ⟨c, hc, h2⟩ := alvar_calibrate_camera_checked s camID nChannels colorModel
      channelSeq imageData etalon_square_size etalon_rows etalon_columns hg
    exact ⟨c, _, hc, h2⟩
  · intro r hr
    have hf := alvar_calibrate_camera_flag s camID nChannels colorModel channelSeq imageData
      etalon_square_size etalon_rows etalon_columns r hr
    constructor
    · intro h1
      simp [hf, h1]
    · intro h1
      simp [hf, h1]

/-- C7, evaluated: in the toy scene `alvar_calibrate_camera` with `camID = 4` returns
false and changes nothing. -/
theorem calibrate_camera_contract_witness :
    alvar_calibrate_camera toyScene 4 3 (fun _ => 0) (fun _ => 0) 1 25 6 8
      = .ok (false, toyScene) :=
  (calibrate_camera_contract toyScene 4 3 (fun _ => 0) (fun _ => 0) 1 25 6 8 (by decide)
    (by decide)).1 (by decide)

/-! ## C8: the world lock around mutations -/

/-- The functions next to `remove_rigid_body` take the lock around their mutations: the
calls that `add_rigid_body`, `add_contact_listener`, `apply_hard_keyframe`,
`apply_soft_keyframe` and `add_world_leave_callback` add to the log keep the lock
discipline, with one `lock` and one `unlock`. -/
theorem siblings_take_lock {F σ : Type} (L : Havok F σ) (s : HState F σ) :
    (∀ shape mass motionType collideQuality pos rot linearVelocity linearDamping
        maxLinearVelocity angularVelocity angularDamping maxAngularVelocity friction
        restitution allowedPenetrationDepth neverDeactivate gravityFactor,
      ∃ tr, (add_rigid_body L s shape mass motionType collideQuality pos rot linearVelocity
          linearDamping maxLinearVelocity angularVelocity angularDamping maxAngularVelocity
          friction restitution allowedPenetrationDepth neverDeactivate gravityFactor).2.calls
          = s.calls ++ tr ∧ lockedAround tr = true) ∧
    (∀ body cc cs ce, ∃ tr, (add_contact_listener L s body cc cs ce).calls = s.calls ++ tr ∧
      lockedAround tr = true) ∧
    (∀ body position rotation timeStep,
      ∃ tr, (apply_hard_keyframe L s body position rotation timeStep).calls = s.calls ++ tr ∧
        lockedAround tr = true) ∧
    (∀ body position rotation apf avf lpf lvf maa mla mad timeStep,
      ∃ tr, (apply_soft_keyframe L s body position rotation apf avf lpf lvf maa mla mad
          timeStep).calls = s.calls ++ tr ∧ lockedAround tr = true) ∧
    (∀ callback, ∃ tr, (add_world_leave_callback L s callback).calls = s.calls ++ tr ∧
      lockedAround tr = true) := by
  refine ⟨?_, ?_, ?_, ?_, ?_⟩
  · intro shape mass motionType collideQuality pos rot linearVelocity linearDamping
      maxLinearVelocity angularVelocity angularDamping maxAngularVelocity friction
      restitution allowedPenetrationDepth neverDeactivate gravityFactor
    cases hm : (!(motionType == L.MOTION_FIXED || motionType == L.MOTION_KEYFRAMED))
    · refine ⟨List.drop s.calls.length (add_rigid_body L s shape mass motionType
        collideQuality pos rot linearVelocity linearDamping maxLinearVelocity angularVelocity
        angularDamping maxAngularVelocity friction restitution allowedPenetrationDepth
        neverDeactivate gravityFactor).2.calls, ?_, ?_⟩ <;>
      simp only [add_rigid_body, hm, Bool.false_eq_true, if_false, HState.call,
        List.append_assoc, List.drop_left] <;> rfl
    · refine ⟨List.drop s.calls.length (add_rigid_body L s shape mass motionType
        collideQuality pos rot linearVelocity linearDamping maxLinearVelocity angularVelocity
        angularDamping maxAngularVelocity friction restitution allowedPenetrationDepth
        neverDeactivate gravityFactor).2.calls, ?_, ?_⟩ <;>
      simp only [add_rigid_body, hm, if_true, HState.call, List.append_assoc,
        List.drop_left] <;> rfl
  · intro body cc cs ce
    refine ⟨List.drop s.calls.length (add_contact_listener L s body cc cs ce).calls,
      ?_, ?_⟩ <;>
    simp only [add_contact_listener, HState.call, List.append_assoc, List.drop_left] <;> rfl
  · intro body position rotation timeStep
    refine ⟨List.drop s.calls.length
      (apply_hard_keyframe L s body position rotation timeStep).calls, ?_, ?_⟩ <;>
    simp only [apply_hard_keyframe, HState.call, List.append_assoc, List.drop_left] <;> rfl
  · intro body position rotation apf avf lpf lvf maa mla mad timeStep
    refine ⟨List.drop s.calls.length (apply_soft_keyframe L s body position rotation apf avf
      lpf lvf maa mla mad timeStep).calls, ?_, ?_⟩ <;>
    simp only [apply_soft_keyframe, HState.call, List.append_assoc, List.drop_left] <;> rfl
  · intro callback
    refine ⟨List.drop s.calls.length (add_world_leave_callback L s callback).calls,
      ?_, ?_⟩ <;>
    simp only [add_world_leave_callback, HState.call, List.append_assoc, List.drop_left] <;>
      rfl

/-- C8, at `remove_rigid_body`: the only call the function makes is
`world->removeEntity(body)`; it makes no `world->lock()` and no `world->unlock()`, so the
removal, a mutation of the world, is issued while the lock is not held and the lock
discipline that the functions next to it keep is broken. -/
theorem remove_rigid_body_not_locked {F σ : Type} (L : Havok F σ) (s : HState F σ)
    (body : Ptr) :
    (remove_rigid_body L s body).calls = s.calls ++ [HkCall.world_removeEntity s.world body] ∧
    ([HkCall.world_removeEntity s.world body] : List (HkCall F)).countP HkCall.isLock = 0 ∧
    ([HkCall.world_removeEntity s.world body] : List (HkCall F)).countP HkCall.isUnlock = 0 ∧
    lockDiscipline false ([HkCall.world_removeEntity s.world body] : List (HkCall F)) = false ∧
    lockedAround ([HkCall.world_removeEntity s.world body] : List (HkCall F)) = false :=
  ⟨rfl, rfl, rfl, rfl, rfl⟩

/-! ## C9: what the physics wrapper hands to the library -/

theorem bodyInfoCommon_fields {F σ : Type} (L : Havok F σ) (shape : Ptr)
    (motionType collideQuality : Int) (pos rot : Buf F)
    (friction restitution allowedPenetrationDepth gravityFactor : F) :
    ∀ b, b = bodyInfoCommon L shape motionType collideQuality pos rot friction restitution
      allowedPenetrationDepth gravityFactor →
    b.m_shape = shape ∧ b.m_motionType = motionType ∧
    b.m_position = ⟨pos 0, pos 1, pos 2⟩ ∧ b.m_rotation = ⟨rot 0, rot 1, rot 2, rot 3⟩ ∧
    b.m_gravityFactor = gravityFactor ∧
    b.m_friction = (if L.fl.ge friction (L.fl.lit 0) then friction
      else L.defaultCinfo.m_friction) ∧
    b.m_restitution = (if L.fl.ge restitution (L.fl.lit 0) then restitution
      else L.defaultCinfo.m_restitution) ∧
    b.m_allowedPenetrationDepth = (if L.fl.ge allowedPenetrationDepth (L.fl.lit 0) then
      allowedPenetrationDepth else L.defaultCinfo.m_allowedPenetrationDepth) ∧
    b.m_qualityType = (if collideQuality ≥ 0 then collideQuality
      else L.defaultCinfo.m_qualityType) ∧
    b.m_linearVelocity = L.defaultCinfo.m_linearVelocity ∧
    b.m_angularVelocity = L.defaultCinfo.m_angularVelocity ∧
    b.m_linearDamping = L.defaultCinfo.m_linearDamping ∧
    b.m_angularDamping = L.defaultCinfo.m_angularDamping ∧
    b.m_maxLinearVelocity = L.defaultCinfo.m_maxLinearVelocity ∧
    b.m_maxAngularVelocity = L.defaultCinfo.m_maxAngularVelocity ∧
    b.m_enableDeactivation = L.defaultCinfo.m_enableDeactivation ∧
    b.m_mass = L.defaultCinfo.m_mass := by
  intro b hb
  subst hb
  refine ⟨?_, ?_, ?_, ?_, ?_, ?_, ?_, ?_, ?_, ?_, ?_, ?_, ?_, ?_, ?_, ?_, ?_⟩ <;>
    simp only [bodyInfoCommon, apply_ite hkpRigidBodyCinfo.m_shape,
      apply_ite hkpRigidBodyCinfo.m_motionType, apply_ite hkpRigidBodyCinfo.m_position,
      apply_ite hkpRigidBodyCinfo.m_rotation, apply_ite hkpRigidBodyCinfo.m_gravityFactor,
      apply_ite hkpRigidBodyCinfo.m_friction, apply_ite hkpRigidBodyCinfo.m_restitution,
      apply_ite hkpRigidBodyCinfo.m_allowedPenetrationDepth,
      apply_ite hkpRigidBodyCinfo.m_qualityType, apply_ite hkpRigidBodyCinfo.m_linearVelocity,
      apply_ite hkpRigidBodyCinfo.m_angularVelocity,
      apply_ite hkpRigidBodyCinfo.m_linearDamping, apply_ite hkpRigidBodyCinfo.m_angularDamping,
      apply_ite hkpRigidBodyCinfo.m_maxLinearVelocity,
      apply_ite hkpRigidBodyCinfo.m_maxAngularVelocity,
      apply_ite hkpRigidBodyCinfo.m_enableDeactivation, apply_ite hkpRigidBodyCinfo.m_mass,
      ite_self]

theorem bodyInfoDynamic_fields {F : Type} (fl : FloatOps F) (b : hkpRigidBodyCinfo F)
    (massProperties : hkpMassProperties F) (linearVelocity : Buf F)
    (linearDamping maxLinearVelocity : F) (angularVelocity : Buf F)
    (angularDamping maxAngularVelocity : F) (neverDeactivate : Bool) :
    ∀ d, d = bodyInfoDynamic fl b massProperties linearVelocity linearDamping
      maxLinearVelocity angularVelocity angularDamping maxAngularVelocity neverDeactivate →
    d.m_shape = b.m_shape ∧ d.m_motionType = b.m_motionType ∧
    d.m_position = b.m_position ∧ d.m_rotation = b.m_rotation ∧
    d.m_gravityFactor = b.m_gravityFactor ∧ d.m_friction = b.m_friction ∧
    d.m_restitution = b.m_restitution ∧
    d.m_allowedPenetrationDepth = b.m_allowedPenetrationDepth ∧
    d.m_qualityType = b.m_qualityType ∧
    d.m_linearVelocity = (if !allZero fl linearVelocity 3 then
      ⟨linearVelocity 0, linearVelocity 1, linearVelocity 2⟩ else b.m_linearVelocity) ∧
    d.m_angularVelocity = (if !allZero fl angularVelocity 3 then
      ⟨angularVelocity 0, angularVelocity 1, angularVelocity 2⟩ else b.m_angularVelocity) ∧
    d.m_linearDamping = (if fl.ge linearDamping (fl.lit 0) then linearDamping
      else b.m_linearDamping) ∧
    d.m_angularDamping = (if fl.ge angularDamping (fl.lit 0) then angularDamping
      else b.m_angularDamping) ∧
    d.m_maxLinearVelocity = (if fl.ge maxLinearVelocity (fl.lit 0) then maxLinearVelocity
      else b.m_maxLinearVelocity) ∧
    d.m_maxAngularVelocity = (if fl.ge maxAngularVelocity (fl.lit 0) then maxAngularVelocity
      else b.m_maxAngularVelocity) ∧
    d.m_enableDeactivation = (!neverDeactivate) ∧
    d.m_mass = massProperties.m_mass := by
  intro d hd
  subst hd
  refine ⟨?_, ?_, ?_, ?_, ?_, ?_, ?_, ?_, ?_, ?_, ?_, ?_, ?_, ?_, ?_, ?_, ?_⟩ <;>
    simp only [bodyInfoDynamic, apply_ite hkpRigidBodyCinfo.m_shape,
      apply_ite hkpRigidBodyCinfo.m_motionType, apply_ite hkpRigidBodyCinfo.m_position,
      apply_ite hkpRigidBodyCinfo.m_rotation, apply_ite hkpRigidBodyCinfo.m_gravityFactor,
      apply_ite hkpRigidBodyCinfo.m_friction, apply_ite hkpRigidBodyCinfo.m_restitution,
      apply_ite hkpRigidBodyCinfo.m_allowedPenetrationDepth,
      apply_ite hkpRigidBodyCinfo.m_qualityType, apply_ite hkpRigidBodyCinfo.m_linearVelocity,
      apply_ite hkpRigidBodyCinfo.m_angularVelocity,
      apply_ite hkpRigidBodyCinfo.m_linearDamping, apply_ite hkpRigidBodyCinfo.m_angularDamping,
      apply_ite hkpRigidBodyCinfo.m_maxLinearVelocity,
      apply_ite hkpRigidBodyCinfo.m_maxAngularVelocity,
      apply_ite hkpRigidBodyCinfo.m_enableDeactivation, apply_ite hkpRigidBodyCinfo.m_mass,
      ite_self]

/-- C9 as stated fails: `create_box_shape` called with `dim = (2, 2, 2)` hands the box
shape constructor the extents `(1, 1, 1)`, not `dim`, and `apply_hard_keyframe` called
with `timeStep = 2` hands the hard-keyframe utility the time value `1/2`, not `timeStep`
(toy library, exact arithmetic). -/
theorem create_box_shape_does_not_forward_dim :
    (create_box_shape toyHavok toyWorld (fun _ => 2) 0).2.calls
      = [HkCall.hkpBoxShape_new ⟨1, 1, 1⟩ 0] ∧
    (create_box_shape toyHavok toyWorld (fun _ => 2) 0).2.calls
      ≠ [HkCall.hkpBoxShape_new ⟨2, 2, 2⟩ 0] ∧
    (apply_hard_keyframe toyHavok toyWorld 7 (fun _ => 0) (fun _ => 0) 2).calls
      = [HkCall.world_lock 1,
         HkCall.hkpKeyFrameUtility_applyHardKeyFrame ⟨0, 0, 0⟩ ⟨0, 0, 0, 0⟩ (1 / 2) 7,
         HkCall.world_unlock 1] ∧
    (apply_hard_keyframe toyHavok toyWorld 7 (fun _ => 0) (fun _ => 0) 2).calls
      ≠ [HkCall.world_lock 1,
         HkCall.hkpKeyFrameUtility_applyHardKeyFrame ⟨0, 0, 0⟩ ⟨0, 0, 0, 0⟩ 2 7,
         HkCall.world_unlock 1] := by
  refine ⟨?_, ?_, ?_, ?_⟩
  · simp [create_box_shape, HState.call, toyHavok, toyWorld, ratOps]
  · simp [create_box_shape, HState.call, toyHavok, toyWorld, ratOps]
  · simp [apply_hard_keyframe, HState.call, toyHavok, toyWorld, ratOps]
  · simp [apply_hard_keyframe, HState.call, toyHavok, toyWorld, ratOps]
    norm_num

/-- C9, amended: the physics wrapper hands its arguments to the library call after a fixed
marshaling.  `create_box_shape` gives the box shape constructor the half extents
`dim[i] / 2` and `convexRadius` as it is; `apply_hard_keyframe` gives the hard-keyframe
utility position, rotation and body as they are and the time value `1 / timeStep`;
`apply_soft_keyframe` hands on both `timeStep` and `1 / timeStep`.  In the body description
that `add_rigid_body` hands to the rigid body constructor, shape, motion type, position,
rotation and gravity factor are the arguments; friction, restitution, allowed penetration
depth and quality type are the argument when it is `>= 0` and the default of the library
otherwise; for a motion type other than `MOTION_FIXED` and `MOTION_KEYFRAMED` the linear
and angular damping and maximal velocities are the argument when it is `>= 0` and the
default otherwise, the linear and angular velocity are the argument when one of its
components is not zero and the default otherwise, `m_enableDeactivation` is
`!neverDeactivate` and the mass is the one the library computed from `shape` and `mass`;
for `MOTION_FIXED` and `MOTION_KEYFRAMED` these fields keep the defaults.  The shape
constructors for sphere, triangle, capsule and cylinder, `add_force`, `add_torque`,
`set_linear_velocity`, `set_angular_velocity`, `remove_rigid_body` and `update` hand on
their arguments as they are. -/
theorem arguments_after_marshaling {F σ : Type} (L : Havok F σ) (s : HState F σ) :
    (∀ dim convexRadius, (create_box_shape L s dim convexRadius).2.calls = s.calls ++
      [HkCall.hkpBoxShape_new ⟨L.fl.div (dim 0) (L.fl.lit 2), L.fl.div (dim 1) (L.fl.lit 2),
        L.fl.div (dim 2) (L.fl.lit 2)⟩ convexRadius]) ∧
    (∀ body position rotation timeStep,
      (apply_hard_keyframe L s body position rotation timeStep).calls = s.calls ++
        [HkCall.world_lock s.world,
         HkCall.hkpKeyFrameUtility_applyHardKeyFrame ⟨position 0, position 1, position 2⟩
           ⟨rotation 0, rotation 1, rotation 2, rotation 3⟩ (L.fl.div (L.fl.lit 1) timeStep)
           body,
         HkCall.world_unlock s.world]) ∧
    (∀ body position rotation apf avf lpf lvf maa mla mad timeStep,
      (apply_soft_keyframe L s body position rotation apf avf lpf lvf maa mla mad
        timeStep).calls = s.calls ++
        [HkCall.world_lock s.world,
         HkCall.hkpKeyFrameUtility_applySoftKeyFrame
           ⟨⟨position 0, position 1, position 2⟩,
            ⟨rotation 0, rotation 1, rotation 2, rotation 3⟩, L.defaultVec, L.defaultVec⟩
           ⟨⟨apf 0, apf 1, apf 2⟩, ⟨avf 0, avf 1, avf 2⟩, ⟨lpf 0, lpf 1, lpf 2⟩,
            ⟨lvf 0, lvf 1, lvf 2⟩, maa, mla, mad⟩
           timeStep (L.fl.div (L.fl.lit 1) timeStep) body,
         HkCall.world_unlock s.world]) ∧
    (∀ shape mass motionType collideQuality pos rot linearVelocity linearDamping
        maxLinearVelocity angularVelocity angularDamping maxAngularVelocity friction
        restitution allowedPenetrationDepth neverDeactivate gravityFactor,
      ∃ info, HkCall.hkpRigidBody_new info ∈
          (add_rigid_body L s shape mass motionType collideQuality pos rot linearVelocity
            linearDamping maxLinearVelocity angularVelocity angularDamping maxAngularVelocity
            friction restitution allowedPenetrationDepth neverDeactivate gravityFactor).2.calls ∧
        (info.m_shape = shape ∧ info.m_motionType = motionType ∧
          info.m_position = ⟨pos 0, pos 1, pos 2⟩ ∧
          info.m_rotation = ⟨rot 0, rot 1, rot 2, rot 3⟩ ∧
          info.m_gravityFactor = gravityFactor) ∧
        (info.m_friction = (if L.fl.ge friction (L.fl.lit 0) then friction
            else L.defaultCinfo.m_friction) ∧
          info.m_restitution = (if L.fl.ge restitution (L.fl.lit 0) then restitution
            else L.defaultCinfo.m_restitution) ∧
          info.m_allowedPenetrationDepth = (if L.fl.ge allowedPenetrationDepth (L.fl.lit 0)
            then allowedPenetrationDepth else L.defaultCinfo.m_allowedPenetrationDepth) ∧
          info.m_qualityType = (if collideQuality ≥ 0 then collideQuality
            else L.defaultCinfo.m_qualityType)) ∧
        ((!(motionType == L.MOTION_FIXED || motionType == L.MOTION_KEYFRAMED)) = true →
          info.m_linearVelocity = (if !allZero L.fl linearVelocity 3 then
            ⟨linearVelocity 0, linearVelocity 1, linearVelocity 2⟩
            else L.defaultCinfo.m_linearVelocity) ∧
          info.m_angularVelocity = (if !allZero L.fl angularVelocity 3 then
            ⟨angularVelocity 0, angularVelocity 1, angularVelocity 2⟩
            else L.defaultCinfo.m_angularVelocity) ∧
          info.m_linearDamping = (if L.fl.ge linearDamping (L.fl.lit 0) then linearDamping
            else L.defaultCinfo.m_linearDamping) ∧
          info.m_angularDamping = (if L.fl.ge angularDamping (L.fl.lit 0) then angularDamping
            else L.defaultCinfo.m_angularDamping) ∧
          info.m_maxLinearVelocity = (if L.fl.ge maxLinearVelocity (L.fl.lit 0) then
            maxLinearVelocity else L.defaultCinfo.m_maxLinearVelocity) ∧
          info.m_maxAngularVelocity = (if L.fl.ge maxAngularVelocity (L.fl.lit 0) then
            maxAngularVelocity else L.defaultCinfo.m_maxAngularVelocity) ∧
          info.m_enableDeactivation = (!neverDeactivate) ∧
          ∃ lib, info.m_mass = (L.retMass
            (.hkpInertiaTensorComputer_computeShapeVolumeMassProperties shape mass) lib).m_mass) ∧
        ((!(motionType == L.MOTION_FIXED || motionType == L.MOTION_KEYFRAMED)) = false →
          info.m_linearVelocity = L.defaultCinfo.m_linearVelocity ∧
          info.m_angularVelocity = L.defaultCinfo.m_angularVelocity ∧
          info.m_linearDamping = L.defaultCinfo.m_linearDamping ∧
          info.m_angularDamping = L.defaultCinfo.m_angularDamping ∧
          info.m_maxLinearVelocity = L.defaultCinfo.m_maxLinearVelocity ∧
          info.m_maxAngularVelocity = L.defaultCinfo.m_maxAngularVelocity ∧
          info.m_enableDeactivation = L.defaultCinfo.m_enableDeactivation ∧
          info.m_mass = L.defaultCinfo.m_mass)) ∧
    (∀ radius, (create_sphere_shape L s radius).2.calls
      = s.calls ++ [HkCall.hkpSphereShape_new radius]) ∧
    (∀ v0 v1 v2 convexRadius, (create_triangle_shape L s v0 v1 v2 convexRadius).2.calls
      = s.calls ++ [HkCall.hkpTriangleShape_new ⟨v0 0, v0 1, v0 2⟩ ⟨v1 0, v1 1, v1 2⟩
          ⟨v2 0, v2 1, v2 2⟩ convexRadius]) ∧
    (∀ top bottom radius, (create_capsule_shape L s top bottom radius).2.calls
      = s.calls ++ [HkCall.hkpCapsuleShape_new ⟨top 0, top 1, top 2⟩
          ⟨bottom 0, bottom 1, bottom 2⟩ radius]) ∧
    (∀ top bottom radius convexRadius,
      (create_cylinder_shape L s top bottom radius convexRadius).2.calls
      = s.calls ++ [HkCall.hkpCylinderShape_new ⟨top 0, top 1, top 2⟩
          ⟨bottom 0, bottom 1, bottom 2⟩ radius convexRadius]) ∧
    (∀ body timeStep force, (add_force L s body timeStep force).calls
      = s.calls ++ [HkCall.body_applyForce body timeStep ⟨force 0, force 1, force 2⟩]) ∧
    (∀ body timeStep torque, (add_torque L s body timeStep torque).calls
      = s.calls ++ [HkCall.body_applyTorque body timeStep ⟨torque 0, torque 1, torque 2⟩]) ∧
    (∀ body vel, (set_linear_velocity L s body vel).calls
      = s.calls ++ [HkCall.body_setLinearVelocity body ⟨vel 0, vel 1, vel 2⟩]) ∧
    (∀ body vel, (set_angular_velocity L s body vel).calls
      = s.calls ++ [HkCall.body_setAngularVelocity body ⟨vel 0, vel 1, vel 2⟩]) ∧
    (∀ body, (remove_rigid_body L s body).calls
      = s.calls ++ [HkCall.world_removeEntity s.world body]) ∧
    (∀ elapsedSeconds, (update L s elapsedSeconds).calls
      = s.calls ++ [HkCall.hkCheckDeterminismUtil_workerThreadStartFrame true,
          HkCall.world_stepDeltaTime s.world elapsedSeconds,
          HkCall.hkCheckDeterminismUtil_workerThreadFinishFrame]) := by
  refine ⟨fun _ _ => rfl, ?_, ?_, ?_, fun _ => rfl, fun _ _ _ _ => rfl, fun _ _ _ => rfl,
    fun _ _ _ _ => rfl, fun _ _ _ => rfl, fun _ _ _ => rfl, fun _ _ => rfl, fun _ _ => rfl,
    fun _ => rfl, ?_⟩
  · intro body position rotation timeStep
    simp [apply_hard_keyframe, HState.call]
  · intro body position rotation apf avf lpf lvf maa mla mad timeStep
    simp [apply_soft_keyframe, HState.call]
  · intro shape mass motionType collideQuality pos rot linearVelocity linearDamping
      maxLinearVelocity angularVelocity angularDamping maxAngularVelocity friction
      restitution allowedPenetrationDepth neverDeactivate gravityFactor
    obtain ⟨c1, c2, c3, c4, c5, c6, c7, c8, c9, c10, c11, c12, c13, c14, c15, c16, c17⟩ :=
      bodyInfoCommon_fields L shape motionType collideQuality pos rot friction restitution
        allowedPenetrationDepth gravityFactor _ rfl
    cases hm : (!(motionType == L.MOTION_FIXED || motionType == L.MOTION_KEYFRAMED))
    · refine ⟨bodyInfoCommon L shape motionType collideQuality pos rot friction restitution
        allowedPenetrationDepth gravityFactor, ?_, ⟨c1, c2, c3, c4, c5⟩, ⟨c6, c7, c8, c9⟩,
        fun h => Bool.noConfusion h, fun _ => ⟨c10, c11, c12, c13, c14, c15, c16, c17⟩⟩
      simp [add_rigid_body, hm, HState.call]
    · obtain ⟨d1, d2, d3, d4, d5, d6, d7, d8, d9, d10, d11, d12, d13, d14, d15, d16, d17⟩ :=
        bodyInfoDynamic_fields L.fl (bodyInfoCommon L shape motionType collideQuality pos rot
          friction restitution allowedPenetrationDepth gravityFactor)
          (L.retMass (.hkpInertiaTensorComputer_computeShapeVolumeMassProperties shape mass)
            (L.effect .hkpRigidBodyCinfo_new (L.effect (.world_lock s.world) s.lib)))
          linearVelocity linearDamping maxLinearVelocity angularVelocity angularDamping
          maxAngularVelocity neverDeactivate _ rfl
      refine ⟨_, ?_, ⟨d1.trans c1, d2.trans c2, d3.trans c3, d4.trans c4, d5.trans c5⟩,
        ⟨d6.trans c6, d7.trans c7, d8.trans c8, d9.trans c9⟩,
        fun _ => ⟨by rw [d10, c10], by rw [d11, c11], by rw [d12, c12], by rw [d13, c13],
          by rw [d14, c14], by rw [d15, c15], d16, _, d17⟩, fun h => Bool.noConfusion h⟩
      simp [add_rigid_body, hm, HState.call]
  · intro elapsedSeconds
    simp [update, HState.call]

/-! ## C10: the callback adapters -/

/-- C10: each callback adapter forwards the library event to the function pointer the
caller supplied, once, and does nothing else.  `ContactListener` calls `callback` with
body 0, body 1 and the separating velocity of a contact point event, and `startCallback`
and `endCallback` with body 0 and body 1 of a collision-added and a collision-removed
event; `PhantomCallback` calls `enterEvent` and `leaveEvent` with the rigid body that owns
`collidableB`; each of these makes exactly this one call when the pointer is not `NULL` and
no call when it is `NULL`.  `BroadphaseBorder` calls `callback` with the entity that left
the broad phase, exactly once, whatever the pointer is. -/
theorem callback_adapters_forward {F σ : Type} (L : Havok F σ) (listener : ContactListener)
    (phantom : PhantomCallback) (border : BroadphaseBorder) (evt : hkpContactPointEvent F)
    (cevt : hkpCollisionEvent) (collidableA collidableB env entity : Ptr) :
    (listener.callback ≠ 0 → listener.contactPointCallback evt =
      [Invoke.contact listener.callback (evt.getBody 0) (evt.getBody 1)
        evt.getSeparatingVelocity]) ∧
    (listener.callback = 0 → listener.contactPointCallback evt = []) ∧
    (listener.startCallback ≠ 0 → (listener.collisionAddedCallback cevt : List (Invoke F)) =
      [Invoke.pair listener.startCallback (cevt.getBody 0) (cevt.getBody 1)]) ∧
    (listener.startCallback = 0 →
      (listener.collisionAddedCallback cevt : List (Invoke F)) = []) ∧
    (listener.endCallback ≠ 0 → (listener.collisionRemovedCallback cevt : List (Invoke F)) =
      [Invoke.pair listener.endCallback (cevt.getBody 0) (cevt.getBody 1)]) ∧
    (listener.endCallback = 0 →
      (listener.collisionRemovedCallback cevt : List (Invoke F)) = []) ∧
    (phantom.enterEvent ≠ 0 → phantom.phantomEnterEvent L collidableA collidableB env =
      [Invoke.single phantom.enterEvent (L.hkpGetRigidBody collidableB)]) ∧
    (phantom.enterEvent = 0 → phantom.phantomEnterEvent L collidableA collidableB env = []) ∧
    (phantom.leaveEvent ≠ 0 → phantom.phantomLeaveEvent L collidableA collidableB =
      [Invoke.single phantom.leaveEvent (L.hkpGetRigidBody collidableB)]) ∧
    (phantom.leaveEvent = 0 → phantom.phantomLeaveEvent L collidableA collidableB = []) ∧
    (border.maxPositionExceededCallback entity : List (Invoke F)) =
      [Invoke.single border.callback entity] := by
  refine ⟨?_, ?_, ?_, ?_, ?_, ?_, ?_, ?_, ?_, ?_, rfl⟩ <;> intro h
  · simp [ContactListener.contactPointCallback, h]
  · simp [ContactListener.contactPointCallback, h]
  · simp [ContactListener.collisionAddedCallback, h]
  · simp [ContactListener.collisionAddedCallback, h]
  · simp [ContactListener.collisionRemovedCallback, h]
  · simp [ContactListener.collisionRemovedCallback, h]
  · simp [PhantomCallback.phantomEnterEvent, h]
  · simp [PhantomCallback.phantomEnterEvent, h]
  · simp [PhantomCallback.phantomLeaveEvent, h]
  · simp [PhantomCallback.phantomLeaveEvent, h]

/-! ## C14: `get_updated_transforms` -/

theorem countStep_foldl {F σ : Type} (L : Havok F σ) (islands : List Ptr)
    (st : HState F σ × Int) :
    (islands.foldl (countStep L) st).1.lib = st.1.lib ∧
    (islands.foldl (countStep L) st).2
      = st.2 + ((entitiesOf L st.1.lib islands).length : Int) ∧
    (islands.foldl (countStep L) st).2
      = st.2 + ((islands.map (fun i => ((L.retPtrs (.island_getEntities i) st.1.lib).length
          : Int))).sum) := by
  induction islands generalizing st with
  | nil => simp [entitiesOf]
  | cons i t ih =>
    obtain ⟨h1, h2, h3⟩ := ih (countStep L st i)
    have hl : (countStep L st i).1.lib = st.1.lib := rfl
    rw [hl] at h1 h2 h3
    refine ⟨h1, ?_, ?_⟩
    · rw [List.foldl_cons, h2]
      simp only [countStep, entitiesOf, List.map_cons, List.flatten_cons, List.length_append]
      push_cast
      omega
    · rw [List.foldl_cons, h3]
      simp only [countStep, List.map_cons, List.sum_cons]
      omega

theorem entityStep_inv {F σ : Type} (L : Havok F σ) (lib : σ) (bodyPtr : Buf Int)
    (transformPtr : Buf F) (st : TransformLoop F σ) (done : List Ptr) (e : Ptr)
    (h : TransformInv L lib bodyPtr transformPtr st done) :
    TransformInv L lib bodyPtr transformPtr (entityStep L st e) (done ++ [e]) := by
  obtain ⟨hlib, hcount, hwr, hin, hb, ht⟩ := h
  refine ⟨hlib, ?_, ?_, ?_, ?_, ?_⟩
  · simp [entityStep, hcount]
  · simp [entityStep, hcount, hwr, List.range_succ]
  · intro k x hk
    by_cases hlt : k < done.length
    · rw [List.getElem?_append_left hlt] at hk
      obtain ⟨h1, h2⟩ := hin k x hk
      constructor
      · simp only [entityStep, Buf.write, hcount]
        rw [if_neg (by omega)]
        exact h1
      · intro j hj
        simp only [entityStep, Buf.memcpy, hcount]
        rw [if_neg (by omega)]
        exact h2 j hj
    · have hlen := (List.getElem?_eq_some_iff.1 hk).1
      simp only [List.length_append, List.length_singleton] at hlen
      have hk2 : k = done.length := by omega
      subst hk2
      simp at hk
      subst hk
      constructor
      · simp [entityStep, Buf.write, hcount]
      · intro j hj
        simp only [entityStep, Buf.memcpy, hcount, HState.query]
        rw [if_pos (by omega)]
        rw [← hlib]
        congr 1
        omega
  · intro k hk
    simp only [List.length_append, List.length_singleton] at hk
    simp only [entityStep, Buf.write, hcount]
    rw [if_neg (by omega)]
    exact hb k (by omega)
  · intro x hx
    simp only [List.length_append, List.length_singleton] at hx
    simp only [entityStep, Buf.memcpy, hcount]
    rw [if_neg (by omega)]
    exact ht x (by omega)

theorem entityStep_foldl_inv {F σ : Type} (L : Havok F σ) (lib : σ) (bodyPtr : Buf Int)
    (transformPtr : Buf F) (ents : List Ptr) (st : TransformLoop F σ) (done : List Ptr)
    (h : TransformInv L lib bodyPtr transformPtr st done) :
    TransformInv L lib bodyPtr transformPtr (ents.foldl (entityStep L) st) (done ++ ents) := by
  induction ents generalizing st done with
  | nil => simpa using h
  | cons e t ih =>
    have := ih (entityStep L st e) (done ++ [e]) (entityStep_inv L lib bodyPtr transformPtr st
      done e h)
    simpa using this

theorem islandStep_foldl_inv {F σ : Type} (L : Havok F σ) (lib : σ) (bodyPtr : Buf Int)
    (transformPtr : Buf F) (islands : List Ptr) (st : TransformLoop F σ) (done : List Ptr)
    (h : TransformInv L lib bodyPtr transformPtr st done) :
    TransformInv L lib bodyPtr transformPtr (islands.foldl (islandStep L) st)
      (done ++ entitiesOf L lib islands) := by
  induction islands generalizing st done with
  | nil => simpa [entitiesOf] using h
  | cons i t ih =>
    have h1 : TransformInv L lib bodyPtr transformPtr (islandStep L st i)
        (done ++ L.retPtrs (.island_getEntities i) lib) := by
      unfold islandStep
      rw [h.1]
      exact entityStep_foldl_inv L lib bodyPtr transformPtr _ _ done h
    have := ih (islandStep L st i) _ h1
    simpa [entitiesOf, List.append_assoc] using this

/-- C14: `get_updated_transforms` reports every entity of every active simulation island
exactly once.  With `lib` the state of the library when the islands are read, `islands` the
active islands and `entitiesOf L lib islands` their entities, island after island and in
the order of each island: `totalSize` is set to the sum of the islands' entity counts, which
is the number of these entities; the slots stored to are `0, 1, ..., totalSize - 1`, each
once and in this order, and the final value of `count` is `totalSize`; slot `k` of `bodyPtr`
holds the address of the `k`-th entity and the 16 floats at `transformPtr + 16 * k` hold its
transform; `bodyPtr` from slot `totalSize` on and `transformPtr` from `16 * totalSize` on
are as they were. -/
theorem get_updated_transforms_reports_each_entity {F σ : Type} (L : Havok F σ)
    (s : HState F σ) (bodyPtr : Buf Int) (transformPtr : Buf F) (totalSize : Int) :
    (get_updated_transforms L s bodyPtr transformPtr totalSize).2.2.2.1
      = (((L.retPtrs (.world_getActiveSimulationIslands s.world)
          (L.effect (.world_markForRead s.world) s.lib)).map
          (fun i => ((L.retPtrs (.island_getEntities i)
            (L.effect (.world_markForRead s.world) s.lib)).length : Int))).sum) ∧
    (get_updated_transforms L s bodyPtr transformPtr totalSize).2.2.2.1
      = ((entitiesOf L (L.effect (.world_markForRead s.world) s.lib)
          (L.retPtrs (.world_getActiveSimulationIslands s.world)
            (L.effect (.world_markForRead s.world) s.lib))).length : Int) ∧
    (get_updated_transforms L s bodyPtr transformPtr totalSize).2.2.2.2.1
      = (entitiesOf L (L.effect (.world_markForRead s.world) s.lib)
          (L.retPtrs (.world_getActiveSimulationIslands s.world)
            (L.effect (.world_markForRead s.world) s.lib))).length ∧
    (get_updated_transforms L s bodyPtr transformPtr totalSize).2.2.2.2.2
      = List.range (entitiesOf L (L.effect (.world_markForRead s.world) s.lib)
          (L.retPtrs (.world_getActiveSimulationIslands s.world)
            (L.effect (.world_markForRead s.world) s.lib))).length ∧
    (∀ (k : Nat) (e : Ptr),
      (entitiesOf L (L.effect (.world_markForRead s.world) s.lib)
          (L.retPtrs (.world_getActiveSimulationIslands s.world)
            (L.effect (.world_markForRead s.world) s.lib)))[k]? = some e →
      (get_updated_transforms L s bodyPtr transformPtr totalSize).2.1 k = toInt (e : Int) ∧
      ∀ j, j < 16 →
        (get_updated_transforms L s bodyPtr transformPtr totalSize).2.2.1 (16 * k + j)
          = L.retFloats (.transform_get4x4ColumnMajor e)
              (L.effect (.world_markForRead s.world) s.lib) j) ∧
    (∀ k, (entitiesOf L (L.effect (.world_markForRead s.world) s.lib)
          (L.retPtrs (.world_getActiveSimulationIslands s.world)
            (L.effect (.world_markForRead s.world) s.lib))).length ≤ k →
      (get_updated_transforms L s bodyPtr transformPtr totalSize).2.1 k = bodyPtr k) ∧
    (∀ x, 16 * (entitiesOf L (L.effect (.world_markForRead s.world) s.lib)
          (L.retPtrs (.world_getActiveSimulationIslands s.world)
            (L.effect (.world_markForRead s.world) s.lib))).length ≤ x →
      (get_updated_transforms L s bodyPtr transformPtr totalSize).2.2.1 x
        = transformPtr x) := by
  obtain ⟨c1, c2, c3⟩ := countStep_foldl L
    (L.retPtrs (.world_getActiveSimulationIslands s.world)
      (L.effect (.world_markForRead s.world) s.lib))
    (((s.call L (.world_markForRead s.world)).query
      (.world_getActiveSimulationIslands s.world)), 0)
  have hinit : TransformInv L (L.effect (.world_markForRead s.world) s.lib) bodyPtr
      transformPtr
      { s := ((L.retPtrs (.world_getActiveSimulationIslands s.world)
            (L.effect (.world_markForRead s.world) s.lib)).foldl (countStep L)
            (((s.call L (.world_markForRead s.world)).query
              (.world_getActiveSimulationIslands s.world)), 0)).1,
        bodyPtr := bodyPtr, transformPtr := transformPtr, count := 0, written := [] } [] :=
    ⟨c1, rfl, rfl, fun k e h => by simp at h, fun _ _ => rfl, fun _ _ => rfl⟩
  obtain ⟨-, i2, i3, i4, i5, i6⟩ := islandStep_foldl_inv L _ bodyPtr transformPtr
    (L.retPtrs (.world_getActiveSimulationIslands s.world)
      (L.effect (.world_markForRead s.world) s.lib)) _ [] hinit
  simp only [List.nil_append] at i2 i3 i4 i5 i6
  refine ⟨?_, ?_, i2, i3, i4, i5, i6⟩
  · have := c3
    simp only [HState.call, HState.query, zero_add] at this
    exact this
  · have := c2
    simp only [HState.call, HState.query, zero_add] at this
    exact this

/-- C14, evaluated: for a world with the islands `[10, 11]` and `[20]`, `totalSize` is set
to 3, the slots stored to are 0, 1, 2 and `bodyPtr` holds 10, 11, 20. -/
theorem get_updated_transforms_three_entities :
    (get_updated_transforms toyIslands toyWorld (fun _ => 0) (fun _ => 0) 99).2.2.2.1 = 3 ∧
    (get_updated_transforms toyIslands toyWorld (fun _ => 0) (fun _ => 0) 99).2.2.2.2.2
      = [0, 1, 2] ∧
    (List.range 4).map (get_updated_transforms toyIslands toyWorld (fun _ => 0) (fun _ => 0)
      99).2.1 = [10, 11, 20, 0] := by
  refine ⟨?_, ?_, ?_⟩ <;> rfl

/-! ## Counted loops that run to their end -/

theorem forLoop_zero {σ : Type} (body : Nat → σ → Except Fault σ) (init : σ) :
    forLoop 0 body init = .ok init := rfl

theorem forLoop_succ {σ : Type} (n : Nat) (body : Nat → σ → Except Fault σ) (init : σ) :
    forLoop (n + 1) body init = (forLoop n body init >>= fun st => body n st) := by
  unfold forLoop
  rw [List.range_succ, List.foldlM_append]
  congr 1
  funext st
  simp [List.foldlM_cons, List.foldlM_nil, bind, Except.bind, pure, Except.pure]
  cases body n st <;> rfl

/-- A counted loop whose rounds all return, each taking a property of round `i` to the
property of round `i + 1`, returns, with the property of round `n`. -/
theorem forLoop_total {σ : Type} (P : Nat → σ → Prop) (n : Nat)
    (body : Nat → σ → Except Fault σ)
    (hstep : ∀ i st, i < n → P i st → ∃ st2, body i st = .ok st2 ∧ P (i + 1) st2)
    (init : σ) (h0 : P 0 init) : ∃ r, forLoop n body init = .ok r ∧ P n r := by
  induction n with
  | zero => exact ⟨init, rfl, h0⟩
  | succ m ih =>
    obtain ⟨r, hr, hp⟩ := ih (fun i st hi hP => hstep i st (by omega) hP)
    obtain ⟨r2, hr2, hp2⟩ := hstep m r (by omega) hp
    refine ⟨r2, ?_, hp2⟩
    rw [forLoop_succ, hr]
    exact hr2

theorem toSizeT_natCast_le (n : Nat) : toSizeT (n : Int) ≤ n := by
  unfold toSizeT
  omega

theorem vecAt_natCast_ok {α : Type} (v : List α) (n : Nat) (f : Fault) (h : n < v.length) :
    ∃ x, vecAt v (n : Int) f = .ok x := by
  apply vecAt_of_check
  unfold geSize
  rw [decide_eq_false_iff_not]
  have := toSizeT_natCast_le n
  omega

theorem vecAt_natCast {α : Type} (v : List α) (n : Nat) (f : Fault) (h : n < v.length)
    (hb : n < 4294967296) : vecAt v (n : Int) f = .ok v[n] := by
  unfold vecAt
  rw [toSizeT_natCast n hb, List.getElem?_eq_getElem h]

theorem check_of_vecAt {α : Type} (v : List α) (i : Int) (f : Fault) (x : α)
    (h : vecAt v i f = .ok x) : geSize i v.length = false := by
  unfold vecAt at h
  split at h
  · rename_i y hy
    have hlt : toSizeT i < v.length := (List.getElem?_eq_some_iff.1 hy).1
    simp [geSize, hlt]
  · cases h

theorem vecAt_vecSet {α : Type} (v : List α) (i : Int) (f : Fault) (x : α)
    (h : geSize i v.length = false) : vecAt (vecSet v i x) i f = .ok x := by
  unfold geSize at h
  rw [decide_eq_false_iff_not] at h
  unfold vecAt vecSet
  rw [List.getElem?_set_self (by omega)]

/-! ## C11: the calls into the library per invocation -/

theorem multiUpdate_total {L : Alvar} (detectorID camID : Int) (i : Nat) (st : MultiLoop L)
    (hi : i < st.s.multiMarkers.length)
    (hd : geSize detectorID st.s.markerDetectors.length = false)
    (hc : geSize camID st.s.cams.length = false) :
    ∃ st2, multiUpdate detectorID camID i st = .ok st2 ∧ Keeps st.s st2.s ∧
      st2.s.calls = st.s.calls ++ [.MultiMarker_Update] := by
  obtain ⟨mm, hmm⟩ := vecAt_natCast_ok st.s.multiMarkers i .multiMarkers_at hi
  obtain ⟨d, hd2⟩ := vecAt_of_check st.s.markerDetectors detectorID .markerDetectors_index hd
  obtain ⟨c, hc2⟩ := vecAt_of_check st.s.cams camID .cams_index hc
  simp only [multiUpdate, hmm, hd2, hc2, bind, Except.bind]
  exact ⟨_, rfl, ⟨by simp [AState.logCall], by simp [AState.logCall], by simp [AState.logCall], rfl⟩, rfl⟩

theorem multiSetTrackMarkers_total {L : Alvar} (detectorID camID : Int) (i : Nat)
    (st : MultiLoop L) (hi : i < st.s.multiMarkers.length)
    (hd : geSize detectorID st.s.markerDetectors.length = false)
    (hc : geSize camID st.s.cams.length = false) :
    ∃ st2, multiSetTrackMarkers detectorID camID i st = .ok st2 ∧ Keeps st.s st2.s ∧
      st2.s.calls = st.s.calls ++ [.MultiMarker_SetTrackMarkers] := by
  obtain ⟨mm, hmm⟩ := vecAt_natCast_ok st.s.multiMarkers i .multiMarkers_at hi
  obtain ⟨d, hd2⟩ := vecAt_of_check st.s.markerDetectors detectorID .markerDetectors_index hd
  obtain ⟨c, hc2⟩ := vecAt_of_check st.s.cams camID .cams_index hc
  simp only [multiSetTrackMarkers, hmm, hd2, hc2, bind, Except.bind]
  exact ⟨_, rfl, ⟨by simp [AState.logCall], by simp [AState.logCall], by simp [AState.logCall], rfl⟩, rfl⟩

theorem multiDetectAdditional_total {L : Alvar} (detectorID camID : Int)
    (st : MultiLoop L)
    (hd : geSize detectorID st.s.markerDetectors.length = false)
    (hc : geSize camID st.s.cams.length = false) :
    ∃ st2, multiDetectAdditional detectorID camID st = .ok st2 ∧ Keeps st.s st2.s ∧
      st2.s.calls = st.s.calls ++ [.MarkerDetector_DetectAdditional] := by
  obtain ⟨d, hd2⟩ := vecAt_of_check st.s.markerDetectors detectorID .markerDetectors_index hd
  obtain ⟨c, hc2⟩ := vecAt_of_check st.s.cams camID .cams_index hc
  simp only [multiDetectAdditional, hd2, hc2, bind, Except.bind]
  exact ⟨_, rfl, ⟨by simp [AState.logCall], by simp [AState.logCall], rfl, rfl⟩, rfl⟩

/-- One round of the loop of `alvar_get_multi_marker_poses` returns and makes three calls
into the library, six with `detectAdditional`. -/
theorem multiStep_total {L : Alvar} (detectorID camID : Int) (detectAdditional : Bool)
    (i : Nat) (st : MultiLoop L) (hi : i < st.s.multiMarkers.length)
    (hd : geSize detectorID st.s.markerDetectors.length = false)
    (hc : geSize camID st.s.cams.length = false) :
    ∃ st2, multiStep detectorID camID detectAdditional i st = .ok st2 ∧ Keeps st.s st2.s ∧
      st2.s.calls = st.s.calls ++
        (if detectAdditional then
          [.Pose_new, .MultiMarker_Update, .MultiMarker_SetTrackMarkers,
           .MarkerDetector_DetectAdditional, .MultiMarker_Update, .Pose_GetMatrixGL]
         else [.Pose_new, .MultiMarker_Update, .Pose_GetMatrixGL]) := by
  cases detectAdditional
  · obtain ⟨b, hb, kb, cb⟩ := multiUpdate_total detectorID camID i
      { st with ids := st.ids.write i (i : Int), pose := L.Pose_new,
                s := st.s.logCall .Pose_new } hi hd hc
    have k1 : Keeps st.s (st.s.logCall .Pose_new) := ⟨rfl, rfl, rfl, rfl⟩
    have k2 : Keeps b.s (b.s.logCall .Pose_GetMatrixGL) := ⟨rfl, rfl, rfl, rfl⟩
    simp only [multiStep, multiAdditional, Bool.false_eq_true, if_false, bind, Except.bind,
      hb]
    exact ⟨_, rfl, k1.trans (kb.trans k2), by simp [AState.logCall, cb]⟩
  · obtain ⟨a1, ha1, ka1, ca1⟩ := multiUpdate_total detectorID camID i
      { st with ids := st.ids.write i (i : Int), pose := L.Pose_new,
                s := st.s.logCall .Pose_new } hi hd hc
    obtain ⟨a2, ha2, ka2, ca2⟩ := multiSetTrackMarkers_total detectorID camID i a1
      (by rw [ka1.2.2.1]; exact hi) (ka1.check_detectors _ hd) (ka1.check_cams _ hc)
    have k12 := ka1.trans ka2
    obtain ⟨a3, ha3, ka3, ca3⟩ := multiDetectAdditional_total detectorID camID a2
      (k12.check_detectors _ hd) (k12.check_cams _ hc)
    have k13 := k12.trans ka3
    obtain ⟨b, hb, kb, cb⟩ := multiUpdate_total detectorID camID i a3
      (by rw [k13.2.2.1]; exact hi) (k13.check_detectors _ hd) (k13.check_cams _ hc)
    have k1 : Keeps st.s (st.s.logCall .Pose_new) := ⟨rfl, rfl, rfl, rfl⟩
    have k2 : Keeps b.s (b.s.logCall .Pose_GetMatrixGL) := ⟨rfl, rfl, rfl, rfl⟩
    simp only [multiStep, multiAdditional, if_true, bind, Except.bind, ha1, ha2, ha3, hb]
    exact ⟨_, rfl, k1.trans (k13.trans (kb.trans k2)),
      by simp [AState.logCall, cb, ca3, ca2, ca1]⟩

/-- The loop of `alvar_get_multi_marker_poses` runs to its end and makes, for each multi
marker, the calls of one round in the order of the source. -/
theorem multiLoop_calls {L : Alvar} (s : AState L) (detectorID camID : Int)
    (detectAdditional : Bool) (init : MultiLoop L) (hinit : init.s = s)
    (hd : geSize detectorID s.markerDetectors.length = false)
    (hc : geSize camID s.cams.length = false) :
    ∃ r, forLoop s.multiMarkers.length (multiStep detectorID camID detectAdditional) init
        = .ok r ∧ Keeps s r.s ∧
      r.s.calls = s.calls ++ (List.replicate s.multiMarkers.length
        (if detectAdditional then
          [AlvarCall.Pose_new, .MultiMarker_Update, .MultiMarker_SetTrackMarkers,
           .MarkerDetector_DetectAdditional, .MultiMarker_Update, .Pose_GetMatrixGL]
         else [.Pose_new, .MultiMarker_Update, .Pose_GetMatrixGL])).flatten := by
  obtain ⟨r, hr, hk, hl⟩ := forLoop_total
    (fun i (st : MultiLoop L) => Keeps s st.s ∧
      st.s.calls = s.calls ++ (List.replicate i
        (if detectAdditional then
          [AlvarCall.Pose_new, .MultiMarker_Update, .MultiMarker_SetTrackMarkers,
           .MarkerDetector_DetectAdditional, .MultiMarker_Update, .Pose_GetMatrixGL]
         else [.Pose_new, .MultiMarker_Update, .Pose_GetMatrixGL])).flatten)
    s.multiMarkers.length (multiStep detectorID camID detectAdditional)
    (fun i st hi hP => by
      obtain ⟨st2, h2, k2, c2⟩ := multiStep_total detectorID camID detectAdditional i st
        (by rw [hP.1.2.2.1]; exact hi) (hP.1.check_detectors _ hd) (hP.1.check_cams _ hc)
      refine ⟨st2, h2, hP.1.trans k2, ?_⟩
      rw [c2, hP.2, List.replicate_succ', List.flatten_append, List.append_assoc]
      simp)
    init (by subst hinit; exact ⟨Keeps.refl _, by simp⟩)
  exact ⟨r, hr, hk, hl⟩

theorem alvar_get_camera_params_calls {L : Alvar} (s : AState L) (camID : Int)
    (projMat : Buf L.Double) (fovX fovY : L.Double) (farClip nearClip : L.Float)
    (hg : geSize camID s.cams.length = false) :
    ∃ r, alvar_get_camera_params s camID projMat fovX fovY farClip nearClip = .ok r ∧
      r.2.1.calls = s.calls ++
        [.Camera_GetOpenglProjectionMatrix, .Camera_GetFovX, .Camera_GetFovY] := by
  obtain ⟨c, hc⟩ := vecAt_of_check s.cams camID .cams_index hg
  simp only [alvar_get_camera_params, hg, Bool.false_eq_true, if_false, hc, bind, Except.bind]
  obtain ⟨c1, hc1⟩ := vecAt_of_check (vecSet s.cams camID
    { c with cam := (L.GetOpenglProjectionMatrix c.cam projMat c.width c.height
      farClip nearClip).2 }) camID .cams_index (by rw [vecSet_length]; exact hg)
  simp only [hc1]
  obtain ⟨c2, hc2⟩ := vecAt_of_check (vecSet (vecSet s.cams camID
    { c with cam := (L.GetOpenglProjectionMatrix c.cam projMat c.width c.height
      farClip nearClip).2 }) camID { c1 with cam := (L.GetFovX c1.cam).2 }) camID .cams_index
    (by rw [vecSet_length, vecSet_length]; exact hg)
  simp only [AState.logCall, hc2]
  exact ⟨_, rfl, by simp⟩

theorem alvar_set_marker_size_calls {L : Alvar} (s : AState L) (detectorID markerID : Int)
    (markerSize : L.Double) (hg : geSize detectorID s.markerDetectors.length = false) :
    ∃ r, alvar_set_marker_size s detectorID markerID markerSize = .ok r ∧
      r.2.calls = s.calls ++ [.MarkerDetector_SetMarkerSizeForId] := by
  obtain ⟨d, hd⟩ := vecAt_of_check s.markerDetectors detectorID .markerDetectors_index hg
  simp only [alvar_set_marker_size, hg, Bool.false_eq_true, if_false, hd, bind, Except.bind]
  exact ⟨_, rfl, rfl⟩

theorem alvar_finalize_calibration_calls {L : Alvar} (s : AState L) (camID : Int)
    (calibrationFilename : String) (hs : s.calibration_started = true)
    (hg : geSize camID s.cams.length = false) :
    ∃ r, alvar_finalize_calibration s camID calibrationFilename = .ok r ∧
      r.2.calls = s.calls ++ [.Camera_Calibrate, .ProjPoints_Reset, .Camera_SaveCalib] := by
  obtain ⟨c, hc⟩ := vecAt_of_check s.cams camID .cams_index hg
  simp only [alvar_finalize_calibration, hs, hg, Bool.not_true, Bool.or_false,
    Bool.false_eq_true, if_false, hc, bind, Except.bind, AState.logCall]
  obtain ⟨c1, hc1⟩ := vecAt_of_check (vecSet s.cams camID
    { c with cam := (L.Calibrate c.cam s.pp).1 }) camID .cams_index
    (by rw [vecSet_length]; exact hg)
  simp only [hc1]
  cases hr : (L.SaveCalib c1.cam calibrationFilename).1
  · exact ⟨_, rfl, by simp⟩
  · exact ⟨_, rfl, by simp⟩

theorem alvar_get_multi_marker_poses_sequence {L : Alvar} (s : AState L)
    (detectorID camID : Int) (detectAdditional : Bool) (ids : Buf Int)
    (poseMats errors : Buf L.Double)
    (hd : geSize detectorID s.markerDetectors.length = false)
    (hc : geSize camID s.cams.length = false) :
    ∃ r d, alvar_get_multi_marker_poses s detectorID camID detectAdditional ids poseMats errors
        = .ok r ∧ vecAt s.markerDetectors detectorID .markerDetectors_index = .ok d ∧
      r.1.calls = s.calls ++
        (if toInt (L.markers d).length = 0 then []
         else (List.replicate s.multiMarkers.length
          (if detectAdditional then
            [AlvarCall.Pose_new, .MultiMarker_Update, .MultiMarker_SetTrackMarkers,
             .MarkerDetector_DetectAdditional, .MultiMarker_Update, .Pose_GetMatrixGL]
           else [.Pose_new, .MultiMarker_Update, .Pose_GetMatrixGL])).flatten) := by
  obtain ⟨d, hd2⟩ := vecAt_of_check s.markerDetectors detectorID .markerDetectors_index hd
  simp only [alvar_get_multi_marker_poses, hd, hc, Bool.or_self, Bool.false_eq_true, if_false,
    hd2, bind, Except.bind]
  by_cases hz : toInt (L.markers d).length = 0
  · have hz1 : (toInt (L.markers d).length == 0) = true := by simpa using hz
    rw [if_pos hz1]
    refine ⟨_, d, rfl, rfl, ?_⟩
    rw [if_pos hz]
    simp
  · have hz2 : (toInt (L.markers d).length == 0) = false := by simpa using hz
    obtain ⟨r, hr, -, hl⟩ := multiLoop_calls s detectorID camID detectAdditional
      { s := s, pose := L.Pose_new, ids := ids, poseMats := poseMats, errors := errors } rfl
      hd hc
    rw [hz2, hr]
    refine ⟨_, d, rfl, rfl, ?_⟩
    rw [if_neg hz]
    exact hl

/-- The calls `add_rigid_body` makes on the world, the body and the shape, to the static
mass utility and to the constructor of the body occur in its log in the order of the
source. -/
theorem add_rigid_body_calls {F σ : Type} (H : Havok F σ) (hs : HState F σ) (shape : Ptr)
    (mass : F) (motionType collideQuality : Int) (pos rot linearVelocity : Buf F)
    (linearDamping maxLinearVelocity : F) (angularVelocity : Buf F)
    (angularDamping maxAngularVelocity friction restitution allowedPenetrationDepth : F)
    (neverDeactivate : Bool) (gravityFactor : F) :
    ∃ body st bodyInfo logged,
      add_rigid_body H hs shape mass motionType collideQuality pos rot linearVelocity
        linearDamping maxLinearVelocity angularVelocity angularDamping maxAngularVelocity
        friction restitution allowedPenetrationDepth neverDeactivate gravityFactor
        = (body, st) ∧
      st.calls = hs.calls ++ logged ∧
      List.Sublist
        (HkCall.world_lock hs.world ::
          ((if !(motionType == H.MOTION_FIXED || motionType == H.MOTION_KEYFRAMED) then
              [HkCall.hkpInertiaTensorComputer_computeShapeVolumeMassProperties shape mass]
            else []) ++
          [.hkpRigidBody_new bodyInfo, .world_addEntity hs.world body,
           .removeReference body, .removeReference shape, .world_unlock hs.world]))
        logged := by
  cases hm : (!(motionType == H.MOTION_FIXED || motionType == H.MOTION_KEYFRAMED))
  · generalize hr : add_rigid_body H hs shape mass motionType collideQuality pos rot
      linearVelocity linearDamping maxLinearVelocity angularVelocity angularDamping
      maxAngularVelocity friction restitution allowedPenetrationDepth neverDeactivate
      gravityFactor = r
    have h1 : r.2.calls = hs.calls ++ [.world_lock hs.world, .hkpRigidBodyCinfo_new,
        .hkpRigidBody_new (bodyInfoCommon H shape motionType collideQuality pos rot friction
          restitution allowedPenetrationDepth gravityFactor),
        .world_addEntity hs.world r.1, .removeReference r.1, .removeReference shape,
        .world_unlock hs.world] := by
      subst hr
      simp [add_rigid_body, hm, HState.call]
    refine ⟨r.1, r.2, bodyInfoCommon H shape motionType collideQuality pos rot friction
      restitution allowedPenetrationDepth gravityFactor, _, rfl, h1, ?_⟩
    simp only [Bool.false_eq_true, if_false, List.nil_append]
    exact List.Sublist.cons₂ _ (List.Sublist.cons _ (List.Sublist.refl _))
  · generalize hr : add_rigid_body H hs shape mass motionType collideQuality pos rot
      linearVelocity linearDamping maxLinearVelocity angularVelocity angularDamping
      maxAngularVelocity friction restitution allowedPenetrationDepth neverDeactivate
      gravityFactor = r
    have h1 : r.2.calls = hs.calls ++ [.world_lock hs.world, .hkpRigidBodyCinfo_new,
        .hkpInertiaTensorComputer_computeShapeVolumeMassProperties shape mass,
        .hkpRigidBody_new (bodyInfoDynamic H.fl
          (bodyInfoCommon H shape motionType collideQuality pos rot friction restitution
            allowedPenetrationDepth gravityFactor)
          (H.retMass (.hkpInertiaTensorComputer_computeShapeVolumeMassProperties shape mass)
            ((hs.call H (.world_lock hs.world)).call H .hkpRigidBodyCinfo_new).lib)
          linearVelocity linearDamping maxLinearVelocity angularVelocity angularDamping
          maxAngularVelocity neverDeactivate),
        .world_addEntity hs.world r.1, .removeReference r.1, .removeReference shape,
        .world_unlock hs.world] := by
      subst hr
      simp [add_rigid_body, hm, HState.call]
    refine ⟨r.1, r.2, bodyInfoDynamic H.fl
      (bodyInfoCommon H shape motionType collideQuality pos rot friction restitution
        allowedPenetrationDepth gravityFactor)
      (H.retMass (.hkpInertiaTensorComputer_computeShapeVolumeMassProperties shape mass)
        ((hs.call H (.world_lock hs.world)).call H .hkpRigidBodyCinfo_new).lib)
      linearVelocity linearDamping maxLinearVelocity angularVelocity angularDamping
      maxAngularVelocity neverDeactivate, _, rfl, h1, ?_⟩
    simp only [if_true, List.singleton_append]
    exact List.Sublist.cons₂ _ (List.Sublist.cons _ (List.Sublist.refl _))

/-- C11 as stated fails: `alvar_get_camera_params` called with the valid `camID = 0` makes
three calls into the library (`GetOpenglProjectionMatrix`, `GetFovX`, `GetFovY`), not one
(toy library). -/
theorem get_camera_params_makes_three_calls :
    ∃ r, alvar_get_camera_params toyScene 0 (fun _ => 0) 0 0 1000 1 = .ok r ∧
      r.2.1.calls = toyScene.calls ++
        [.Camera_GetOpenglProjectionMatrix, .Camera_GetFovX, .Camera_GetFovY] ∧
      r.2.1.calls.length ≠ toyScene.calls.length + 1 :=
  ⟨_, rfl, rfl, by decide⟩

/-- C11, amended: only some exported functions forward to a single library call; the four
functions the claim names make several.  For an input that passes the index check,
`alvar_get_camera_params` calls `GetOpenglProjectionMatrix`, `GetFovX` and `GetFovY`, in
this order and nothing else; `alvar_finalize_calibration` (with calibration started) calls
`Calibrate`, `Reset` and `SaveCalib`, in this order and nothing else;
`alvar_get_multi_marker_poses` makes no call when the detector holds no marker and
otherwise, for each registered multi marker in turn, constructs a `Pose` and calls `Update`
and `GetMatrixGL`, with `detectAdditional` constructs a `Pose` and calls `Update`,
`SetTrackMarkers`, `DetectAdditional`, `Update` and `GetMatrixGL`; and among the calls of
`add_rigid_body` are, in this order, `world->lock()`, for a motion type other than
`MOTION_FIXED` and `MOTION_KEYFRAMED` `computeShapeVolumeMassProperties(shape, mass, ..)`,
the constructor of `hkpRigidBody`, `world->addEntity(body)`, `body->removeReference()`,
`shape->removeReference()` and `world->unlock()`, where `body` is the pointer it returns.
A single library call is all that is made by `alvar_set_marker_size`
(`SetMarkerSizeForId`) and `alvar_calibrate_camera` (`AddPointsUsingChessboard`) with an
index in range, by `create_sphere_shape` (the constructor of `hkpSphereShape`) and by
`remove_rigid_body` (`world->removeEntity(body)`). -/
theorem library_calls_per_invocation {L : Alvar} (s : AState L) (camID detectorID : Int)
    {F σ : Type} (H : Havok F σ) (hs : HState F σ)
    (hc : geSize camID s.cams.length = false)
    (hd : geSize detectorID s.markerDetectors.length = false) :
    (∀ projMat fovX fovY farClip nearClip,
      ∃ r, alvar_get_camera_params s camID projMat fovX fovY farClip nearClip = .ok r ∧
        r.2.1.calls = s.calls ++
          [.Camera_GetOpenglProjectionMatrix, .Camera_GetFovX, .Camera_GetFovY]) ∧
    (s.calibration_started = true → ∀ calibrationFilename,
      ∃ r, alvar_finalize_calibration s camID calibrationFilename = .ok r ∧
        r.2.calls = s.calls ++ [.Camera_Calibrate, .ProjPoints_Reset, .Camera_SaveCalib]) ∧
    (∀ detectAdditional ids poseMats errors,
      ∃ r d, alvar_get_multi_marker_poses s detectorID camID detectAdditional ids poseMats
          errors = .ok r ∧
        vecAt s.markerDetectors detectorID .markerDetectors_index = .ok d ∧
        r.1.calls = s.calls ++
          (if toInt (L.markers d).length = 0 then []
           else (List.replicate s.multiMarkers.length
            (if detectAdditional then
              [AlvarCall.Pose_new, .MultiMarker_Update, .MultiMarker_SetTrackMarkers,
               .MarkerDetector_DetectAdditional, .MultiMarker_Update, .Pose_GetMatrixGL]
             else [.Pose_new, .MultiMarker_Update, .Pose_GetMatrixGL])).flatten)) ∧
    (∀ shape mass motionType collideQuality pos rot linearVelocity linearDamping
        maxLinearVelocity angularVelocity angularDamping maxAngularVelocity friction
        restitution allowedPenetrationDepth neverDeactivate gravityFactor,
      ∃ body st bodyInfo logged,
        add_rigid_body H hs shape mass motionType collideQuality pos rot linearVelocity
          linearDamping maxLinearVelocity angularVelocity angularDamping maxAngularVelocity
          friction restitution allowedPenetrationDepth neverDeactivate gravityFactor
          = (body, st) ∧
        st.calls = hs.calls ++ logged ∧
        List.Sublist
          (HkCall.world_lock hs.world ::
            ((if !(motionType == H.MOTION_FIXED || motionType == H.MOTION_KEYFRAMED) then
                [HkCall.hkpInertiaTensorComputer_computeShapeVolumeMassProperties shape mass]
              else []) ++
            [.hkpRigidBody_new bodyInfo, .world_addEntity hs.world body,
             .removeReference body, .removeReference shape, .world_unlock hs.world]))
          logged) ∧
    (∀ markerID markerSize,
      ∃ r, alvar_set_marker_size s detectorID markerID markerSize = .ok r ∧
        r.2.calls = s.calls ++ [.MarkerDetector_SetMarkerSizeForId]) ∧
    (∀ nChannels colorModel channelSeq imageData etalon_square_size etalon_rows
        etalon_columns,
      ∃ r, alvar_calibrate_camera s camID nChannels colorModel channelSeq imageData
          etalon_square_size etalon_rows etalon_columns = .ok r ∧
        r.2.calls = s.calls ++ [.ProjPoints_AddPointsUsingChessboard]) ∧
    (∀ radius,
      (create_sphere_shape H hs radius).2.calls = hs.calls ++ [.hkpSphereShape_new radius]) ∧
    (∀ body,
      (remove_rigid_body H hs body).calls
        = hs.calls ++ [.world_removeEntity hs.world body]) := by
  refine ⟨fun pm fx fy fc nc => alvar_get_camera_params_calls s camID pm fx fy fc nc hc,
    fun hst f => alvar_finalize_calibration_calls s camID f hst hc,
    fun da ids pm er =>
      alvar_get_multi_marker_poses_sequence s detectorID camID da ids pm er hd hc,
    fun shape mass motionType collideQuality pos rot linearVelocity linearDamping
      maxLinearVelocity angularVelocity angularDamping maxAngularVelocity friction
      restitution allowedPenetrationDepth neverDeactivate gravityFactor =>
      add_rigid_body_calls H hs shape mass motionType collideQuality pos rot linearVelocity
        linearDamping maxLinearVelocity angularVelocity angularDamping maxAngularVelocity
        friction restitution allowedPenetrationDepth neverDeactivate gravityFactor,
    fun m ms => alvar_set_marker_size_calls s detectorID m ms hd,
    ?_, fun radius => rfl, fun body => rfl⟩
  intro n cm cs img sq rows cols
  obtain ⟨c, -, h⟩ := alvar_calibrate_camera_checked s camID n cm cs img sq rows cols hc
  exact ⟨_, h, rfl⟩

/-- C11, evaluated: in the toy scene `alvar_set_marker_size` with the valid
`detectorID = 0` makes the single call `SetMarkerSizeForId`. -/
theorem library_calls_per_invocation_witness :
    ∃ r, alvar_set_marker_size toyScene 0 7 25 = .ok r ∧
      r.2.calls = toyScene.calls ++ [.MarkerDetector_SetMarkerSizeForId] :=
  (library_calls_per_invocation toyScene 0 0 toyHavok toyWorld (by decide)
    (by decide)).2.2.2.2.1 7 25

/-! ## Lemmas on the id table and on last occurrences -/

theorem mapFind_mapSet (m : List (Int × Int)) (k v q : Int) :
    mapFind (mapSet m k v) q = if q = k then some (k, v) else mapFind m q := by
  induction m with
  | nil => simp [mapSet, mapFind]
  | cons a t ih =>
    obtain ⟨k0, v0⟩ := a
    by_cases h1 : k < k0
    · simp only [mapSet, if_pos h1, mapFind]
    · by_cases h2 : k = k0
      · subst h2
        simp only [mapSet, if_neg h1, if_true, mapFind]
        by_cases hq : q = k <;> simp [hq]
      · simp only [mapSet, if_neg h1, if_neg h2, mapFind, ih]
        by_cases hq0 : q = k0
        · have h3 : ¬ k0 = k := fun h => h2 h.symm
          simp [hq0, h3]
        · simp [hq0]

theorem lastIndex_append_singleton (k x : Int) (l : List Int) :
    lastIndex k (l ++ [x]) = if x = k then some l.length else lastIndex k l := by
  induction l with
  | nil => simp [lastIndex]
  | cons a t ih =>
    rw [List.cons_append, lastIndex, ih]
    by_cases hx : x = k
    · simp [hx]
    · simp only [if_neg hx]
      rfl

theorem lastIndex_eq_none_iff (k : Int) (l : List Int) : lastIndex k l = none ↔ k ∉ l := by
  induction l with
  | nil => simp [lastIndex]
  | cons a t ih =>
    simp only [lastIndex, List.mem_cons, not_or]
    cases h : lastIndex k t with
    | some j =>
      have : ¬ (k ∉ t) := fun hn => by rw [ih.2 hn] at h; cases h
      simp [this]
    | none =>
      have hk := ih.1 h
      by_cases ha : a = k
      · simp [ha]
      · simp [ha, hk, Ne.symm ha]

theorem lastIndex_isSome_iff (k : Int) (l : List Int) : (lastIndex k l).isSome ↔ k ∈ l := by
  rw [← not_iff_not, ← lastIndex_eq_none_iff]
  cases lastIndex k l <;> simp

/-- The position `lastIndex` gives is the position of the marker `lastWithId` gives. -/
theorem lastWithId_of_lastIndex (L : Alvar) (k : Int) (ms : List L.Marker) (j : Nat)
    (h : lastIndex k (markerIds L ms) = some j) :
    ∃ m, ms[j]? = some m ∧ lastWithId L k ms = some m ∧ L.GetId m = k := by
  induction ms generalizing j with
  | nil => simp [markerIds, lastIndex] at h
  | cons a t ih =>
    simp only [markerIds, List.map_cons, lastIndex] at h
    cases ht : lastIndex k (markerIds L t) with
    | some i =>
      simp only [markerIds] at ht
      rw [ht] at h
      simp only [Option.some.injEq] at h
      subst h
      obtain ⟨m, h1, h2, h3⟩ := ih i ht
      exact ⟨m, by simpa using h1, by simp [lastWithId, h2], h3⟩
    | none =>
      simp only [markerIds] at ht
      rw [ht] at h
      have hnone : lastWithId L k t = none := by
        clear ih h
        induction t with
        | nil => rfl
        | cons b u ihu =>
          simp only [List.map_cons, lastIndex] at ht
          cases hu : lastIndex k (List.map L.GetId u) with
          | some i => rw [hu] at ht; cases ht
          | none =>
            rw [hu] at ht
            have hb : ¬ L.GetId b = k := by
              intro hb
              simp [hb] at ht
            simp [lastWithId, ihu hu, hb]
      by_cases ha : L.GetId a = k
      · simp only [ha, if_true, Option.some.injEq] at h
        subst h
        exact ⟨a, by simp, by simp [lastWithId, hnone, ha], ha⟩
      · simp [ha] at h

theorem lastIndex_lt (k : Int) (l : List Int) (j : Nat) (h : lastIndex k l = some j) :
    j < l.length := by
  induction l generalizing j with
  | nil => simp [lastIndex] at h
  | cons a t ih =>
    simp only [lastIndex] at h
    cases ht : lastIndex k t with
    | some i =>
      rw [ht] at h
      simp only [Option.some.injEq] at h
      have := ih i ht
      simp only [List.length_cons]
      omega
    | none =>
      rw [ht] at h
      split_ifs at h
      simp only [Option.some.injEq] at h
      simp only [List.length_cons]
      omega

/-- Filtering by a test and mapping through a partial function that is defined exactly
where the test holds select the same entries. -/
theorem filterMap_filter {β : Type} (f : Int → Option β) (p : Int → Bool)
    (hfp : ∀ x, (f x).isSome = p x) (R : List Int) :
    (R.filterMap f).length = (R.filter p).length ∧
    ∀ (k : Nat) (x : Int), (R.filter p)[k]? = some x → (R.filterMap f)[k]? = f x := by
  induction R with
  | nil => simp
  | cons a t ih =>
    obtain ⟨ih1, ih2⟩ := ih
    cases hf : f a with
    | none =>
      have hp : p a = false := by rw [← hfp a, hf]; rfl
      simp only [List.filterMap_cons, hf, List.filter_cons, hp]
      exact ⟨ih1, ih2⟩
    | some b =>
      have hp : p a = true := by rw [← hfp a, hf]; rfl
      simp only [List.filterMap_cons, hf, List.filter_cons, hp, if_true, List.length_cons]
      refine ⟨by omega, ?_⟩
      intro k x hk
      cases k with
      | zero =>
        simp only [List.getElem?_cons_zero, Option.some.injEq] at hk
        subst hk
        simp [hf]
      | succ k =>
        simp only [List.getElem?_cons_succ] at hk ⊢
        exact ih2 k x hk

theorem ok_inj {α : Type} {a b : α} (h : (Except.ok a : Except Fault α) = .ok b) : a = b := by
  cases h
  rfl

/-! ## The loops of `alvar_detect_marker` and `alvar_get_poses` -/

/-- The first loop of `alvar_detect_marker`, run for the first `n` markers of the detector
on an empty table: it returns, and the table then maps an id to the position of its last
occurrence among these markers. -/
theorem detectTable_loop {L : Alvar} (detectorID : Int) (s5 : AState L) (d : L.Detector)
    (hd : vecAt s5.markerDetectors detectorID .markerDetectors_index = .ok d)
    (hempty : s5.idTable = []) (n : Nat) (hn : n ≤ (L.markers d).length)
    (hb : (L.markers d).length < 4294967296) :
    ∃ r, forLoop n (detectTableStep detectorID) s5 = .ok r ∧
      r.markerDetectors = s5.markerDetectors ∧ r.foundMarkers = s5.foundMarkers ∧
      ∀ q, mapFind r.idTable q =
        (lastIndex q (markerIds L ((L.markers d).take n))).map (fun (j : Nat) => (q, (j : Int))) := by
  refine forLoop_total
    (fun i (st : AState L) => st.markerDetectors = s5.markerDetectors ∧
      st.foundMarkers = s5.foundMarkers ∧
      ∀ q, mapFind st.idTable q =
        (lastIndex q (markerIds L ((L.markers d).take i))).map (fun (j : Nat) => (q, (j : Int))))
    n (detectTableStep detectorID) ?_ s5 ⟨rfl, rfl, ?_⟩
  · intro i st hi ⟨h1, h2, h3⟩
    have hlt : i < (L.markers d).length := by omega
    have hm := vecAt_natCast (L.markers d) i .markers_index hlt (by omega)
    simp only [detectTableStep, h1, hd, hm, bind, Except.bind]
    refine ⟨_, rfl, h1, h2, ?_⟩
    intro q
    simp only [AState.logCall]
    rw [mapFind_mapSet, h3 q, List.take_succ, List.getElem?_eq_getElem hlt]
    simp only [markerIds, Option.toList, List.map_append, List.map_cons, List.map_nil]
    rw [lastIndex_append_singleton]
    have hlen : (List.map L.GetId (List.take i (L.markers d))).length = i := by
      simp; omega
    rw [hlen]
    by_cases hq : q = L.GetId (L.markers d)[i]
    · simp [hq]
    · have hq2 : ¬ L.GetId (L.markers d)[i] = q := fun h => hq h.symm
      simp [hq, hq2, markerIds]
  · intro q
    simp [hempty, mapFind, markerIds, lastIndex]

theorem detectTable_run {L : Alvar} (detectorID : Int) (s5 s6 : AState L) (d : L.Detector)
    (hd : vecAt s5.markerDetectors detectorID .markerDetectors_index = .ok d)
    (hempty : s5.idTable = []) (n : Nat) (hn : n ≤ (L.markers d).length)
    (hb : (L.markers d).length < 4294967296)
    (h : forLoop n (detectTableStep detectorID) s5 = .ok s6) :
    s6.markerDetectors = s5.markerDetectors ∧ s6.foundMarkers = s5.foundMarkers ∧
    ∀ q, mapFind s6.idTable q =
      (lastIndex q (markerIds L ((L.markers d).take n))).map
        (fun (j : Nat) => (q, (j : Int))) := by
  obtain ⟨r, hr, h1, h2, h3⟩ := detectTable_loop detectorID s5 d hd hempty n hn hb
  have e : s6 = r := ok_inj (h.symm.trans hr)
  subst e
  exact ⟨h1, h2, h3⟩

theorem detectTable_not_error {L : Alvar} (detectorID : Int) (s5 : AState L) (d : L.Detector)
    (e : Fault) (hd : vecAt s5.markerDetectors detectorID .markerDetectors_index = .ok d)
    (hempty : s5.idTable = []) (n : Nat) (hn : n ≤ (L.markers d).length)
    (hb : (L.markers d).length < 4294967296)
    (h : forLoop n (detectTableStep detectorID) s5 = .error e) : False := by
  obtain ⟨r, hr, -⟩ := detectTable_loop detectorID s5 d hd hempty n hn hb
  rw [hr] at h
  cases h

/-- The second loop of `alvar_detect_marker`, run for the first `n` requested ids: it
returns, `foundMarkers` has grown by the table entries of the requested ids that are in the
table, in the order of the requests, and `markerCount` by their number. -/
theorem detectFind_loop {L : Alvar} (ids : Buf Int) (s6 : AState L) (c0 : Int) (n : Nat) :
    ∃ r, forLoop n (detectFindStep ids) (s6, c0) = .ok r ∧
      r.1.markerDetectors = s6.markerDetectors ∧
      r.1.foundMarkers = s6.foundMarkers ++
        ((List.range n).map ids).filterMap (fun q => (mapFind s6.idTable q).map (fun e => e.2)) ∧
      r.2 = c0 + ((((List.range n).map ids).filterMap
        (fun q => (mapFind s6.idTable q).map (fun e => e.2))).length : Int) := by
  obtain ⟨r, hr, h1, -, h3, h4⟩ := forLoop_total
    (fun i (st : AState L × Int) => st.1.markerDetectors = s6.markerDetectors ∧
      st.1.idTable = s6.idTable ∧
      st.1.foundMarkers = s6.foundMarkers ++
        ((List.range i).map ids).filterMap (fun q => (mapFind s6.idTable q).map (fun e => e.2)) ∧
      st.2 = c0 + ((((List.range i).map ids).filterMap
        (fun q => (mapFind s6.idTable q).map (fun e => e.2))).length : Int))
    n (detectFindStep ids)
    (fun i st _ hP => by
      obtain ⟨h1, h2, h3, h4⟩ := hP
      unfold detectFindStep
      rw [h2]
      cases hf : mapFind s6.idTable (ids i) with
      | none =>
        refine ⟨_, rfl, h1, h2, ?_, ?_⟩
        · simp [h3, List.range_succ, hf]
        · simp [h4, List.range_succ, hf]
      | some e =>
        refine ⟨_, rfl, h1, h2, ?_, ?_⟩
        · simp [h3, List.range_succ, hf]
        · simp [h4, List.range_succ, hf]
          omega)
    (s6, c0) ⟨rfl, rfl, by simp, by simp⟩
  exact ⟨r, hr, h1, h3, h4⟩

theorem lastIndex_nil_filterMap (R : List Int) :
    R.filterMap (fun q => lastIndex q []) = [] := by
  induction R with
  | nil => rfl
  | cons a t ih => simp [lastIndex]

/-- What `alvar_detect_marker` returns when it returns, for in-range indices: with `ms` the
markers the detector holds after `Detect`, `*numFoundMarkers` is their number,
`foundMarkers` lists, for the requested ids that occur among their ids and in the order of
the requests, the position of the last marker with that id, `*numInterestedMarkers` is the
length of `foundMarkers`, and `markerDetectors[detectorID]` holds `ms`. -/
theorem alvar_detect_marker_ok {L : Alvar} (s : AState L) (detectorID camID nChannels : Int)
    (colorModel channelSeq : Buf Nat) (imageData : Ptr) (interestedMarkerIDs : Buf Int)
    (numFoundMarkers numInterestedMarkers : Int) (maxMarkerError maxTrackError : L.Double)
    (d : L.Detector) (c : ALVARCamera L)
    (hd : vecAt s.markerDetectors detectorID .markerDetectors_index = .ok d)
    (hc : vecAt s.cams camID .cams_index = .ok c)
    (hM : (markersAfterDetect L d c nChannels colorModel channelSeq imageData maxMarkerError
      maxTrackError).length < 2147483648)
    (r : AState L × Int × Int)
    (h : alvar_detect_marker s detectorID camID nChannels colorModel channelSeq imageData
        interestedMarkerIDs numFoundMarkers numInterestedMarkers maxMarkerError maxTrackError
        = .ok r) :
    r.2.1 = ((markersAfterDetect L d c nChannels colorModel channelSeq imageData
      maxMarkerError maxTrackError).length : Int) ∧
    r.2.2 = (((requestedIds interestedMarkerIDs numInterestedMarkers).filterMap
      (fun q => lastIndex q (markerIds L (markersAfterDetect L d c nChannels colorModel
        channelSeq imageData maxMarkerError maxTrackError)))).length : Int) ∧
    (∃ d1, vecAt r.1.markerDetectors detectorID .markerDetectors_index = .ok d1 ∧
      L.markers d1 = markersAfterDetect L d c nChannels colorModel channelSeq imageData
        maxMarkerError maxTrackError) ∧
    r.1.foundMarkers = ((requestedIds interestedMarkerIDs numInterestedMarkers).filterMap
      (fun q => lastIndex q (markerIds L (markersAfterDetect L d c nChannels colorModel
        channelSeq imageData maxMarkerError maxTrackError)))).map (fun (j : Nat) => (j : Int)) := by
  have hgd := check_of_vecAt _ _ _ _ hd
  have hgc := check_of_vecAt _ _ _ _ hc
  unfold alvar_detect_marker at h
  rw [if_neg (by simp [hgd, hgc])] at h
  simp only [bind_ok_iff] at h
  obtain ⟨c0, hc0, d0, hd0, c1, hc1, d1, hd1, d2, hd2, h⟩ := h
  have ec0 : c0 = c := ok_inj (hc0.symm.trans hc)
  subst ec0
  have ed0 : d0 = d := ok_inj (hd0.symm.trans hd)
  subst ed0
  have ec1 : c1 = c0 := ok_inj (hc1.symm.trans hc)
  subst ec1
  have hset : ∀ f, vecAt (vecSet s.markerDetectors detectorID
      (L.Detect d0 (fillImageHeader c1 nChannels colorModel channelSeq imageData) c1.cam true
        false maxMarkerError maxTrackError).1) detectorID f = .ok
      (L.Detect d0 (fillImageHeader c1 nChannels colorModel channelSeq imageData) c1.cam true
        false maxMarkerError maxTrackError).1 := fun f => vecAt_vecSet _ _ _ _ hgd
  have ed1 : d1 = (L.Detect d0 (fillImageHeader c1 nChannels colorModel channelSeq imageData)
      c1.cam true false maxMarkerError maxTrackError).1 := ok_inj (hd1.symm.trans (hset _))
  have ed2 : d2 = (L.Detect d0 (fillImageHeader c1 nChannels colorModel channelSeq imageData)
      c1.cam true false maxMarkerError maxTrackError).1 := ok_inj (hd2.symm.trans (hset _))
  subst ed1
  subst ed2
  unfold markersAfterDetect at hM ⊢
  rw [toInt_of_small _ (by omega) (by omega)] at h
  have hfm : ∀ (T : List (Int × Int)),
      (∀ q, mapFind T q = (lastIndex q (markerIds L (L.markers
        (L.Detect d0 (fillImageHeader c1 nChannels colorModel channelSeq imageData) c1.cam
          true false maxMarkerError maxTrackError).1))).map (fun (j : Nat) => (q, (j : Int)))) →
      ((List.range numInterestedMarkers.toNat).map interestedMarkerIDs).filterMap
        (fun q => (mapFind T q).map (fun e => e.2)) =
      ((requestedIds interestedMarkerIDs numInterestedMarkers).filterMap
        (fun q => lastIndex q (markerIds L (L.markers
          (L.Detect d0 (fillImageHeader c1 nChannels colorModel channelSeq imageData) c1.cam
            true false maxMarkerError maxTrackError).1)))).map (fun (j : Nat) => (j : Int)) := by
    intro T hT
    rw [List.map_filterMap]
    unfold requestedIds
    congr 1
    funext q
    rw [hT q]
    cases lastIndex q _ <;> rfl
  split at h
  · simp only [bind_ok_iff] at h
    obtain ⟨s6, h6, st, hst, h⟩ := h
    cases h
    obtain ⟨k1, k2, k3⟩ := detectTable_run detectorID _ s6 _ (hset _) rfl _ (by simp)
      (by omega) h6
    obtain ⟨rf, hrf, f1, f2, f3⟩ := detectFind_loop interestedMarkerIDs s6 0
      numInterestedMarkers.toNat
    have ef : st = rf := ok_inj (hst.symm.trans hrf)
    subst ef
    have k3b : ∀ q, mapFind s6.idTable q = (lastIndex q (markerIds L (L.markers
        (L.Detect d0 (fillImageHeader c1 nChannels colorModel channelSeq imageData) c1.cam
          true false maxMarkerError maxTrackError).1))).map (fun (j : Nat) => (q, (j : Int))) := by
      intro q
      have := k3 q
      simpa using this
    have hlist := hfm s6.idTable k3b
    refine ⟨rfl, ?_, ⟨_, ?_, rfl⟩, ?_⟩
    · show st.2 = _
      rw [f3, hlist]
      simp
    · show vecAt st.1.markerDetectors detectorID _ = _
      rw [f1, k1]
      exact hset _
    · show st.1.foundMarkers = _
      rw [f2, k2, hlist]
      rfl
  · rename_i hcond
    cases h
    have hempty : (requestedIds interestedMarkerIDs numInterestedMarkers).filterMap
        (fun q => lastIndex q (markerIds L (L.markers
          (L.Detect d0 (fillImageHeader c1 nChannels colorModel channelSeq imageData) c1.cam
            true false maxMarkerError maxTrackError).1))) = [] := by
      simp only [Bool.and_eq_true, decide_eq_true_eq, not_and, not_lt] at hcond
      by_cases hlen : (L.markers (L.Detect d0 (fillImageHeader c1 nChannels colorModel
          channelSeq imageData) c1.cam true false maxMarkerError maxTrackError).1).length = 0
      · rw [List.length_eq_zero] at hlen
        rw [hlen]
        exact lastIndex_nil_filterMap _
      · have hn : numInterestedMarkers ≤ 0 := hcond (by omega)
        have : numInterestedMarkers.toNat = 0 := by omega
        simp [requestedIds, this]
    refine ⟨rfl, ?_, ⟨_, hset _, rfl⟩, ?_⟩
    · rw [hempty]; rfl
    · rw [hempty]; rfl

/-- For in-range indices `alvar_detect_marker` returns: none of its loops indexes the
markers of the detector out of bounds. -/
theorem alvar_detect_marker_total {L : Alvar} (s : AState L) (detectorID camID nChannels : Int)
    (colorModel channelSeq : Buf Nat) (imageData : Ptr) (interestedMarkerIDs : Buf Int)
    (numFoundMarkers numInterestedMarkers : Int) (maxMarkerError maxTrackError : L.Double)
    (d : L.Detector) (c : ALVARCamera L)
    (hd : vecAt s.markerDetectors detectorID .markerDetectors_index = .ok d)
    (hc : vecAt s.cams camID .cams_index = .ok c)
    (hM : (markersAfterDetect L d c nChannels colorModel channelSeq imageData maxMarkerError
      maxTrackError).length < 2147483648) :
    ∃ r, alvar_detect_marker s detectorID camID nChannels colorModel channelSeq imageData
        interestedMarkerIDs numFoundMarkers numInterestedMarkers maxMarkerError maxTrackError
        = .ok r := by
  cases hF : alvar_detect_marker s detectorID camID nChannels colorModel channelSeq imageData
      interestedMarkerIDs numFoundMarkers numInterestedMarkers maxMarkerError maxTrackError with
  | ok r => exact ⟨r, rfl⟩
  | error e =>
    exfalso
    have hgd := check_of_vecAt _ _ _ _ hd
    have hgc := check_of_vecAt _ _ _ _ hc
    have h := hF
    unfold alvar_detect_marker at h
    rw [if_neg (by simp [hgd, hgc])] at h
    simp only [bind_error_iff] at h
    have hset : ∀ f, vecAt (vecSet s.markerDetectors detectorID
        (L.Detect d (fillImageHeader c nChannels colorModel channelSeq imageData) c.cam true
          false maxMarkerError maxTrackError).1) detectorID f = .ok
        (L.Detect d (fillImageHeader c nChannels colorModel channelSeq imageData) c.cam true
          false maxMarkerError maxTrackError).1 := fun f => vecAt_vecSet _ _ _ _ hgd
    rcases h with h | ⟨c0, hc0, h | ⟨d0, hd0, h | ⟨c1, hc1, h | ⟨d1, hd1, h | ⟨d2, hd2, h⟩⟩⟩⟩⟩
    · exact vecAt_not_error _ _ _ _ hgc h
    · exact vecAt_not_error _ _ _ _ hgd h
    · exact vecAt_not_error _ _ _ _ hgc h
    · exact vecAt_not_error _ _ _ _ (by simpa [AState.logCall] using hgd) h
    · exact vecAt_not_error _ _ _ _ (by simpa [AState.logCall] using hgd) h
    · have ec0 : c0 = c := ok_inj (hc0.symm.trans hc)
      subst ec0
      have ed0 : d0 = d := ok_inj (hd0.symm.trans hd)
      subst ed0
      have ec1 : c1 = c0 := ok_inj (hc1.symm.trans hc)
      subst ec1
      have ed2 : d2 = (L.Detect d0 (fillImageHeader c1 nChannels colorModel channelSeq
          imageData) c1.cam true false maxMarkerError maxTrackError).1 :=
        ok_inj (hd2.symm.trans (hset _))
      subst ed2
      unfold markersAfterDetect at hM
      rw [toInt_of_small _ (by omega) (by omega)] at h
      split at h
      · simp only [bind_error_iff] at h
        rcases h with h | ⟨s6, h6, h | ⟨st, -, h⟩⟩
        · exact detectTable_not_error detectorID _ _ e hd2 rfl _ (by simp) (by omega) h
        · obtain ⟨rf, hrf, -⟩ := detectFind_loop interestedMarkerIDs s6 0
            numInterestedMarkers.toNat
          rw [hrf] at h
          cases h
        · cases h
      · cases h

/-- The loop of `alvar_get_poses`, run for the first `n` entries of `foundMarkers`, when
these entries are positions of markers of the detector: it returns, entry `k` of `ids` holds
the id of the marker at position `foundMarkers[k]` and the `k`-th block of 16 doubles of
`poseMats` its pose matrix, and the rest of both buffers is as it was. -/
theorem getPoses_loop {L : Alvar} (detectorID : Int) (s1 : AState L) (d1 : L.Detector)
    (FM : List Nat) (ids : Buf Int) (poseMats : Buf L.Double)
    (hd1 : vecAt s1.markerDetectors detectorID .markerDetectors_index = .ok d1)
    (hfm : s1.foundMarkers = FM.map (fun (j : Nat) => (j : Int)))
    (hin : ∀ j, j ∈ FM → j < (L.markers d1).length)
    (hb : (L.markers d1).length < 4294967296) (hbf : FM.length < 4294967296)
    (n : Nat) (hn : n ≤ FM.length) :
    ∃ r, forLoop n (getPosesStep detectorID) (s1, ids, poseMats) = .ok r ∧
      r.1.markerDetectors = s1.markerDetectors ∧ r.1.foundMarkers = s1.foundMarkers ∧
      (∀ (k j : Nat) (m : L.Marker), k < n → FM[k]? = some j → (L.markers d1)[j]? = some m →
        r.2.1 k = L.GetId m ∧
        ∀ x, x < 16 → r.2.2 (16 * k + x) = L.GetMatrixGL (L.pose m) x) ∧
      (∀ k, n ≤ k → r.2.1 k = ids k) ∧
      (∀ x, 16 * n ≤ x → r.2.2 x = poseMats x) := by
  refine forLoop_total
    (fun i (st : AState L × Buf Int × Buf L.Double) =>
      st.1.markerDetectors = s1.markerDetectors ∧ st.1.foundMarkers = s1.foundMarkers ∧
      (∀ (k j : Nat) (m : L.Marker), k < i → FM[k]? = some j → (L.markers d1)[j]? = some m →
        st.2.1 k = L.GetId m ∧
        ∀ x, x < 16 → st.2.2 (16 * k + x) = L.GetMatrixGL (L.pose m) x) ∧
      (∀ k, i ≤ k → st.2.1 k = ids k) ∧
      (∀ x, 16 * i ≤ x → st.2.2 x = poseMats x))
    n (getPosesStep detectorID) ?_ (s1, ids, poseMats)
    ⟨rfl, rfl, fun k j m hk => absurd hk (Nat.not_lt_zero k), fun _ _ => rfl, fun _ _ => rfl⟩
  intro i st hi ⟨h1, h2, h3, h4, h5⟩
  have hiF : i < FM.length := by omega
  have hjlt : FM[i] < (L.markers d1).length := hin _ (List.getElem_mem hiF)
  have hf : vecAt (FM.map (fun (j : Nat) => (j : Int))) (i : Int) .foundMarkers_index
      = .ok (FM[i] : Int) := by
    rw [vecAt_natCast _ i _ (by simpa using hiF) (by omega)]
    simp
  have hm := vecAt_natCast (L.markers d1) FM[i] .markers_index hjlt (by omega)
  simp only [getPosesStep, AState.logCall, h1, h2, hd1, hfm, hf, hm, bind, Except.bind]
  refine ⟨_, rfl, rfl, rfl, ?_, ?_, ?_⟩
  · intro k j m hk hkj hjm
    by_cases hki : k = i
    · subst hki
      rw [List.getElem?_eq_getElem hiF] at hkj
      simp only [Option.some.injEq] at hkj
      subst hkj
      rw [List.getElem?_eq_getElem hjlt] at hjm
      simp only [Option.some.injEq] at hjm
      subst hjm
      constructor
      · simp [Buf.write]
      · intro x hx
        simp only [Buf.memcpy]
        rw [if_pos (by omega)]
        congr 1
        omega
    · obtain ⟨g1, g2⟩ := h3 k j m (by omega) hkj hjm
      constructor
      · simp only [Buf.write, if_neg hki]
        exact g1
      · intro x hx
        simp only [Buf.memcpy]
        rw [if_neg (by omega)]
        exact g2 x hx
  · intro k hk
    simp only [Buf.write]
    rw [if_neg (by omega)]
    exact h4 k (by omega)
  · intro x hx
    simp only [Buf.memcpy]
    rw [if_neg (by omega)]
    exact h5 x (by omega)

/-- What `alvar_get_poses` does when `foundMarkers` lists positions of markers of the
detector: it returns, entry `k` of `ids` holds the id of the marker at position
`foundMarkers[k]` and the `k`-th block of 16 doubles of `poseMats` its pose matrix, and the
rest of both buffers is as it was. -/
theorem alvar_get_poses_found {L : Alvar} (detectorID : Int) (s1 : AState L) (d1 : L.Detector)
    (FM : List Nat) (ids : Buf Int) (poseMats : Buf L.Double)
    (hd1 : vecAt s1.markerDetectors detectorID .markerDetectors_index = .ok d1)
    (hfm : s1.foundMarkers = FM.map (fun (j : Nat) => (j : Int)))
    (hin : ∀ j, j ∈ FM → j < (L.markers d1).length)
    (hb : (L.markers d1).length < 2147483648) (hbf : FM.length < 2147483648) :
    ∃ r, alvar_get_poses s1 detectorID ids poseMats = .ok r ∧
      (∀ (k j : Nat) (m : L.Marker), FM[k]? = some j → (L.markers d1)[j]? = some m →
        r.2.1 k = L.GetId m ∧
        ∀ x, x < 16 → r.2.2 (16 * k + x) = L.GetMatrixGL (L.pose m) x) ∧
      (∀ k, FM.length ≤ k → r.2.1 k = ids k) ∧
      (∀ x, 16 * FM.length ≤ x → r.2.2 x = poseMats x) := by
  have hgd := check_of_vecAt _ _ _ _ hd1
  have hlen : s1.foundMarkers.length = FM.length := by rw [hfm]; simp
  unfold alvar_get_poses
  rw [if_neg (by simp [hgd])]
  simp only [hlen]
  rw [toInt_of_small _ (by omega) (by omega)]
  by_cases hz : FM.length = 0
  · rw [if_pos (by simp [hz])]
    refine ⟨_, rfl, ?_, fun _ _ => rfl, fun _ _ => rfl⟩
    intro k j m hk
    rw [List.length_eq_zero] at hz
    simp [hz] at hk
  · rw [if_neg (by simpa using hz)]
    obtain ⟨r, hr, -, -, g3, g4, g5⟩ := getPoses_loop detectorID s1 d1 FM ids poseMats hd1 hfm
      hin (by omega) (by omega) FM.length (le_refl _)
    refine ⟨r, hr, ?_, g4, g5⟩
    intro k j m hk hm
    exact g3 k j m (List.getElem?_eq_some_iff.1 hk).1 hk hm

theorem requestedIds_length (ids : Buf Int) (n : Int) :
    (requestedIds ids n).length = n.toNat := by
  simp [requestedIds]

theorem lastIndex_isSome_eq (idsM : List Int) (x : Int) :
    (lastIndex x idsM).isSome = decide (x ∈ idsM) := by
  have := lastIndex_isSome_iff x idsM
  by_cases hx : x ∈ idsM
  · simp [hx, this.2 hx]
  · have hn : ¬ (lastIndex x idsM).isSome = true := fun h => hx (this.1 h)
    simp [hx, hn]

/-! ## C12: `alvar_detect_marker` followed by `alvar_get_poses` -/

/-- C12: `alvar_detect_marker` followed by `alvar_get_poses` on the same detector reports
exactly the requested markers that were detected, in the order of the requests.  Let `d` be
`markerDetectors[detectorID]` and `c` be `cams[camID]` (both in range), `ms` the markers the
detector holds after `Detect`, and the requested ids the first `*numInterestedMarkers`
entries of `interestedMarkerIDs`.  `alvar_detect_marker` returns, sets `*numFoundMarkers` to
the number of markers `ms` and `*numInterestedMarkers` to the number of requested ids that
occur among the ids of `ms` (`reportedIds`), which is 0 when `ms` is empty or the number of
requests is not positive, and never more than the number of requests.  `alvar_get_poses`
then returns, entry `k` of `ids` is the `k`-th of these reported ids, the `k`-th block of
16 doubles of `poseMats` is the pose matrix of the last marker of `ms` carrying that id, and
both buffers are as they were behind the reported entries.  The detector is taken to hold
fewer than 2^31 markers. -/
theorem detect_then_get_poses_reports_requested {L : Alvar} (s : AState L)
    (detectorID camID nChannels : Int) (colorModel channelSeq : Buf Nat) (imageData : Ptr)
    (interestedMarkerIDs : Buf Int) (numFoundMarkers numInterestedMarkers : Int)
    (maxMarkerError maxTrackError : L.Double) (ids : Buf Int) (poseMats : Buf L.Double)
    (d : L.Detector) (c : ALVARCamera L)
    (hd : vecAt s.markerDetectors detectorID .markerDetectors_index = .ok d)
    (hc : vecAt s.cams camID .cams_index = .ok c)
    (hM : (markersAfterDetect L d c nChannels colorModel channelSeq imageData maxMarkerError
      maxTrackError).length < 2147483648)
    (hn : isInt numInterestedMarkers) :
    ∃ s1, alvar_detect_marker s detectorID camID nChannels colorModel channelSeq imageData
        interestedMarkerIDs numFoundMarkers numInterestedMarkers maxMarkerError maxTrackError
        = .ok (s1,
          ((markersAfterDetect L d c nChannels colorModel channelSeq imageData maxMarkerError
            maxTrackError).length : Int),
          ((reportedIds (requestedIds interestedMarkerIDs numInterestedMarkers)
            (markerIds L (markersAfterDetect L d c nChannels colorModel channelSeq imageData
              maxMarkerError maxTrackError))).length : Int)) ∧
      (reportedIds (requestedIds interestedMarkerIDs numInterestedMarkers)
        (markerIds L (markersAfterDetect L d c nChannels colorModel channelSeq imageData
          maxMarkerError maxTrackError))).length ≤ numInterestedMarkers.toNat ∧
      ((markersAfterDetect L d c nChannels colorModel channelSeq imageData maxMarkerError
          maxTrackError = [] ∨ numInterestedMarkers ≤ 0) →
        reportedIds (requestedIds interestedMarkerIDs numInterestedMarkers)
          (markerIds L (markersAfterDetect L d c nChannels colorModel channelSeq imageData
            maxMarkerError maxTrackError)) = []) ∧
      ∃ s2 ids2 poseMats2, alvar_get_poses s1 detectorID ids poseMats
          = .ok (s2, ids2, poseMats2) ∧
        (∀ (k : Nat) (x : Int),
          (reportedIds (requestedIds interestedMarkerIDs numInterestedMarkers)
            (markerIds L (markersAfterDetect L d c nChannels colorModel channelSeq imageData
              maxMarkerError maxTrackError)))[k]? = some x →
          ids2 k = x ∧
          ∃ m, lastWithId L x (markersAfterDetect L d c nChannels colorModel channelSeq
              imageData maxMarkerError maxTrackError) = some m ∧
            ∀ j, j < 16 → poseMats2 (16 * k + j) = L.GetMatrixGL (L.pose m) j) ∧
        (∀ k, (reportedIds (requestedIds interestedMarkerIDs numInterestedMarkers)
            (markerIds L (markersAfterDetect L d c nChannels colorModel channelSeq imageData
              maxMarkerError maxTrackError))).length ≤ k → ids2 k = ids k) ∧
        (∀ x, 16 * (reportedIds (requestedIds interestedMarkerIDs numInterestedMarkers)
            (markerIds L (markersAfterDetect L d c nChannels colorModel channelSeq imageData
              maxMarkerError maxTrackError))).length ≤ x → poseMats2 x = poseMats x) := by
  obtain ⟨r, hr⟩ := alvar_detect_marker_total s detectorID camID nChannels colorModel
    channelSeq imageData interestedMarkerIDs numFoundMarkers numInterestedMarkers
    maxMarkerError maxTrackError d c hd hc hM
  obtain ⟨e1, e2, ⟨d1, hd1, hms⟩, e4⟩ := alvar_detect_marker_ok s detectorID camID nChannels
    colorModel channelSeq imageData interestedMarkerIDs numFoundMarkers numInterestedMarkers
    maxMarkerError maxTrackError d c hd hc hM r hr
  generalize hMS : markersAfterDetect L d c nChannels colorModel channelSeq imageData
    maxMarkerError maxTrackError = ms at *
  generalize hR : requestedIds interestedMarkerIDs numInterestedMarkers = R at *
  obtain ⟨q1, q2⟩ := filterMap_filter (fun q => lastIndex q (markerIds L ms))
    (fun x => decide (x ∈ markerIds L ms)) (lastIndex_isSome_eq (markerIds L ms)) R
  have hRlen : R.length = numInterestedMarkers.toNat := by
    rw [← hR]; exact requestedIds_length _ _
  have hrep : (reportedIds R (markerIds L ms)).length ≤ numInterestedMarkers.toNat := by
    rw [← hRlen]
    exact List.length_filter_le _ _
  have hnat : numInterestedMarkers.toNat < 2147483648 := by
    unfold isInt at hn
    omega
  have hin : ∀ j, j ∈ R.filterMap (fun q => lastIndex q (markerIds L ms)) →
      j < (L.markers d1).length := by
    intro j hj
    rw [List.mem_filterMap] at hj
    obtain ⟨q, -, hq⟩ := hj
    have := lastIndex_lt q _ j hq
    rw [hms]
    simpa [markerIds] using this
  obtain ⟨r2, hr2, p1, p2, p3⟩ := alvar_get_poses_found detectorID r.1 d1
    (R.filterMap (fun q => lastIndex q (markerIds L ms))) ids poseMats hd1 e4 hin
    (by rw [hms]; exact hM) (by unfold reportedIds at hrep; omega)
  refine ⟨r.1, ?_, hrep, ?_, r2.1, r2.2.1, r2.2.2, hr2, ?_, ?_, ?_⟩
  · rw [hr]
    have : r = (r.1, r.2.1, r.2.2) := rfl
    rw [this, e1, e2, q1]
    rfl
  · rintro (h | h)
    · simp [reportedIds, markerIds, h]
    · have : numInterestedMarkers.toNat = 0 := by omega
      rw [this] at hRlen
      rw [List.length_eq_zero] at hRlen
      simp [reportedIds, hRlen]
  · intro k x hk
    have hfk := q2 k x hk
    have hxmem : x ∈ markerIds L ms := by
      have := List.getElem?_mem hk
      unfold reportedIds at this
      rw [List.mem_filter] at this
      simpa using this.2
    cases hli : lastIndex x (markerIds L ms) with
    | none => exact absurd hxmem ((lastIndex_eq_none_iff x _).1 hli)
    | some j =>
      obtain ⟨m, m1, m2, m3⟩ := lastWithId_of_lastIndex L x ms j hli
      rw [hli] at hfk
      obtain ⟨g1, g2⟩ := p1 k j m hfk (by rw [hms]; exact m1)
      exact ⟨g1.trans m3, m, m2, g2⟩
  · intro k hk
    exact p2 k (by rw [q1]; exact hk)
  · intro x hx
    exact p3 x (by rw [q1]; exact hx)

/-- C12, evaluated: in the toy scene the frame holds the markers 9, 7, 9 and the caller asks
for 7, 3, 9, 7, 5.  The detect call reports 3 markers and 3 requested ones, and
`alvar_get_poses` writes the ids 7, 9, 7, leaves entry 3 alone and puts the pose of marker 9
in the second block. -/
theorem detect_then_get_poses_reports_requested_witness :
    ∃ s1, alvar_detect_marker toyScene 0 0 3 (fun _ => 65) (fun _ => 66) 9
        (fun i => [7, 3, 9, 7, 5].getD i 0) 0 5 0 0 = .ok (s1, 3, 3) ∧
      ∃ s2 ids2 poseMats2, alvar_get_poses s1 0 (fun _ => 0) (fun _ => 0)
          = .ok (s2, ids2, poseMats2) ∧
        ids2 0 = 7 ∧ ids2 1 = 9 ∧ ids2 2 = 7 ∧ ids2 3 = 0 ∧ poseMats2 16 = 900 := by
  obtain ⟨s1, h1, -, -, s2, ids2, pm2, h2, h3, h4, -⟩ :=
    detect_then_get_poses_reports_requested toyScene 0 0 3 (fun _ => 65) (fun _ => 66) 9
      (fun i => [7, 3, 9, 7, 5].getD i 0) 0 5 0 0 (fun _ => 0) (fun _ => 0) _ _ rfl rfl
      (by decide) (by decide)
  obtain ⟨m, hm, hp⟩ := (h3 1 9 rfl).2
  have hm2 : some (9 : Int) = some m := hm
  cases hm2
  exact ⟨s1, h1, s2, ids2, pm2, h2, (h3 0 7 rfl).1, (h3 1 9 rfl).1, (h3 2 7 rfl).1,
    h4 3 (by decide), hp 0 (by decide)⟩

/-! ## C13: the indices in `foundMarkers` after `alvar_detect_marker` -/

/-- C13: directly after `alvar_detect_marker` on the in-range detector `detectorID` and
camera `camID`, every index in `foundMarkers` is a position in the list of markers the
detector holds, and `*numInterestedMarkers` was set to the size of `foundMarkers`.  A
following `alvar_get_poses` on the same detector therefore returns without reading a marker
out of range: entry `k` of `ids`, for each `k` below the size of `foundMarkers`, is the id of
the marker at position `foundMarkers[k]` and the `k`-th block of 16 doubles of `poseMats` is
its pose matrix, while `ids` from that size on and `poseMats` from 16 times that size on are
as they were.  The detector is taken to hold fewer than 2^31 markers. -/
theorem found_markers_index_held_markers {L : Alvar} (s : AState L)
    (detectorID camID nChannels : Int) (colorModel channelSeq : Buf Nat) (imageData : Ptr)
    (interestedMarkerIDs : Buf Int) (numFoundMarkers numInterestedMarkers : Int)
    (maxMarkerError maxTrackError : L.Double) (ids : Buf Int) (poseMats : Buf L.Double)
    (d : L.Detector) (c : ALVARCamera L)
    (hd : vecAt s.markerDetectors detectorID .markerDetectors_index = .ok d)
    (hc : vecAt s.cams camID .cams_index = .ok c)
    (hM : (markersAfterDetect L d c nChannels colorModel channelSeq imageData maxMarkerError
      maxTrackError).length < 2147483648)
    (hn : isInt numInterestedMarkers) :
    ∃ s1 nf ni, alvar_detect_marker s detectorID camID nChannels colorModel channelSeq
        imageData interestedMarkerIDs numFoundMarkers numInterestedMarkers maxMarkerError
        maxTrackError = .ok (s1, nf, ni) ∧
      ∃ d1, vecAt s1.markerDetectors detectorID .markerDetectors_index = .ok d1 ∧
        (∀ f, f ∈ s1.foundMarkers → 0 ≤ f ∧ f < ((L.markers d1).length : Int)) ∧
        ni = (s1.foundMarkers.length : Int) ∧
        ∃ s2 ids2 poseMats2, alvar_get_poses s1 detectorID ids poseMats
            = .ok (s2, ids2, poseMats2) ∧
          (∀ k, k < s1.foundMarkers.length →
            ∃ (f : Int) (m : L.Marker), s1.foundMarkers[k]? = some f ∧
              (L.markers d1)[f.toNat]? = some m ∧ ids2 k = L.GetId m ∧
              ∀ x, x < 16 → poseMats2 (16 * k + x) = L.GetMatrixGL (L.pose m) x) ∧
          (∀ k, s1.foundMarkers.length ≤ k → ids2 k = ids k) ∧
          (∀ x, 16 * s1.foundMarkers.length ≤ x → poseMats2 x = poseMats x) := by
  obtain ⟨r, hr⟩ := alvar_detect_marker_total s detectorID camID nChannels colorModel
    channelSeq imageData interestedMarkerIDs numFoundMarkers numInterestedMarkers
    maxMarkerError maxTrackError d c hd hc hM
  obtain ⟨e1, e2, ⟨d1, hd1, hms⟩, e4⟩ := alvar_detect_marker_ok s detectorID camID nChannels
    colorModel channelSeq imageData interestedMarkerIDs numFoundMarkers numInterestedMarkers
    maxMarkerError maxTrackError d c hd hc hM r hr
  generalize hMS : markersAfterDetect L d c nChannels colorModel channelSeq imageData
    maxMarkerError maxTrackError = ms at *
  generalize hFM : (requestedIds interestedMarkerIDs numInterestedMarkers).filterMap
    (fun q => lastIndex q (markerIds L ms)) = FM at *
  have hFMlen : FM.length ≤ numInterestedMarkers.toNat := by
    rw [← hFM, ← requestedIds_length interestedMarkerIDs numInterestedMarkers]
    exact List.length_filterMap_le _ _
  have hnat : numInterestedMarkers.toNat < 2147483648 := by
    unfold isInt at hn
    omega
  have hin : ∀ j, j ∈ FM → j < (L.markers d1).length := by
    intro j hj
    rw [← hFM, List.mem_filterMap] at hj
    obtain ⟨q, -, hq⟩ := hj
    have := lastIndex_lt q _ j hq
    rw [hms]
    simpa [markerIds] using this
  have hlen : r.1.foundMarkers.length = FM.length := by rw [e4]; simp
  obtain ⟨r2, hr2, p1, p2, p3⟩ := alvar_get_poses_found detectorID r.1 d1 FM ids poseMats
    hd1 e4 hin (by rw [hms]; exact hM) (by omega)
  refine ⟨r.1, r.2.1, r.2.2, hr, d1, hd1, ?_, ?_, r2.1, r2.2.1, r2.2.2, hr2, ?_, ?_, ?_⟩
  · intro f hf
    rw [e4, List.mem_map] at hf
    obtain ⟨j, hj, rfl⟩ := hf
    have := hin j hj
    omega
  · rw [e2, hlen]
  · intro k hk
    rw [hlen] at hk
    have hj : FM[k]? = some FM[k] := List.getElem?_eq_getElem hk
    have hjlt := hin FM[k] (List.getElem_mem hk)
    have hm : (L.markers d1)[FM[k]]? = some (L.markers d1)[FM[k]] :=
      List.getElem?_eq_getElem hjlt
    obtain ⟨g1, g2⟩ := p1 k FM[k] _ hj hm
    refine ⟨(FM[k] : Int), (L.markers d1)[FM[k]], ?_, ?_, g1, g2⟩
    · rw [e4, List.getElem?_map, hj]
      rfl
    · rw [Int.toNat_ofNat]
      exact hm
  · intro k hk
    exact p2 k (by rw [← hlen]; exact hk)
  · intro x hx
    exact p3 x (by rw [← hlen]; exact hx)

/-- C13, evaluated: in the toy scene, after detecting in the frame with markers 9, 7, 9 for
the requests 7, 3, 9, 7, 5, the detector holds 3 markers, `foundMarkers` has 3 entries, all
below 3, and `alvar_get_poses` returns leaving entry 3 of `ids` and entry 48 of `poseMats`
as they were. -/
theorem found_markers_index_held_markers_witness :
    ∃ s1 d1, vecAt s1.markerDetectors 0 .markerDetectors_index = .ok d1 ∧
      (∀ f, f ∈ s1.foundMarkers → 0 ≤ f ∧ f < ((toyAlvar.markers d1).length : Int)) ∧
      (∃ nf, alvar_detect_marker toyScene 0 0 3 (fun _ => 65) (fun _ => 66) 9
        (fun i => [7, 3, 9, 7, 5].getD i 0) 0 5 0 0
        = .ok (s1, nf, (s1.foundMarkers.length : Int))) ∧
      ∃ s2 ids2 poseMats2, alvar_get_poses s1 0 (fun _ => 4) (fun _ => 5)
          = .ok (s2, ids2, poseMats2) ∧
        (∀ k, s1.foundMarkers.length ≤ k → ids2 k = 4) ∧
        (∀ x, 16 * s1.foundMarkers.length ≤ x → poseMats2 x = 5) := by
  obtain ⟨s1, nf, ni, h1, d1, h2, h3, h4, s2, ids2, pm2, h5, -, h6, h7⟩ :=
    found_markers_index_held_markers toyScene 0 0 3 (fun _ => 65) (fun _ => 66) 9
      (fun i => [7, 3, 9, 7, 5].getD i 0) 0 5 0 0 (fun _ => 4) (fun _ => 5) _ _ rfl rfl
      (by decide) (by decide)
  subst h4
  exact ⟨s1, d1, h2, h3, ⟨nf, h1⟩, s2, ids2, pm2, h5, h6, h7⟩

end SureShot
